import Mathlib

/-!
# ExternalNotificationModule: notification sequencer

Shallow embedding of `src/modules/ExternalNotificationModule.cpp`.

* The globals `peripheralState[3]`, `peripheralStateLastChanged[3]` and the members
  `isNagging`, `nagCycleCutoff`, `output` form one explicit `State` record.
* `millis()` is the argument `now` of every operation (one clock reading per call); the
  section *Separate clock reads* gives `handleReceived` and `runOnce` one clock value per
  `millis()` call site, for the property that depends on the difference.
* `rtttl::isPlaying()` is the argument `playing` of `runOnce`; no melody command is issued
  between the two places where `runOnce` reads it.
* Calls to collaborators (`digitalWrite`, `rtttl::begin/play/stop`, `setIntervalFromNow`,
  `nodeDB.saveProto`) are appended to `State.trace`, oldest first.
* C strings are the lists of their bytes before the terminator; buffer sizes declared in
  headers outside the source tree are arguments.
* `uint32_t` arithmetic is `Nat` arithmetic reduced modulo `2^32` where the source adds or
  multiplies.
* The blocks compiled only under `HAS_NCP5623` and `T_WATCH_S3` (RGB LED, haptic driver) and
  the log calls are left out.
-/

namespace ExternalNotification

/-- The `enum Peripheral` of the source. -/
inductive Peripheral where
  | SIGNAL
  | BUZZER
  | VIBRA
  deriving DecidableEq, Repr

/-- Largest `uint32_t`. -/
def UINT32_MAX : Nat := 4294967295

/-- Largest `int32_t`. -/
def INT32_MAX : Int := 2147483647

/-- The `#define EXT_NOTIFICATION_MODULE_OUTPUT_MS 1000`. -/
def EXT_NOTIFICATION_MODULE_OUTPUT_MS : Nat := 1000

/-- The `#define ASCII_BELL 0x07`. -/
def ASCII_BELL : Nat := 7

/-- Reduction of an unsigned result to 32 bits. -/
def u32 (n : Nat) : Nat := n % 4294967296

/-- A three-element array indexed by `Peripheral`. -/
structure PerArray (α : Type) where
  signal : α
  buzzer : α
  vibra : α
  deriving DecidableEq, Repr

/-- Array read `a[p]`. -/
def PerArray.get {α : Type} (a : PerArray α) : Peripheral → α
  | .SIGNAL => a.signal
  | .BUZZER => a.buzzer
  | .VIBRA => a.vibra

/-- Array write `a[p] = v`. -/
def PerArray.set {α : Type} (a : PerArray α) (p : Peripheral) (v : α) : PerArray α :=
  match p with
  | .SIGNAL => { a with signal := v }
  | .BUZZER => { a with buzzer := v }
  | .VIBRA => { a with vibra := v }

/-- The fields of `moduleConfig.external_notification` read by the module. -/
structure ModuleConfig where
  enabled : Bool
  output_ms : Nat
  output : Nat
  output_vibra : Nat
  output_buzzer : Nat
  active : Bool
  alert_message : Bool
  alert_message_buzzer : Bool
  alert_message_vibra : Bool
  alert_bell : Bool
  alert_bell_buzzer : Bool
  alert_bell_vibra : Bool
  use_pwm : Bool
  nag_timeout : Nat
  deriving DecidableEq, Repr

/-- A call made to a collaborator of the module. -/
inductive Effect where
  | digitalWrite (pin : Int) (level : Bool)
  | rtttlBegin (pin : Nat) (ringtone : List Nat)
  | rtttlPlay
  | rtttlStop
  | setIntervalFromNow (ms : Nat)
  | saveProto (ringtone : List Nat)
  | pinMode (pin : Int)
  | disable
  deriving DecidableEq, Repr

/-- The mutable data of the module: the two global arrays, the members `isNagging`,
`nagCycleCutoff` and `output`, `config.device.buzzer_gpio`, `rtttlConfig.ringtone`
(the bytes before the terminator), and the calls made so far. -/
structure State where
  peripheralState : PerArray Bool
  peripheralStateLastChanged : PerArray Nat
  isNagging : Bool
  nagCycleCutoff : Nat
  output : Int
  buzzer_gpio : Nat
  ringtone : List Nat
  trace : List Effect
  deriving DecidableEq, Repr

/-- The `payload` of a decoded packet: a byte array with its used length. -/
structure Payload where
  size : Nat
  bytes : List Nat
  deriving DecidableEq, Repr

/-- The parts of `meshtastic_MeshPacket` the module reads; `sender` is the value of
`getFrom(&mp)`. -/
structure MeshPacket where
  sender : Nat
  payload : Payload
  want_response : Bool
  deriving DecidableEq, Repr

/-- The `enum class ProcessMessage`. -/
inductive ProcessMessage where
  | CONTINUE
  | STOP
  deriving DecidableEq, Repr

/-- Record one call to a collaborator. -/
def emit (e : Effect) (s : State) : State :=
  { s with trace := s.trace ++ [e] }

/-- The `ExternalNotificationModule::setPeripheralOn`. -/
def setPeripheralOn (cfg : ModuleConfig) (now : Nat) (p : Peripheral) (s : State) : State :=
  let s1 : State :=
    { s with peripheralState := s.peripheralState.set p true,
             peripheralStateLastChanged := s.peripheralStateLastChanged.set p now }
  match p with
  | .BUZZER =>
    if cfg.output_buzzer ≠ 0 then emit (.digitalWrite cfg.output_buzzer true) s1 else s1
  | .VIBRA =>
    if cfg.output_vibra ≠ 0 then emit (.digitalWrite cfg.output_vibra true) s1 else s1
  | .SIGNAL =>
    if s1.output > 0 then emit (.digitalWrite s1.output (if cfg.active then true else false)) s1
    else s1

/-- The `ExternalNotificationModule::setPeripheralOff`. -/
def setPeripheralOff (cfg : ModuleConfig) (now : Nat) (p : Peripheral) (s : State) : State :=
  let s1 : State :=
    { s with peripheralState := s.peripheralState.set p false,
             peripheralStateLastChanged := s.peripheralStateLastChanged.set p now }
  match p with
  | .SIGNAL =>
    if s1.output > 0 then emit (.digitalWrite s1.output (if cfg.active then false else true)) s1
    else s1
  | .BUZZER =>
    if cfg.output_buzzer ≠ 0 then emit (.digitalWrite cfg.output_buzzer false) s1 else s1
  | .VIBRA =>
    if cfg.output_vibra ≠ 0 then emit (.digitalWrite cfg.output_vibra false) s1 else s1

/-- The `ExternalNotificationModule::getPeripheralState`. -/
def getPeripheralState (s : State) (p : Peripheral) : Bool :=
  s.peripheralState.get p

/-- The hold duration of line 96: `output_ms ? output_ms : EXT_NOTIFICATION_MODULE_OUTPUT_MS`. -/
def holdDuration (cfg : ModuleConfig) : Nat :=
  if cfg.output_ms ≠ 0 then cfg.output_ms else EXT_NOTIFICATION_MODULE_OUTPUT_MS

/-- Body of the loop of lines 95-99 for one peripheral. -/
def togglePeripheral (cfg : ModuleConfig) (now : Nat) (s : State) (p : Peripheral) : State :=
  if now > u32 (s.peripheralStateLastChanged.get p + holdDuration cfg) then
    if getPeripheralState s p then setPeripheralOff cfg now p s else setPeripheralOn cfg now p s
  else s

/-- The loop of lines 95-99 over `{SIGNAL, BUZZER, VIBRA}`. -/
def toggleAll (cfg : ModuleConfig) (now : Nat) (s : State) : State :=
  [Peripheral.SIGNAL, Peripheral.BUZZER, Peripheral.VIBRA].foldl (togglePeripheral cfg now) s

/-- The tone-mode refresh of lines 131-140. -/
def refreshMelody (cfg : ModuleConfig) (now : Nat) (playing : Bool) (s : State) : State :=
  if cfg.use_pwm then
    if playing then emit .rtttlPlay s
    else if s.isNagging && decide (now < s.nagCycleCutoff) then
      emit (.rtttlBegin s.buzzer_gpio s.ringtone) s
    else s
  else s

/-- The `ExternalNotificationModule::runOnce`: the returned delay and the new state. -/
def runOnce (cfg : ModuleConfig) (now : Nat) (playing : Bool) (s : State) : Int × State :=
  if !cfg.enabled then
    (INT32_MAX, s)
  else
    if decide (now > s.nagCycleCutoff) && !playing then
      let s1 : State := { s with nagCycleCutoff := UINT32_MAX }
      let s2 : State :=
        [Peripheral.SIGNAL, Peripheral.VIBRA].foldl (fun st p => setPeripheralOff cfg now p st) s1
      (INT32_MAX, { s2 with isNagging := false })
    else
      let s1 : State := if s.isNagging then toggleAll cfg now s else s
      (25, refreshMelody cfg now playing s1)

/-- The `ExternalNotificationModule::stopNow`. -/
def stopNow (s : State) : State :=
  let s1 : State := emit .rtttlStop s
  let s2 : State := { s1 with isNagging := false, nagCycleCutoff := 1 }
  emit (.setIntervalFromNow 0) s2

/-- The assignment to `nagCycleCutoff` repeated in each block of `handleReceived`
(lines 343-347, 358-362, 369-373, 393-397, 409-413, 421-425). -/
def setNagCycleCutoff (cfg : ModuleConfig) (now : Nat) (s : State) : State :=
  if cfg.nag_timeout ≠ 0 then
    { s with nagCycleCutoff := u32 (now + u32 (cfg.nag_timeout * 1000)) }
  else
    { s with nagCycleCutoff := u32 (now + cfg.output_ms) }

/-- The signal block of `handleReceived` (lines 339-347 and 389-397). -/
def armSignal (cfg : ModuleConfig) (now : Nat) (s : State) : State :=
  setNagCycleCutoff cfg now (setPeripheralOn cfg now .SIGNAL { s with isNagging := true })

/-- The buzzer block of `handleReceived` (lines 351-362 and 401-413). -/
def armBuzzer (cfg : ModuleConfig) (now : Nat) (s : State) : State :=
  let s1 : State := { s with isNagging := true }
  let s2 : State :=
    if !cfg.use_pwm then setPeripheralOn cfg now .BUZZER s1
    else emit (.rtttlBegin s1.buzzer_gpio s1.ringtone) s1
  setNagCycleCutoff cfg now s2

/-- The vibration block of `handleReceived` (lines 366-373 and 417-425). -/
def armVibra (cfg : ModuleConfig) (now : Nat) (s : State) : State :=
  setNagCycleCutoff cfg now (setPeripheralOn cfg now .VIBRA { s with isNagging := true })

/-- The bell scan of lines 378-383 over the first `size` bytes of the payload. -/
def containsBell (p : Payload) : Bool :=
  (List.range p.size).foldl
    (fun acc i => if p.bytes.getD i 0 = ASCII_BELL then true else acc) false

/-- The `ExternalNotificationModule::handleReceived`; `nodeNum` is `nodeDB.getNodeNum()`. -/
def handleReceived (cfg : ModuleConfig) (nodeNum : Nat) (now : Nat) (mp : MeshPacket)
    (s : State) : ProcessMessage × State :=
  if cfg.enabled then
    if mp.sender ≠ nodeNum then
      let s1 : State := if cfg.alert_message then armSignal cfg now s else s
      let s2 : State := if cfg.alert_message_buzzer then armBuzzer cfg now s1 else s1
      let s3 : State := if cfg.alert_message_vibra then armVibra cfg now s2 else s2
      let s6 : State :=
        if containsBell mp.payload then
          let s4 : State := if cfg.alert_bell then armSignal cfg now s3 else s3
          let s5 : State := if cfg.alert_bell_buzzer then armBuzzer cfg now s4 else s4
          if cfg.alert_bell_vibra then armVibra cfg now s5 else s5
        else s3
      (.CONTINUE, emit (.setIntervalFromNow 0) s6)
    else
      (.CONTINUE, s)
  else
    (.CONTINUE, s)

/-- The three kinds of call the module receives: an inbound packet (`handleReceived`),
a scheduler tick (`runOnce`) and an immediate stop (`stopNow`). -/
inductive Step where
  | arm (now : Nat) (mp : MeshPacket)
  | tick (now : Nat) (playing : Bool)
  | stop
  deriving DecidableEq, Repr

/-- One call applied to the state. -/
def applyStep (cfg : ModuleConfig) (nodeNum : Nat) (s : State) : Step → State
  | .arm now mp => (handleReceived cfg nodeNum now mp s).2
  | .tick now playing => (runOnce cfg now playing s).2
  | .stop => stopNow s

/-- A sequence of calls applied in order. -/
def run (cfg : ModuleConfig) (nodeNum : Nat) (s : State) (steps : List Step) : State :=
  steps.foldl (applyStep cfg nodeNum) s

/-- Some trigger flag matches the packet: a message flag, or a bell flag when the payload
holds a bell byte. -/
def anyFlagMatches (cfg : ModuleConfig) (mp : MeshPacket) : Bool :=
  cfg.alert_message || cfg.alert_message_buzzer || cfg.alert_message_vibra ||
    (containsBell mp.payload && (cfg.alert_bell || cfg.alert_bell_buzzer || cfg.alert_bell_vibra))

/-- The call is a physical pin write. -/
def Effect.isWrite : Effect → Bool
  | .digitalWrite _ _ => true
  | _ => false

/-- The call is a melody engine command (begin, step or stop). -/
def Effect.isMelody : Effect → Bool
  | .rtttlBegin _ _ => true
  | .rtttlPlay => true
  | .rtttlStop => true
  | _ => false

/-- The tick at `now` with melody status `playing` is a Holding tick of state `s`: the
feature is enabled, an episode is active and the Idle test of line 80 fails. -/
def isHoldingTick (cfg : ModuleConfig) (s : State) (now : Nat) (playing : Bool) : Bool :=
  cfg.enabled && s.isNagging && !(decide (now > s.nagCycleCutoff) && !playing)

/-- Every tick of the run is a Holding tick of the state it meets. -/
def allHolding (cfg : ModuleConfig) : State → List (Nat × Bool) → Bool
  | _, [] => true
  | s, (now, playing) :: rest =>
    isHoldingTick cfg s now playing && allHolding cfg (runOnce cfg now playing s).2 rest

/-- The clock values of the ticks of a run at which the bookkeeping state of `p` changed. -/
def inversionTimes (cfg : ModuleConfig) (p : Peripheral) : State → List (Nat × Bool) → List Nat
  | _, [] => []
  | s, (now, playing) :: rest =>
    let s1 : State := (runOnce cfg now playing s).2
    if getPeripheralState s1 p = getPeripheralState s p then inversionTimes cfg p s1 rest
    else now :: inversionTimes cfg p s1 rest

/-- A configuration with the feature enabled, no trigger flag set and no pin configured. -/
def baseConfig : ModuleConfig :=
  { enabled := true, output_ms := 1000, output := 0, output_vibra := 0, output_buzzer := 0,
    active := true, alert_message := false, alert_message_buzzer := false,
    alert_message_vibra := false, alert_bell := false, alert_bell_buzzer := false,
    alert_bell_vibra := false, use_pwm := false, nag_timeout := 0 }

/-- A state with every peripheral off since time 0, no episode active, the given cutoff,
signal pin 2, melody pin 11, a short ringtone and an empty call record. -/
def quietState (cutoff : Nat) : State :=
  { peripheralState := { signal := false, buzzer := false, vibra := false },
    peripheralStateLastChanged := { signal := 0, buzzer := 0, vibra := 0 },
    isNagging := false, nagCycleCutoff := cutoff, output := 2, buzzer_gpio := 11,
    ringtone := [97, 58], trace := [] }

/-- A state inside an episode: Signal on, Buzzer and Vibration off, every timestamp equal to
`changed`, `isNagging` set, the given cutoff; pins as in `quietState`. -/
def episodeState (cutoff changed : Nat) : State :=
  { peripheralState := { signal := true, buzzer := false, vibra := false },
    peripheralStateLastChanged := { signal := changed, buzzer := changed, vibra := changed },
    isNagging := true, nagCycleCutoff := cutoff, output := 2, buzzer_gpio := 11,
    ringtone := [97, 58], trace := [] }

/-- A text packet from node 7 with payload "hi". -/
def plainPacket : MeshPacket :=
  { sender := 7, payload := { size := 2, bytes := [104, 105] }, want_response := false }

/-- The pin write, if any, that `setPeripheralOn` issues for `p`. -/
def onWrites (cfg : ModuleConfig) (output : Int) : Peripheral → List Effect
  | .SIGNAL => if output > 0 then [.digitalWrite output cfg.active] else []
  | .BUZZER => if cfg.output_buzzer ≠ 0 then [.digitalWrite cfg.output_buzzer true] else []
  | .VIBRA => if cfg.output_vibra ≠ 0 then [.digitalWrite cfg.output_vibra true] else []

/-- The pin write, if any, that `setPeripheralOff` issues for `p`. -/
def offWrites (cfg : ModuleConfig) (output : Int) : Peripheral → List Effect
  | .SIGNAL => if output > 0 then [.digitalWrite output (!cfg.active)] else []
  | .BUZZER => if cfg.output_buzzer ≠ 0 then [.digitalWrite cfg.output_buzzer false] else []
  | .VIBRA => if cfg.output_vibra ≠ 0 then [.digitalWrite cfg.output_vibra false] else []

/-- The value an arming block of `handleReceived` assigns to `nagCycleCutoff`. -/
def armCutoff (cfg : ModuleConfig) (now : Nat) : Nat :=
  if cfg.nag_timeout ≠ 0 then u32 (now + u32 (cfg.nag_timeout * 1000))
  else u32 (now + cfg.output_ms)

/-- The pin `setPeripheralOn` and `setPeripheralOff` write for `p`: the member `output` for
the signal, the configured `output_buzzer` and `output_vibra` for the other two. -/
def peripheralPin (cfg : ModuleConfig) (s : State) : Peripheral → Int
  | .SIGNAL => s.output
  | .BUZZER => cfg.output_buzzer
  | .VIBRA => cfg.output_vibra

/-- The pin of `p` passes the test made before the physical write: `output > 0` for the
signal, a non-zero pin for the buzzer and the vibration motor. -/
def pinConfigured (cfg : ModuleConfig) (s : State) : Peripheral → Bool
  | .SIGNAL => decide (s.output > 0)
  | .BUZZER => decide (cfg.output_buzzer ≠ 0)
  | .VIBRA => decide (cfg.output_vibra ≠ 0)

/-- The pin write, if any, that the loop body of lines 96-98 issues for `p`. -/
def toggleWrites (cfg : ModuleConfig) (now : Nat) (s : State) (p : Peripheral) : List Effect :=
  if now > u32 (s.peripheralStateLastChanged.get p + holdDuration cfg) then
    if s.peripheralState.get p then offWrites cfg s.output p else onWrites cfg s.output p
  else []

/-- The melody command, if any, that lines 131-140 issue. -/
def refreshCommands (cfg : ModuleConfig) (now : Nat) (playing : Bool) (s : State) :
    List Effect :=
  if cfg.use_pwm then
    if playing then [.rtttlPlay]
    else if s.isNagging && decide (now < s.nagCycleCutoff) then
      [.rtttlBegin s.buzzer_gpio s.ringtone]
    else []
  else []

/-- A run of ticks as a sequence of calls: each pair is a clock value and the melody status
the tick observes. -/
def tickSteps (ticks : List (Nat × Bool)) : List Step :=
  ticks.map (fun t => Step.tick t.1 t.2)

/-! ## Ringtone requests

C strings are lists of their bytes before the terminator. -/

/-- The `strcmp` of the C library on two strings: zero when they are equal, otherwise the
difference of the first pair of bytes that differ (the end of a string counting as 0). -/
def strcmp : List Nat → List Nat → Int
  | [], [] => 0
  | [], b :: _ => 0 - (b : Int)
  | a :: _, [] => (a : Int)
  | a :: as, b :: bs => if a = b then strcmp as bs else (a : Int) - (b : Int)

/-- The `strncpy(dest, src, n)` of the C library: the string held by `dest` afterwards. A
source of `n` bytes or more leaves its first `n` bytes in `dest`, without terminator. -/
def strncpy (src : List Nat) (n : Nat) : List Nat :=
  src.take n

/-- The values of `which_payload_variant` the module distinguishes. -/
inductive AdminTag where
  | get_ringtone_request_tag
  | get_ringtone_response_tag
  | set_ringtone_message_tag
  | other (tag : Nat)
  deriving DecidableEq, Repr

/-- The parts of `meshtastic_AdminMessage` the module touches: the tag and the payload
union read as a string (`get_ringtone_response`, `set_ringtone_message` and
`set_canned_message_module_messages` are members of that union). -/
structure AdminMessage where
  which_payload_variant : AdminTag
  payload_variant : List Nat
  deriving DecidableEq, Repr

/-- The `ExternalNotificationModule::handleGetRingtone`; `responseSize` is
`sizeof(response->get_ringtone_response)`. -/
def handleGetRingtone (responseSize : Nat) (req : MeshPacket) (s : State)
    (response : AdminMessage) : AdminMessage :=
  if req.want_response then
    { response with which_payload_variant := .get_ringtone_response_tag,
                    payload_variant := strncpy s.ringtone responseSize }
  else response

/-- The `ExternalNotificationModule::handleSetRingtone`; `ringtoneSize` is
`sizeof(rtttlConfig.ringtone)`. -/
def handleSetRingtone (ringtoneSize : Nat) (from_msg : List Nat) (s : State) : State :=
  let changed : Int := if from_msg.headD 0 ≠ 0 then strcmp s.ringtone from_msg else 0
  let s1 : State :=
    if from_msg.headD 0 ≠ 0 then { s with ringtone := strncpy from_msg ringtoneSize } else s
  if changed ≠ 0 then emit (.saveProto s1.ringtone) s1 else s1

/-- A well-formed C string: no byte before the terminator is zero. -/
def isCString (str : List Nat) : Bool :=
  str.all (fun b => b != 0)

/-- A response message before the module fills it in. -/
def emptyResponse : AdminMessage :=
  { which_payload_variant := .other 0, payload_variant := [] }

/-- The `enum class AdminMessageHandleResult`. -/
inductive AdminMessageHandleResult where
  | NOT_HANDLED
  | HANDLED
  | HANDLED_WITH_RESPONSE
  deriving DecidableEq, Repr

/-- The `ExternalNotificationModule::handleAdminMessageForModule`: the result, the new state
and the response. Line 463 passes the payload union of the request (through its member
`set_canned_message_module_messages`) to `handleSetRingtone`. -/
def handleAdminMessageForModule (ringtoneSize responseSize : Nat) (mp : MeshPacket)
    (request : AdminMessage) (s : State) (response : AdminMessage) :
    AdminMessageHandleResult × State × AdminMessage :=
  match request.which_payload_variant with
  | .get_ringtone_request_tag =>
    (.HANDLED_WITH_RESPONSE, s, handleGetRingtone responseSize mp s response)
  | .set_ringtone_message_tag =>
    (.HANDLED, handleSetRingtone ringtoneSize request.payload_variant s, response)
  | _ => (.NOT_HANDLED, s, response)

/-! ## Construction -/

/-- The `#define EXT_NOTIFICATION_MODULE_OUTPUT` of lines 56-60: the variant's
`EXT_NOTIFY_OUT` when the variant defines it, 0 otherwise. -/
def EXT_NOTIFICATION_MODULE_OUTPUT (extNotifyOut : Option Nat) : Nat :=
  match extNotifyOut with
  | some pin => pin
  | none => 0

/-- The `#define PIN_BUZZER` of lines 46-48: the variant's value when it defines one, 0
otherwise. -/
def PIN_BUZZER (variantPinBuzzer : Option Nat) : Nat :=
  match variantPinBuzzer with
  | some pin => pin
  | none => 0

/-- The `#define EXT_NOTIFY_OUT 2` of `variants/EBYTE_ESP32-S3/variant.h`. -/
def EBYTE_ESP32_S3_EXT_NOTIFY_OUT : Option Nat := some 2

/-- The `#define PIN_BUZZER 11` of `variants/EBYTE_ESP32-S3/variant.h`. -/
def EBYTE_ESP32_S3_PIN_BUZZER : Option Nat := some 11

/-- The ringtone of lines 269-271, used when none can be loaded. -/
def defaultRingtone : List Nat :=
  ("a:d=8,o=5,b=125:4d#6,a#,2d#6,16p,g#,4a#,4d#.,p,16g,16a#,d#6,a#,f6,2d#6,16p,c#.6,16c6,16a#," ++
    "g#.,2a#").toList.map (fun c => c.toNat)

/-- The constructor `ExternalNotificationModule::ExternalNotificationModule` applied to the
members as initialised by the header (`s`). `loaded` is the ringtone read by
`nodeDB.loadProto`, if it succeeds; `extNotifyOut` and `variantPinBuzzer` are the variant's
`EXT_NOTIFY_OUT` and `PIN_BUZZER`, if defined. The member `output` holds the chosen pin
number unchanged. -/
def ExternalNotificationModule (cfg : ModuleConfig) (extNotifyOut variantPinBuzzer : Option Nat)
    (ringtoneSize : Nat) (loaded : Option (List Nat)) (now : Nat) (s : State) : State :=
  if cfg.enabled then
    let s1 : State :=
      match loaded with
      | some r => { s with ringtone := r }
      | none => { s with ringtone := strncpy defaultRingtone ringtoneSize }
    let s2 : State :=
      { s1 with output := if cfg.output ≠ 0 then (cfg.output : Int)
                          else (EXT_NOTIFICATION_MODULE_OUTPUT extNotifyOut : Int) }
    let s3 : State := if s2.output > 0 then emit (.pinMode s2.output) s2 else s2
    let s4 : State := setPeripheralOff cfg now .SIGNAL s3
    let s5 : State :=
      if cfg.output_buzzer ≠ 0 then
        if !cfg.use_pwm then
          setPeripheralOff cfg now .BUZZER (emit (.pinMode cfg.output_buzzer) s4)
        else
          { s4 with buzzer_gpio := if s4.buzzer_gpio ≠ 0 then s4.buzzer_gpio
                                   else PIN_BUZZER variantPinBuzzer }
      else s4
    if cfg.output_vibra ≠ 0 then
      setPeripheralOff cfg now .VIBRA (emit (.pinMode cfg.output_vibra) s5)
    else s5
  else
    emit .disable s

/-- The pin chosen at line 278 for the signal. -/
def signalPin (cfg : ModuleConfig) (extNotifyOut : Option Nat) : Int :=
  if cfg.output ≠ 0 then (cfg.output : Int)
  else (EXT_NOTIFICATION_MODULE_OUTPUT extNotifyOut : Int)

/-- The calls the constructor makes with the feature enabled, in order, for the chosen
signal pin. -/
def constructorCalls (cfg : ModuleConfig) (pin : Int) : List Effect :=
  (if pin > 0 then [Effect.pinMode pin] else []) ++ (offWrites cfg pin .SIGNAL ++
    ((if cfg.output_buzzer ≠ 0 then
        (if !cfg.use_pwm then Effect.pinMode cfg.output_buzzer :: offWrites cfg pin .BUZZER
         else [])
      else []) ++
      (if cfg.output_vibra ≠ 0 then Effect.pinMode cfg.output_vibra :: offWrites cfg pin .VIBRA
       else [])))

/-! ## Separate clock reads

The source calls `millis()` afresh at every use. The definitions of this section give each
call site of `handleReceived` and `runOnce` its own clock value; with every value equal they
are the definitions above. -/

/-- The values `millis()` returns during one call of `handleReceived`, by block (0
message-signal, 1 message-buzzer, 2 message-vibration, 3 bell-signal, 4 bell-buzzer, 5
bell-vibration): `stamp k` inside `setPeripheralOn` (line 160) and `cut k` in the cutoff
assignment of block `k`. -/
structure ArmReads where
  stamp : Nat → Nat
  cut : Nat → Nat

/-- Every read of the call returns `now`. -/
def ArmReads.const (now : Nat) : ArmReads :=
  { stamp := fun _ => now, cut := fun _ => now }

/-- The signal block of `handleReceived` with its two clock reads. -/
def armSignalAt (cfg : ModuleConfig) (stamp cut : Nat) (s : State) : State :=
  setNagCycleCutoff cfg cut (setPeripheralOn cfg stamp .SIGNAL { s with isNagging := true })

/-- The buzzer block of `handleReceived` with its two clock reads. -/
def armBuzzerAt (cfg : ModuleConfig) (stamp cut : Nat) (s : State) : State :=
  let s1 : State := { s with isNagging := true }
  let s2 : State :=
    if !cfg.use_pwm then setPeripheralOn cfg stamp .BUZZER s1
    else emit (.rtttlBegin s1.buzzer_gpio s1.ringtone) s1
  setNagCycleCutoff cfg cut s2

/-- The vibration block of `handleReceived` with its two clock reads. -/
def armVibraAt (cfg : ModuleConfig) (stamp cut : Nat) (s : State) : State :=
  setNagCycleCutoff cfg cut (setPeripheralOn cfg stamp .VIBRA { s with isNagging := true })

/-- The `ExternalNotificationModule::handleReceived` with a separate clock value for every
`millis()` call. -/
def handleReceivedAt (cfg : ModuleConfig) (nodeNum : Nat) (r : ArmReads) (mp : MeshPacket)
    (s : State) : ProcessMessage × State :=
  if cfg.enabled then
    if mp.sender ≠ nodeNum then
      let s1 : State :=
        if cfg.alert_message then armSignalAt cfg (r.stamp 0) (r.cut 0) s else s
      let s2 : State :=
        if cfg.alert_message_buzzer then armBuzzerAt cfg (r.stamp 1) (r.cut 1) s1 else s1
      let s3 : State :=
        if cfg.alert_message_vibra then armVibraAt cfg (r.stamp 2) (r.cut 2) s2 else s2
      let s6 : State :=
        if containsBell mp.payload then
          let s4 : State :=
            if cfg.alert_bell then armSignalAt cfg (r.stamp 3) (r.cut 3) s3 else s3
          let s5 : State :=
            if cfg.alert_bell_buzzer then armBuzzerAt cfg (r.stamp 4) (r.cut 4) s4 else s4
          if cfg.alert_bell_vibra then armVibraAt cfg (r.stamp 5) (r.cut 5) s5 else s5
        else s3
      (.CONTINUE, emit (.setIntervalFromNow 0) s6)
    else
      (.CONTINUE, s)
  else
    (.CONTINUE, s)

/-- The values `millis()` returns during one call of `runOnce`: `idleTest` at line 80,
`idleStamp p` inside `setPeripheralOff(p)` of the loop of lines 83-86, `holdTest p` at line
96 for `p`, `holdStamp p` inside the on/off call of line 97 for `p`, `refresh` at line 137. -/
structure TickReads where
  idleTest : Nat
  idleStamp : PerArray Nat
  holdTest : PerArray Nat
  holdStamp : PerArray Nat
  refresh : Nat

/-- Every read of the tick returns `now`. -/
def TickReads.const (now : Nat) : TickReads :=
  { idleTest := now,
    idleStamp := { signal := now, buzzer := now, vibra := now },
    holdTest := { signal := now, buzzer := now, vibra := now },
    holdStamp := { signal := now, buzzer := now, vibra := now },
    refresh := now }

/-- Body of the loop of lines 95-99 for one peripheral, with its two clock reads. -/
def togglePeripheralAt (cfg : ModuleConfig) (r : TickReads) (s : State) (p : Peripheral) :
    State :=
  if r.holdTest.get p > u32 (s.peripheralStateLastChanged.get p + holdDuration cfg) then
    if getPeripheralState s p then setPeripheralOff cfg (r.holdStamp.get p) p s
    else setPeripheralOn cfg (r.holdStamp.get p) p s
  else s

/-- The loop of lines 95-99 with separate clock reads. -/
def toggleAllAt (cfg : ModuleConfig) (r : TickReads) (s : State) : State :=
  [Peripheral.SIGNAL, Peripheral.BUZZER, Peripheral.VIBRA].foldl (togglePeripheralAt cfg r) s

/-- The `ExternalNotificationModule::runOnce` with a separate clock value for every
`millis()` call. -/
def runOnceAt (cfg : ModuleConfig) (r : TickReads) (playing : Bool) (s : State) :
    Int × State :=
  if !cfg.enabled then
    (INT32_MAX, s)
  else
    if decide (r.idleTest > s.nagCycleCutoff) && !playing then
      let s1 : State := { s with nagCycleCutoff := UINT32_MAX }
      let s2 : State :=
        [Peripheral.SIGNAL, Peripheral.VIBRA].foldl
          (fun st p => setPeripheralOff cfg (r.idleStamp.get p) p st) s1
      (INT32_MAX, { s2 with isNagging := false })
    else
      let s1 : State := if s.isNagging then toggleAllAt cfg r s else s
      (25, refreshMelody cfg r.refresh playing s1)

/-- A sequence of ticks, each with its clock reads and the melody status it observes. -/
def runTicksAt (cfg : ModuleConfig) (s : State) (ticks : List (TickReads × Bool)) : State :=
  ticks.foldl (fun st x => (runOnceAt cfg x.1 x.2 st).2) s

/-- Clock reads of an arming call in which the clock advances from 100 to 101 between the
timestamp and the cutoff assignment. -/
def skewedReads : ArmReads :=
  { stamp := fun _ => 100, cut := fun _ => 101 }

/-- An episode is armed with `p` on: `isNagging` is set, `p` is on with a timestamp between
`ta` and `tb`, and the cutoff lies between `ta + output_ms` and `tb + output_ms`. -/
def pulseArmed (cfg : ModuleConfig) (ta tb : Nat) (p : Peripheral) (s : State) : Prop :=
  s.isNagging = true ∧ s.peripheralState.get p = true ∧
    ta ≤ s.peripheralStateLastChanged.get p ∧ s.peripheralStateLastChanged.get p ≤ tb ∧
    ta + cfg.output_ms ≤ s.nagCycleCutoff ∧ s.nagCycleCutoff ≤ tb + cfg.output_ms

/-! ## Predicates used to state the arming claims -/

/-- Signal is selected by the packet: `alert_message`, or a bell with `alert_bell`. -/
def signalSelected (cfg : ModuleConfig) (mp : MeshPacket) : Bool :=
  cfg.alert_message || (containsBell mp.payload && cfg.alert_bell)

/-- Buzzer is selected by the packet: `alert_message_buzzer`, or a bell with
`alert_bell_buzzer`. -/
def buzzerSelected (cfg : ModuleConfig) (mp : MeshPacket) : Bool :=
  cfg.alert_message_buzzer || (containsBell mp.payload && cfg.alert_bell_buzzer)

/-- Vibration is selected by the packet: `alert_message_vibra`, or a bell with
`alert_bell_vibra`. -/
def vibraSelected (cfg : ModuleConfig) (mp : MeshPacket) : Bool :=
  cfg.alert_message_vibra || (containsBell mp.payload && cfg.alert_bell_vibra)

/-- A text packet from node 7 whose payload `a`, bell, `b` holds a bell byte. -/
def bellPacket : MeshPacket :=
  { sender := 7, payload := { size := 3, bytes := [97, 7, 98] }, want_response := false }

/-! ## Frame lemmas -/

section Frame

variable {α : Type}

@[simp] theorem PerArray.get_set_same (a : PerArray α) (p : Peripheral) (v : α) :
    (a.set p v).get p = v := by
  cases p <;> rfl

theorem PerArray.get_set_other (a : PerArray α) {p q : Peripheral} (v : α) (h : q ≠ p) :
    (a.set p v).get q = a.get q := by
  cases p <;> cases q <;> first | rfl | exact absurd rfl h

@[simp] theorem emit_peripheralState (e : Effect) (s : State) :
    (emit e s).peripheralState = s.peripheralState := rfl

@[simp] theorem emit_lastChanged (e : Effect) (s : State) :
    (emit e s).peripheralStateLastChanged = s.peripheralStateLastChanged := rfl

@[simp] theorem emit_isNagging (e : Effect) (s : State) :
    (emit e s).isNagging = s.isNagging := rfl

@[simp] theorem emit_cutoff (e : Effect) (s : State) :
    (emit e s).nagCycleCutoff = s.nagCycleCutoff := rfl

@[simp] theorem emit_output (e : Effect) (s : State) : (emit e s).output = s.output := rfl

@[simp] theorem emit_gpio (e : Effect) (s : State) :
    (emit e s).buzzer_gpio = s.buzzer_gpio := rfl

@[simp] theorem emit_ringtone (e : Effect) (s : State) :
    (emit e s).ringtone = s.ringtone := rfl

@[simp] theorem emit_trace (e : Effect) (s : State) :
    (emit e s).trace = s.trace ++ [e] := rfl

/-- The state after `setPeripheralOn`, field by field. -/
theorem setPeripheralOn_eq (cfg : ModuleConfig) (now : Nat) (p : Peripheral) (s : State) :
    setPeripheralOn cfg now p s =
      { s with peripheralState := s.peripheralState.set p true,
               peripheralStateLastChanged := s.peripheralStateLastChanged.set p now,
               trace := s.trace ++ onWrites cfg s.output p } := by
  cases p <;> simp only [setPeripheralOn, onWrites] <;> split <;> simp [emit]

/-- The state after `setPeripheralOff`, field by field. -/
theorem setPeripheralOff_eq (cfg : ModuleConfig) (now : Nat) (p : Peripheral) (s : State) :
    setPeripheralOff cfg now p s =
      { s with peripheralState := s.peripheralState.set p false,
               peripheralStateLastChanged := s.peripheralStateLastChanged.set p now,
               trace := s.trace ++ offWrites cfg s.output p } := by
  cases p <;> simp only [setPeripheralOff, offWrites] <;> split <;> simp [emit]

theorem setNagCycleCutoff_eq (cfg : ModuleConfig) (now : Nat) (s : State) :
    setNagCycleCutoff cfg now s = { s with nagCycleCutoff := armCutoff cfg now } := by
  unfold setNagCycleCutoff armCutoff
  split <;> rfl

theorem armCutoff_eq_mod (cfg : ModuleConfig) (now : Nat) :
    armCutoff cfg now =
      if cfg.nag_timeout > 0 then (now + cfg.nag_timeout * 1000) % 4294967296
      else (now + cfg.output_ms) % 4294967296 := by
  unfold armCutoff u32
  by_cases h : cfg.nag_timeout = 0
  · simp [h]
  · have h2 : cfg.nag_timeout > 0 := Nat.pos_of_ne_zero h
    simp [h, h2, Nat.add_mod]

theorem armSignal_eq (cfg : ModuleConfig) (now : Nat) (s : State) :
    armSignal cfg now s =
      { s with isNagging := true,
               peripheralState := s.peripheralState.set .SIGNAL true,
               peripheralStateLastChanged := s.peripheralStateLastChanged.set .SIGNAL now,
               trace := s.trace ++ onWrites cfg s.output .SIGNAL,
               nagCycleCutoff := armCutoff cfg now } := by
  simp [armSignal, setNagCycleCutoff_eq, setPeripheralOn_eq]

theorem armVibra_eq (cfg : ModuleConfig) (now : Nat) (s : State) :
    armVibra cfg now s =
      { s with isNagging := true,
               peripheralState := s.peripheralState.set .VIBRA true,
               peripheralStateLastChanged := s.peripheralStateLastChanged.set .VIBRA now,
               trace := s.trace ++ onWrites cfg s.output .VIBRA,
               nagCycleCutoff := armCutoff cfg now } := by
  simp [armVibra, setNagCycleCutoff_eq, setPeripheralOn_eq]

theorem armBuzzer_eq_switched (cfg : ModuleConfig) (now : Nat) (s : State)
    (h : cfg.use_pwm = false) :
    armBuzzer cfg now s =
      { s with isNagging := true,
               peripheralState := s.peripheralState.set .BUZZER true,
               peripheralStateLastChanged := s.peripheralStateLastChanged.set .BUZZER now,
               trace := s.trace ++ onWrites cfg s.output .BUZZER,
               nagCycleCutoff := armCutoff cfg now } := by
  simp [armBuzzer, setNagCycleCutoff_eq, setPeripheralOn_eq, h]

theorem armBuzzer_eq_pwm (cfg : ModuleConfig) (now : Nat) (s : State)
    (h : cfg.use_pwm = true) :
    armBuzzer cfg now s =
      { s with isNagging := true,
               trace := s.trace ++ [.rtttlBegin s.buzzer_gpio s.ringtone],
               nagCycleCutoff := armCutoff cfg now } := by
  simp [armBuzzer, setNagCycleCutoff_eq, h, emit]

@[simp] theorem armSignal_cutoff (cfg : ModuleConfig) (now : Nat) (s : State) :
    (armSignal cfg now s).nagCycleCutoff = armCutoff cfg now := by
  rw [armSignal_eq]

@[simp] theorem armVibra_cutoff (cfg : ModuleConfig) (now : Nat) (s : State) :
    (armVibra cfg now s).nagCycleCutoff = armCutoff cfg now := by
  rw [armVibra_eq]

@[simp] theorem armBuzzer_cutoff (cfg : ModuleConfig) (now : Nat) (s : State) :
    (armBuzzer cfg now s).nagCycleCutoff = armCutoff cfg now := by
  simp [armBuzzer, setNagCycleCutoff_eq]

@[simp] theorem armSignal_isNagging (cfg : ModuleConfig) (now : Nat) (s : State) :
    (armSignal cfg now s).isNagging = true := by
  rw [armSignal_eq]

@[simp] theorem armVibra_isNagging (cfg : ModuleConfig) (now : Nat) (s : State) :
    (armVibra cfg now s).isNagging = true := by
  rw [armVibra_eq]

@[simp] theorem armBuzzer_isNagging (cfg : ModuleConfig) (now : Nat) (s : State) :
    (armBuzzer cfg now s).isNagging = true := by
  cases h : cfg.use_pwm
  · rw [armBuzzer_eq_switched cfg now s h]
  · rw [armBuzzer_eq_pwm cfg now s h]

/-- The cutoff after an arming call in which some flag matched. -/
theorem handleReceived_cutoff (cfg : ModuleConfig) (nodeNum now : Nat) (mp : MeshPacket)
    (s : State) (hen : cfg.enabled = true) (hfrom : mp.sender ≠ nodeNum)
    (hflag : anyFlagMatches cfg mp = true) :
    (handleReceived cfg nodeNum now mp s).2.nagCycleCutoff = armCutoff cfg now := by
  unfold anyFlagMatches at hflag
  simp only [handleReceived, hen, hfrom, if_true, ne_eq, not_false_eq_true, emit_cutoff]
  cases h1 : cfg.alert_message <;> cases h2 : cfg.alert_message_buzzer <;>
    cases h3 : cfg.alert_message_vibra <;> cases h4 : containsBell mp.payload <;>
    cases h5 : cfg.alert_bell <;> cases h6 : cfg.alert_bell_buzzer <;>
    cases h7 : cfg.alert_bell_vibra <;> simp_all

/-- The disabled exit of `runOnce` (lines 76-77). -/
theorem runOnce_off (cfg : ModuleConfig) (now : Nat) (playing : Bool) (s : State)
    (h : cfg.enabled = false) : runOnce cfg now playing s = (INT32_MAX, s) := by
  simp [runOnce, h]

/-- The Idle branch of `runOnce` (lines 80-90), field by field. -/
theorem runOnce_idle (cfg : ModuleConfig) (now : Nat) (playing : Bool) (s : State)
    (hen : cfg.enabled = true) (hcut : now > s.nagCycleCutoff) (hplay : playing = false) :
    runOnce cfg now playing s =
      (INT32_MAX,
        { s with nagCycleCutoff := UINT32_MAX, isNagging := false,
                 peripheralState := (s.peripheralState.set .SIGNAL false).set .VIBRA false,
                 peripheralStateLastChanged :=
                   (s.peripheralStateLastChanged.set .SIGNAL now).set .VIBRA now,
                 trace := s.trace ++ (offWrites cfg s.output .SIGNAL ++
                   offWrites cfg s.output .VIBRA) }) := by
  simp [runOnce, hen, hcut, hplay, setPeripheralOff_eq]

/-- When the Idle test of line 80 fails, `runOnce` returns 25 and runs lines 93-140. -/
theorem runOnce_not_idle (cfg : ModuleConfig) (now : Nat) (playing : Bool) (s : State)
    (hen : cfg.enabled = true) (hno : ¬ (now > s.nagCycleCutoff ∧ playing = false)) :
    runOnce cfg now playing s =
      (25, refreshMelody cfg now playing (if s.isNagging then toggleAll cfg now s else s)) := by
  have h : (decide (now > s.nagCycleCutoff) && !playing) = false := by
    cases playing <;> simp_all
  simp only [runOnce, hen, h]
  simp

/-- The state after the loop body for `p`, field by field. -/
theorem togglePeripheral_eq (cfg : ModuleConfig) (now : Nat) (s : State) (p : Peripheral) :
    togglePeripheral cfg now s p =
      if now > u32 (s.peripheralStateLastChanged.get p + holdDuration cfg) then
        { s with peripheralState := s.peripheralState.set p (!s.peripheralState.get p),
                 peripheralStateLastChanged := s.peripheralStateLastChanged.set p now,
                 trace := s.trace ++
                   (if s.peripheralState.get p then offWrites cfg s.output p
                    else onWrites cfg s.output p) }
      else s := by
  unfold togglePeripheral getPeripheralState
  split
  · cases h : s.peripheralState.get p <;> simp [setPeripheralOn_eq, setPeripheralOff_eq]
  · rfl

@[simp] theorem togglePeripheral_isNagging (cfg : ModuleConfig) (now : Nat) (s : State)
    (p : Peripheral) : (togglePeripheral cfg now s p).isNagging = s.isNagging := by
  rw [togglePeripheral_eq]; split <;> rfl

@[simp] theorem togglePeripheral_cutoff (cfg : ModuleConfig) (now : Nat) (s : State)
    (p : Peripheral) : (togglePeripheral cfg now s p).nagCycleCutoff = s.nagCycleCutoff := by
  rw [togglePeripheral_eq]; split <;> rfl

@[simp] theorem togglePeripheral_output (cfg : ModuleConfig) (now : Nat) (s : State)
    (p : Peripheral) : (togglePeripheral cfg now s p).output = s.output := by
  rw [togglePeripheral_eq]; split <;> rfl

theorem togglePeripheral_state_same (cfg : ModuleConfig) (now : Nat) (s : State)
    (p : Peripheral) :
    (togglePeripheral cfg now s p).peripheralState.get p =
      if now > u32 (s.peripheralStateLastChanged.get p + holdDuration cfg) then
        !s.peripheralState.get p
      else s.peripheralState.get p := by
  rw [togglePeripheral_eq]; split <;> simp

theorem togglePeripheral_last_same (cfg : ModuleConfig) (now : Nat) (s : State)
    (p : Peripheral) :
    (togglePeripheral cfg now s p).peripheralStateLastChanged.get p =
      if now > u32 (s.peripheralStateLastChanged.get p + holdDuration cfg) then now
      else s.peripheralStateLastChanged.get p := by
  rw [togglePeripheral_eq]; split <;> simp

theorem togglePeripheral_state_other (cfg : ModuleConfig) (now : Nat) (s : State)
    {p q : Peripheral} (h : q ≠ p) :
    (togglePeripheral cfg now s p).peripheralState.get q = s.peripheralState.get q := by
  rw [togglePeripheral_eq]; split
  · exact PerArray.get_set_other _ _ h
  · rfl

theorem togglePeripheral_last_other (cfg : ModuleConfig) (now : Nat) (s : State)
    {p q : Peripheral} (h : q ≠ p) :
    (togglePeripheral cfg now s p).peripheralStateLastChanged.get q =
      s.peripheralStateLastChanged.get q := by
  rw [togglePeripheral_eq]; split
  · exact PerArray.get_set_other _ _ h
  · rfl

@[simp] theorem toggleAll_isNagging (cfg : ModuleConfig) (now : Nat) (s : State) :
    (toggleAll cfg now s).isNagging = s.isNagging := by
  simp [toggleAll]

@[simp] theorem toggleAll_cutoff (cfg : ModuleConfig) (now : Nat) (s : State) :
    (toggleAll cfg now s).nagCycleCutoff = s.nagCycleCutoff := by
  simp [toggleAll]

/-- The Holding rule for the bookkeeping state: the loop inverts `p` exactly when the hold
duration has elapsed since its last change. -/
theorem toggleAll_state (cfg : ModuleConfig) (now : Nat) (s : State) (p : Peripheral) :
    (toggleAll cfg now s).peripheralState.get p =
      if now > u32 (s.peripheralStateLastChanged.get p + holdDuration cfg) then
        !s.peripheralState.get p
      else s.peripheralState.get p := by
  cases p <;>
    simp [toggleAll, togglePeripheral_state_same, togglePeripheral_state_other,
      togglePeripheral_last_other]

/-- The Holding rule for the timestamp. -/
theorem toggleAll_last (cfg : ModuleConfig) (now : Nat) (s : State) (p : Peripheral) :
    (toggleAll cfg now s).peripheralStateLastChanged.get p =
      if now > u32 (s.peripheralStateLastChanged.get p + holdDuration cfg) then now
      else s.peripheralStateLastChanged.get p := by
  cases p <;>
    simp [toggleAll, togglePeripheral_last_same, togglePeripheral_last_other]

@[simp] theorem refreshMelody_peripheralState (cfg : ModuleConfig) (now : Nat) (playing : Bool)
    (s : State) : (refreshMelody cfg now playing s).peripheralState = s.peripheralState := by
  unfold refreshMelody; split_ifs <;> rfl

@[simp] theorem refreshMelody_lastChanged (cfg : ModuleConfig) (now : Nat) (playing : Bool)
    (s : State) :
    (refreshMelody cfg now playing s).peripheralStateLastChanged =
      s.peripheralStateLastChanged := by
  unfold refreshMelody; split_ifs <;> rfl

@[simp] theorem refreshMelody_isNagging (cfg : ModuleConfig) (now : Nat) (playing : Bool)
    (s : State) : (refreshMelody cfg now playing s).isNagging = s.isNagging := by
  unfold refreshMelody; split_ifs <;> rfl

@[simp] theorem refreshMelody_cutoff (cfg : ModuleConfig) (now : Nat) (playing : Bool)
    (s : State) : (refreshMelody cfg now playing s).nagCycleCutoff = s.nagCycleCutoff := by
  unfold refreshMelody; split_ifs <;> rfl

/-- An arming call never clears `isNagging`. -/
theorem handleReceived_keeps_nagging (cfg : ModuleConfig) (nodeNum now : Nat) (mp : MeshPacket)
    (s : State) (h : s.isNagging = true) :
    (handleReceived cfg nodeNum now mp s).2.isNagging = true := by
  unfold handleReceived
  cases hen : cfg.enabled
  · simpa using h
  · by_cases hfrom : mp.sender = nodeNum
    · simpa [hfrom] using h
    · simp only [if_true, ne_eq, hfrom, not_false_eq_true, emit_isNagging]
      cases h1 : cfg.alert_message <;> cases h2 : cfg.alert_message_buzzer <;>
        cases h3 : cfg.alert_message_vibra <;> cases h4 : containsBell mp.payload <;>
        cases h5 : cfg.alert_bell <;> cases h6 : cfg.alert_bell_buzzer <;>
        cases h7 : cfg.alert_bell_vibra <;> simp_all

/-- A tick clears `isNagging` only through the Idle branch. -/
theorem runOnce_clears_nagging (cfg : ModuleConfig) (now : Nat) (playing : Bool) (s : State)
    (h : s.isNagging = true) (h2 : (runOnce cfg now playing s).2.isNagging = false) :
    cfg.enabled = true ∧ now > s.nagCycleCutoff ∧ playing = false := by
  cases hen : cfg.enabled
  · simp [runOnce, hen, h] at h2
  · by_cases hidle : now > s.nagCycleCutoff ∧ playing = false
    · exact ⟨rfl, hidle.1, hidle.2⟩
    · rw [runOnce_not_idle cfg now playing s hen hidle] at h2
      simp [h] at h2

/-- The Holding rule for one Holding tick, state and timestamp of `p`. -/
theorem runOnce_holding (cfg : ModuleConfig) (now : Nat) (playing : Bool) (s : State)
    (p : Peripheral) (h : isHoldingTick cfg s now playing = true) :
    getPeripheralState (runOnce cfg now playing s).2 p =
        (if now > u32 (s.peripheralStateLastChanged.get p + holdDuration cfg) then
          !getPeripheralState s p else getPeripheralState s p) ∧
      (runOnce cfg now playing s).2.peripheralStateLastChanged.get p =
        (if now > u32 (s.peripheralStateLastChanged.get p + holdDuration cfg) then now
         else s.peripheralStateLastChanged.get p) := by
  simp only [isHoldingTick, Bool.and_eq_true, Bool.not_eq_true', Bool.and_eq_false_imp,
    decide_eq_true_eq, Bool.not_eq_false'] at h
  obtain ⟨⟨hen, hnag⟩, hno⟩ := h
  have hidle : ¬ (now > s.nagCycleCutoff ∧ playing = false) := by
    rintro ⟨h1, h2⟩
    have := hno h1
    simp [h2] at this
  rw [runOnce_not_idle cfg now playing s hen hidle]
  simp [hnag, getPeripheralState, toggleAll_state, toggleAll_last]

/-- Inside a run of Holding ticks every inversion of `p` comes more than 1000 ms after the
timestamp `p` had at the start of the run. -/
theorem inversionTimes_after_last (cfg : ModuleConfig) (p : Peripheral)
    (hms : cfg.output_ms = 1000) (ticks : List (Nat × Bool)) :
    ∀ s : State, allHolding cfg s ticks = true →
      (∀ t ∈ ticks, t.1 + 1000 < 4294967296) →
      s.peripheralStateLastChanged.get p + 1000 < 4294967296 →
      ∀ t ∈ inversionTimes cfg p s ticks, s.peripheralStateLastChanged.get p + 1000 < t := by
  have hhold : holdDuration cfg = 1000 := by simp [holdDuration, hms]
  induction ticks with
  | nil => intro s _ _ _ t ht; simp [inversionTimes] at ht
  | cons tk rest ih =>
    obtain ⟨now, playing⟩ := tk
    intro s hall hb hlast t ht
    simp only [allHolding, Bool.and_eq_true] at hall
    obtain ⟨hh, hrest⟩ := hall
    have hrule := runOnce_holding cfg now playing s p hh
    rw [hhold, u32, Nat.mod_eq_of_lt hlast] at hrule
    have hb2 : ∀ t ∈ rest, t.1 + 1000 < 4294967296 := fun t ht => hb t (List.mem_cons_of_mem _ ht)
    have hnow : now + 1000 < 4294967296 := hb (now, playing) (List.mem_cons_self _ _)
    simp only [inversionTimes] at ht
    by_cases hc : now > s.peripheralStateLastChanged.get p + 1000
    · have hl : (runOnce cfg now playing s).2.peripheralStateLastChanged.get p = now := by
        rw [hrule.2, if_pos hc]
      have hrec := ih (runOnce cfg now playing s).2 hrest hb2 (by rw [hl]; exact hnow)
      rw [hl] at hrec
      split at ht
      · have := hrec t ht
        omega
      · rcases List.mem_cons.mp ht with h1 | h1
        · omega
        · have := hrec t h1
          omega
    · have hl : (runOnce cfg now playing s).2.peripheralStateLastChanged.get p =
          s.peripheralStateLastChanged.get p := by
        rw [hrule.2, if_neg hc]
      have hst : getPeripheralState (runOnce cfg now playing s).2 p = getPeripheralState s p := by
        rw [hrule.1, if_neg hc]
      have hrec := ih (runOnce cfg now playing s).2 hrest hb2 (by rw [hl]; exact hlast)
      rw [hl] at hrec
      rw [if_pos hst] at ht
      exact hrec t ht

/-- Inside a run of Holding ticks any two inversions of `p` are more than 1000 ms apart. -/
theorem inversionTimes_pairwise (cfg : ModuleConfig) (p : Peripheral)
    (hms : cfg.output_ms = 1000) (ticks : List (Nat × Bool)) :
    ∀ s : State, allHolding cfg s ticks = true →
      (∀ t ∈ ticks, t.1 + 1000 < 4294967296) →
      List.Pairwise (fun a b => a + 1000 < b) (inversionTimes cfg p s ticks) := by
  have hhold : holdDuration cfg = 1000 := by simp [holdDuration, hms]
  induction ticks with
  | nil => intro s _ _; simp [inversionTimes]
  | cons tk rest ih =>
    obtain ⟨now, playing⟩ := tk
    intro s hall hb
    simp only [allHolding, Bool.and_eq_true] at hall
    obtain ⟨hh, hrest⟩ := hall
    have hb2 : ∀ t ∈ rest, t.1 + 1000 < 4294967296 := fun t ht => hb t (List.mem_cons_of_mem _ ht)
    have hnow : now + 1000 < 4294967296 := hb (now, playing) (List.mem_cons_self _ _)
    have hrec := ih (runOnce cfg now playing s).2 hrest hb2
    simp only [inversionTimes]
    split
    · exact hrec
    · rename_i hne
      have hrule := runOnce_holding cfg now playing s p hh
      have hl : (runOnce cfg now playing s).2.peripheralStateLastChanged.get p = now := by
        rw [hrule.2]
        split
        · rfl
        · rename_i hc
          rw [hrule.1, if_neg hc] at hne
          exact absurd rfl hne
      refine List.pairwise_cons.mpr ⟨?_, hrec⟩
      intro t ht
      have := inversionTimes_after_last cfg p hms rest (runOnce cfg now playing s).2 hrest hb2
        (by rw [hl]; exact hnow) t ht
      rw [hl] at this
      exact this

@[simp] theorem toggleAll_output (cfg : ModuleConfig) (now : Nat) (s : State) :
    (toggleAll cfg now s).output = s.output := by
  simp [toggleAll]

@[simp] theorem togglePeripheral_gpio (cfg : ModuleConfig) (now : Nat) (s : State)
    (p : Peripheral) : (togglePeripheral cfg now s p).buzzer_gpio = s.buzzer_gpio := by
  rw [togglePeripheral_eq]; split <;> rfl

@[simp] theorem togglePeripheral_ringtone (cfg : ModuleConfig) (now : Nat) (s : State)
    (p : Peripheral) : (togglePeripheral cfg now s p).ringtone = s.ringtone := by
  rw [togglePeripheral_eq]; split <;> rfl

@[simp] theorem toggleAll_gpio (cfg : ModuleConfig) (now : Nat) (s : State) :
    (toggleAll cfg now s).buzzer_gpio = s.buzzer_gpio := by
  simp [toggleAll]

@[simp] theorem toggleAll_ringtone (cfg : ModuleConfig) (now : Nat) (s : State) :
    (toggleAll cfg now s).ringtone = s.ringtone := by
  simp [toggleAll]

theorem togglePeripheral_trace (cfg : ModuleConfig) (now : Nat) (s : State) (p : Peripheral) :
    (togglePeripheral cfg now s p).trace = s.trace ++ toggleWrites cfg now s p := by
  rw [togglePeripheral_eq]
  unfold toggleWrites
  split <;> simp

/-- The pin writes of the whole loop of lines 95-99, in order. -/
theorem toggleAll_trace (cfg : ModuleConfig) (now : Nat) (s : State) :
    (toggleAll cfg now s).trace =
      s.trace ++ (toggleWrites cfg now s .SIGNAL ++ (toggleWrites cfg now s .BUZZER ++
        toggleWrites cfg now s .VIBRA)) := by
  have hne1 : Peripheral.BUZZER ≠ Peripheral.SIGNAL := by decide
  have hne2 : Peripheral.VIBRA ≠ Peripheral.SIGNAL := by decide
  have hne3 : Peripheral.VIBRA ≠ Peripheral.BUZZER := by decide
  simp only [toggleAll, List.foldl_cons, List.foldl_nil, togglePeripheral_trace,
    List.append_assoc]
  have h1 : toggleWrites cfg now (togglePeripheral cfg now s .SIGNAL) .BUZZER =
      toggleWrites cfg now s .BUZZER := by
    simp only [toggleWrites, togglePeripheral_state_other cfg now s hne1,
      togglePeripheral_last_other cfg now s hne1, togglePeripheral_output]
  have h2 : toggleWrites cfg now
      (togglePeripheral cfg now (togglePeripheral cfg now s .SIGNAL) .BUZZER) .VIBRA =
      toggleWrites cfg now s .VIBRA := by
    simp only [toggleWrites, togglePeripheral_state_other cfg now _ hne3,
      togglePeripheral_last_other cfg now _ hne3, togglePeripheral_state_other cfg now s hne2,
      togglePeripheral_last_other cfg now s hne2, togglePeripheral_output]
  rw [h1, h2]

theorem onWrites_isWrite (cfg : ModuleConfig) (output : Int) (p : Peripheral) :
    ∀ e ∈ onWrites cfg output p, e.isWrite = true := by
  intro e he
  cases p <;> simp only [onWrites] at he <;> split at he <;> simp at he <;> subst he <;> rfl

theorem offWrites_isWrite (cfg : ModuleConfig) (output : Int) (p : Peripheral) :
    ∀ e ∈ offWrites cfg output p, e.isWrite = true := by
  intro e he
  cases p <;> simp only [offWrites] at he <;> split at he <;> simp at he <;> subst he <;> rfl

theorem toggleWrites_isWrite (cfg : ModuleConfig) (now : Nat) (s : State) (p : Peripheral) :
    ∀ e ∈ toggleWrites cfg now s p, e.isWrite = true := by
  intro e he
  unfold toggleWrites at he
  split at he
  · split at he
    · exact offWrites_isWrite cfg s.output p e he
    · exact onWrites_isWrite cfg s.output p e he
  · simp at he

theorem isMelody_of_isWrite (e : Effect) (h : e.isWrite = true) : e.isMelody = false := by
  cases e <;> first | rfl | cases h

theorem filter_isMelody_of_writes (ws : List Effect) (h : ∀ e ∈ ws, e.isWrite = true) :
    ws.filter Effect.isMelody = [] := by
  rw [List.filter_eq_nil_iff]
  intro e he
  rw [isMelody_of_isWrite e (h e he)]
  decide

theorem refreshMelody_trace (cfg : ModuleConfig) (now : Nat) (playing : Bool) (s : State) :
    (refreshMelody cfg now playing s).trace = s.trace ++ refreshCommands cfg now playing s := by
  unfold refreshMelody refreshCommands
  split_ifs <;> simp

theorem refreshCommands_filter (cfg : ModuleConfig) (now : Nat) (playing : Bool) (s : State) :
    (refreshCommands cfg now playing s).filter Effect.isMelody =
      refreshCommands cfg now playing s := by
  unfold refreshCommands
  split_ifs <;> rfl

/-- On well-formed strings `strcmp` is zero exactly for equal strings. -/
theorem strcmp_eq_zero_iff : ∀ (a b : List Nat), isCString a = true → isCString b = true →
    (strcmp a b = 0 ↔ a = b) := by
  intro a
  induction a with
  | nil =>
    intro b _ hb
    cases b with
    | nil => simp [strcmp]
    | cons y ys =>
      simp only [isCString, List.all_cons, Bool.and_eq_true, bne_iff_ne, ne_eq] at hb
      simp only [strcmp]
      constructor
      · intro h; omega
      · intro h; cases h
  | cons x xs ih =>
    intro b ha hb
    simp only [isCString, List.all_cons, Bool.and_eq_true, bne_iff_ne, ne_eq] at ha
    cases b with
    | nil =>
      simp only [strcmp]
      constructor
      · intro h; omega
      · intro h; cases h
    | cons y ys =>
      simp only [isCString, List.all_cons, Bool.and_eq_true, bne_iff_ne, ne_eq] at hb
      simp only [strcmp]
      by_cases hxy : x = y
      · subst hxy
        simp only [if_true, List.cons.injEq, true_and]
        exact ih ys ha.2 hb.2
      · rw [if_neg hxy]
        simp only [List.cons.injEq, hxy, false_and, iff_false]
        omega

theorem headD_ne_zero_of_cstring (str : List Nat) (h : isCString str = true) (hne : str ≠ []) :
    str.headD 0 ≠ 0 := by
  cases str with
  | nil => exact absurd rfl hne
  | cons x xs =>
    simp only [isCString, List.all_cons, Bool.and_eq_true, bne_iff_ne, ne_eq] at h
    exact h.1

theorem strncpy_of_fits (src : List Nat) (n : Nat) (h : src.length < n) : strncpy src n = src := by
  unfold strncpy
  exact List.take_of_length_le (Nat.le_of_lt h)

/-- The ringtone stored by `handleSetRingtone` for a non-empty request that fits. -/
theorem handleSetRingtone_ringtone (ringtoneSize : Nat) (from_msg : List Nat) (s : State)
    (hm : isCString from_msg = true) (hne : from_msg ≠ [])
    (hfit : from_msg.length < ringtoneSize) :
    (handleSetRingtone ringtoneSize from_msg s).ringtone = from_msg := by
  have hh := headD_ne_zero_of_cstring from_msg hm hne
  unfold handleSetRingtone
  simp only [hh, ne_eq, not_false_eq_true, if_true, strncpy_of_fits from_msg ringtoneSize hfit]
  split <;> rfl

@[simp] theorem refreshMelody_output (cfg : ModuleConfig) (now : Nat) (playing : Bool)
    (s : State) : (refreshMelody cfg now playing s).output = s.output := by
  unfold refreshMelody; split_ifs <;> rfl

theorem refreshCommands_not_write (cfg : ModuleConfig) (now : Nat) (playing : Bool) (s : State) :
    ∀ e ∈ refreshCommands cfg now playing s, ∀ (pin : Int) (level : Bool),
      e ≠ Effect.digitalWrite pin level := by
  intro e he pin level
  unfold refreshCommands at he
  split_ifs at he <;> simp at he <;> subst he <;> exact Effect.noConfusion

theorem signal_writes_pin (cfg : ModuleConfig) (output : Int) :
    (∀ e ∈ onWrites cfg output .SIGNAL, ∀ (pin : Int) (level : Bool),
      e = Effect.digitalWrite pin level → pin = output) ∧
    (∀ e ∈ offWrites cfg output .SIGNAL, ∀ (pin : Int) (level : Bool),
      e = Effect.digitalWrite pin level → pin = output) := by
  constructor <;> intro e he pin level heq <;> subst heq
  · simp only [onWrites] at he
    split at he <;> simp at he
    exact he.1
  · simp only [offWrites] at he
    split at he <;> simp at he
    exact he.1

theorem toggleWrites_signal_pin (cfg : ModuleConfig) (now : Nat) (s : State) :
    ∀ e ∈ toggleWrites cfg now s .SIGNAL, ∀ (pin : Int) (level : Bool),
      e = Effect.digitalWrite pin level → pin = s.output := by
  intro e he pin level heq
  unfold toggleWrites at he
  split at he
  · split at he
    · exact (signal_writes_pin cfg s.output).2 e he pin level heq
    · exact (signal_writes_pin cfg s.output).1 e he pin level heq
  · simp at he

/-- One tick keeps Buzzer and Vibration off when it comes no later than the hold duration
after the timestamps `b0`, `v0` they carry during the episode; the only pin it can write a
high level to is the signal pin. -/
theorem runOnce_keeps_off (cfg : ModuleConfig) (now : Nat) (playing : Bool) (s : State)
    (b0 v0 : Nat)
    (hB : s.peripheralState.get .BUZZER = false) (hV : s.peripheralState.get .VIBRA = false)
    (hlast : s.isNagging = true →
      s.peripheralStateLastChanged.get .BUZZER = b0 ∧
      s.peripheralStateLastChanged.get .VIBRA = v0)
    (hcB : ¬ now > u32 (b0 + holdDuration cfg)) (hcV : ¬ now > u32 (v0 + holdDuration cfg)) :
    (runOnce cfg now playing s).2.peripheralState.get .BUZZER = false ∧
      (runOnce cfg now playing s).2.peripheralState.get .VIBRA = false ∧
      (runOnce cfg now playing s).2.output = s.output ∧
      ((runOnce cfg now playing s).2.isNagging = true →
        (runOnce cfg now playing s).2.peripheralStateLastChanged.get .BUZZER = b0 ∧
        (runOnce cfg now playing s).2.peripheralStateLastChanged.get .VIBRA = v0) ∧
      ∃ ws : List Effect, (runOnce cfg now playing s).2.trace = s.trace ++ ws ∧
        ∀ e ∈ ws, ∀ pin : Int, e = Effect.digitalWrite pin true → pin = s.output := by
  cases hen : cfg.enabled
  · rw [runOnce_off cfg now playing s hen]
    exact ⟨hB, hV, rfl, hlast, [], by simp, by simp⟩
  · by_cases hidle : now > s.nagCycleCutoff ∧ playing = false
    · rw [runOnce_idle cfg now playing s hen hidle.1 hidle.2]
      refine ⟨?_, ?_, rfl, ?_, _, rfl, ?_⟩
      · simpa [PerArray.get, PerArray.set] using hB
      · simp [PerArray.get, PerArray.set]
      · intro h; cases h
      · intro e he pin heq
        rcases List.mem_append.mp he with he | he
        · exact (signal_writes_pin cfg s.output).2 e he pin true heq
        · subst heq
          simp only [offWrites] at he
          split at he <;> simp at he
    · rw [runOnce_not_idle cfg now playing s hen hidle]
      cases hnag : s.isNagging
      · refine ⟨by simpa using hB, by simpa using hV, by simp, ?_, ?_⟩
        · intro h
          simp [hnag] at h
        · refine ⟨refreshCommands cfg now playing s, by simp [refreshMelody_trace], ?_⟩
          intro e he pin heq
          exact absurd heq (refreshCommands_not_write cfg now playing s e he pin true)
      · obtain ⟨hb0, hv0⟩ := hlast hnag
        have hcB2 : ¬ now > u32 (s.peripheralStateLastChanged.get .BUZZER + holdDuration cfg) := by
          rw [hb0]; exact hcB
        have hcV2 : ¬ now > u32 (s.peripheralStateLastChanged.get .VIBRA + holdDuration cfg) := by
          rw [hv0]; exact hcV
        have htB : toggleWrites cfg now s .BUZZER = [] := by
          simp only [toggleWrites, if_neg hcB2]
        have htV : toggleWrites cfg now s .VIBRA = [] := by
          simp only [toggleWrites, if_neg hcV2]
        refine ⟨?_, ?_, by simp, ?_, ?_⟩
        · simp only [if_true, refreshMelody_peripheralState, toggleAll_state, if_neg hcB2]
          exact hB
        · simp only [if_true, refreshMelody_peripheralState, toggleAll_state, if_neg hcV2]
          exact hV
        · intro _
          simp only [if_true, refreshMelody_lastChanged, toggleAll_last, if_neg hcB2,
            if_neg hcV2]
          exact ⟨hb0, hv0⟩
        · refine ⟨toggleWrites cfg now s .SIGNAL ++
            refreshCommands cfg now playing (toggleAll cfg now s), ?_, ?_⟩
          · simp [refreshMelody_trace, toggleAll_trace, htB, htV]
          · intro e he pin heq
            rcases List.mem_append.mp he with he | he
            · exact toggleWrites_signal_pin cfg now s e he pin true heq
            · exact absurd heq (refreshCommands_not_write cfg now playing _ e he pin true)

/-- A run of ticks keeps Buzzer and Vibration off while every tick comes no later than the
hold duration after the timestamps they carry. -/
theorem ticks_keep_off (cfg : ModuleConfig) (nodeNum : Nat) (b0 v0 : Nat)
    (ticks : List (Nat × Bool)) :
    ∀ s : State, s.peripheralState.get .BUZZER = false → s.peripheralState.get .VIBRA = false →
      (s.isNagging = true →
        s.peripheralStateLastChanged.get .BUZZER = b0 ∧
        s.peripheralStateLastChanged.get .VIBRA = v0) →
      (∀ t ∈ ticks, ¬ t.1 > u32 (b0 + holdDuration cfg) ∧ ¬ t.1 > u32 (v0 + holdDuration cfg)) →
      (run cfg nodeNum s (tickSteps ticks)).peripheralState.get .BUZZER = false ∧
        (run cfg nodeNum s (tickSteps ticks)).peripheralState.get .VIBRA = false ∧
        ∃ ws : List Effect, (run cfg nodeNum s (tickSteps ticks)).trace = s.trace ++ ws ∧
          ∀ e ∈ ws, ∀ pin : Int, e = Effect.digitalWrite pin true → pin = s.output := by
  induction ticks with
  | nil =>
    intro s hB hV _ _
    exact ⟨hB, hV, [], by simp [run, tickSteps], by simp⟩
  | cons tk rest ih =>
    intro s hB hV hlast hticks
    obtain ⟨hcB, hcV⟩ := hticks tk (List.mem_cons_self _ _)
    obtain ⟨h1, h2, h3, h4, ws1, h5, h6⟩ :=
      runOnce_keeps_off cfg tk.1 tk.2 s b0 v0 hB hV hlast hcB hcV
    obtain ⟨k1, k2, ws2, k3, k4⟩ := ih (runOnce cfg tk.1 tk.2 s).2 h1 h2 h4
      (fun t ht => hticks t (List.mem_cons_of_mem _ ht))
    have hrun : run cfg nodeNum s (tickSteps (tk :: rest)) =
        run cfg nodeNum (runOnce cfg tk.1 tk.2 s).2 (tickSteps rest) := by
      simp [run, tickSteps, applyStep]
    rw [hrun]
    refine ⟨k1, k2, ws1 ++ ws2, ?_, ?_⟩
    · rw [k3, h5, List.append_assoc]
    · intro e he pin heq
      rcases List.mem_append.mp he with he | he
      · exact h6 e he pin heq
      · rw [← h3]
        exact k4 e he pin heq

/-- The bell scan finds a bell exactly when some byte below `size` is `0x07`. -/
theorem containsBell_iff (p : Payload) :
    containsBell p = true ↔ ∃ i, i < p.size ∧ p.bytes.getD i 0 = 7 := by
  unfold containsBell
  generalize p.size = n
  induction n with
  | zero => simp
  | succ n ih =>
    rw [List.range_succ, List.foldl_append, List.foldl_cons, List.foldl_nil]
    by_cases hb : p.bytes.getD n 0 = ASCII_BELL
    · rw [if_pos hb]
      exact ⟨fun _ => ⟨n, Nat.lt_succ_self n, hb⟩, fun _ => rfl⟩
    · rw [if_neg hb, ih]
      constructor
      · rintro ⟨i, hi, h⟩
        exact ⟨i, Nat.lt_succ_of_lt hi, h⟩
      · rintro ⟨i, hi, h⟩
        rcases Nat.lt_succ_iff_lt_or_eq.mp hi with hlt | heq
        · exact ⟨i, hlt, h⟩
        · subst heq
          exact absurd h hb

/-- The bell scan reads only the bytes below `size`. -/
theorem containsBell_congr (size : Nat) (bytes1 bytes2 : List Nat)
    (h : ∀ i, i < size → bytes2.getD i 0 = bytes1.getD i 0) :
    containsBell { size := size, bytes := bytes2 } =
      containsBell { size := size, bytes := bytes1 } := by
  have h1 := containsBell_iff { size := size, bytes := bytes1 }
  have h2 := containsBell_iff { size := size, bytes := bytes2 }
  have hiff : (∃ i, i < size ∧ bytes2.getD i 0 = 7) ↔ (∃ i, i < size ∧ bytes1.getD i 0 = 7) := by
    constructor
    · rintro ⟨i, hi, hb⟩
      exact ⟨i, hi, by rw [← h i hi]; exact hb⟩
    · rintro ⟨i, hi, hb⟩
      exact ⟨i, hi, by rw [h i hi]; exact hb⟩
  have hb : (containsBell { size := size, bytes := bytes2 } = true) ↔
      (containsBell { size := size, bytes := bytes1 } = true) := h2.trans (hiff.trans h1.symm)
  exact Bool.eq_iff_iff.mpr hb

/-- The state after `handleReceived` for a packet from another node, feature enabled. -/
theorem handleReceived_eq (cfg : ModuleConfig) (nodeNum now : Nat) (mp : MeshPacket)
    (s : State) (hen : cfg.enabled = true) (hfrom : mp.sender ≠ nodeNum) :
    (handleReceived cfg nodeNum now mp s).2 =
      emit (.setIntervalFromNow 0)
        (if containsBell mp.payload then
          (if cfg.alert_bell_vibra then armVibra cfg now else id)
            ((if cfg.alert_bell_buzzer then armBuzzer cfg now else id)
              ((if cfg.alert_bell then armSignal cfg now else id)
                ((if cfg.alert_message_vibra then armVibra cfg now else id)
                  ((if cfg.alert_message_buzzer then armBuzzer cfg now else id)
                    ((if cfg.alert_message then armSignal cfg now else id) s)))))
        else
          (if cfg.alert_message_vibra then armVibra cfg now else id)
            ((if cfg.alert_message_buzzer then armBuzzer cfg now else id)
              ((if cfg.alert_message then armSignal cfg now else id) s))) := by
  simp only [handleReceived, hen, hfrom, if_true, ne_eq, not_false_eq_true]
  cases cfg.alert_message <;> cases cfg.alert_message_buzzer <;>
    cases cfg.alert_message_vibra <;> cases containsBell mp.payload <;>
    cases cfg.alert_bell <;> cases cfg.alert_bell_buzzer <;>
    cases cfg.alert_bell_vibra <;> rfl

/-- The bookkeeping and `isNagging` after `handleReceived` for a packet from another node,
feature enabled, as functions of the selection of each peripheral. -/
theorem handleReceived_fields (cfg : ModuleConfig) (nodeNum now : Nat) (mp : MeshPacket)
    (s : State) (hen : cfg.enabled = true) (hfrom : mp.sender ≠ nodeNum) :
    (handleReceived cfg nodeNum now mp s).2.peripheralState =
        { signal := if signalSelected cfg mp then true else s.peripheralState.signal,
          buzzer := if buzzerSelected cfg mp && !cfg.use_pwm then true
                    else s.peripheralState.buzzer,
          vibra := if vibraSelected cfg mp then true else s.peripheralState.vibra } ∧
      (handleReceived cfg nodeNum now mp s).2.peripheralStateLastChanged =
        { signal := if signalSelected cfg mp then now else s.peripheralStateLastChanged.signal,
          buzzer := if buzzerSelected cfg mp && !cfg.use_pwm then now
                    else s.peripheralStateLastChanged.buzzer,
          vibra := if vibraSelected cfg mp then now else s.peripheralStateLastChanged.vibra } ∧
      (handleReceived cfg nodeNum now mp s).2.isNagging =
        (s.isNagging || anyFlagMatches cfg mp) := by
  rw [handleReceived_eq cfg nodeNum now mp s hen hfrom]
  unfold signalSelected buzzerSelected vibraSelected anyFlagMatches
  cases hpwm : cfg.use_pwm
  · cases cfg.alert_message <;> cases cfg.alert_message_buzzer <;>
      cases cfg.alert_message_vibra <;> cases containsBell mp.payload <;>
      cases cfg.alert_bell <;> cases cfg.alert_bell_buzzer <;>
      cases cfg.alert_bell_vibra <;>
      simp [armSignal_eq, armVibra_eq, armBuzzer_eq_switched, hpwm, PerArray.set, emit]
  · cases cfg.alert_message <;> cases cfg.alert_message_buzzer <;>
      cases cfg.alert_message_vibra <;> cases containsBell mp.payload <;>
      cases cfg.alert_bell <;> cases cfg.alert_bell_buzzer <;>
      cases cfg.alert_bell_vibra <;>
      simp [armSignal_eq, armVibra_eq, armBuzzer_eq_pwm, hpwm, PerArray.set, emit]

/-- Every arming block appends to the call record and an arming call ends with the scheduler
request. -/
theorem handleReceived_trace (cfg : ModuleConfig) (nodeNum now : Nat) (mp : MeshPacket)
    (s : State) (hen : cfg.enabled = true) (hfrom : mp.sender ≠ nodeNum) :
    ∃ ws : List Effect,
      (handleReceived cfg nodeNum now mp s).2.trace
        = s.trace ++ ws ++ [Effect.setIntervalFromNow 0] := by
  rw [handleReceived_eq cfg nodeNum now mp s hen hfrom]
  have hsig : ∀ st : State, ∃ ws, (armSignal cfg now st).trace = st.trace ++ ws :=
    fun st => ⟨_, by rw [armSignal_eq]⟩
  have hvib : ∀ st : State, ∃ ws, (armVibra cfg now st).trace = st.trace ++ ws :=
    fun st => ⟨_, by rw [armVibra_eq]⟩
  have hbuz : ∀ st : State, ∃ ws, (armBuzzer cfg now st).trace = st.trace ++ ws := by
    intro st
    cases hpwm : cfg.use_pwm
    · exact ⟨_, by rw [armBuzzer_eq_switched cfg now st hpwm]⟩
    · exact ⟨_, by rw [armBuzzer_eq_pwm cfg now st hpwm]⟩
  have hopt : ∀ (b : Bool) (f : State → State),
      (∀ st : State, ∃ ws, (f st).trace = st.trace ++ ws) →
      ∀ st : State, ∃ ws, ((if b then f else id) st).trace = st.trace ++ ws := by
    intro b f hf st
    cases b
    · exact ⟨[], by simp⟩
    · exact hf st
  have hcomp : ∀ (f g : State → State),
      (∀ st : State, ∃ ws, (f st).trace = st.trace ++ ws) →
      (∀ st : State, ∃ ws, (g st).trace = st.trace ++ ws) →
      ∀ st : State, ∃ ws, (g (f st)).trace = st.trace ++ ws := by
    intro f g hf hg st
    obtain ⟨w1, h1⟩ := hf st
    obtain ⟨w2, h2⟩ := hg (f st)
    exact ⟨w1 ++ w2, by rw [h2, h1, List.append_assoc]⟩
  have hmsg := hcomp _ _ (hcomp _ _ (hopt cfg.alert_message _ hsig)
    (hopt cfg.alert_message_buzzer _ hbuz)) (hopt cfg.alert_message_vibra _ hvib)
  have hbell := hcomp _ _ (hcomp _ _ (hopt cfg.alert_bell _ hsig)
    (hopt cfg.alert_bell_buzzer _ hbuz)) (hopt cfg.alert_bell_vibra _ hvib)
  cases containsBell mp.payload
  · obtain ⟨ws, h⟩ := hmsg s
    exact ⟨ws, by simp only [Bool.false_eq_true, if_false, emit_trace]; rw [h]⟩
  · obtain ⟨ws, h⟩ := hcomp _ _ hmsg hbell s
    exact ⟨ws, by simp only [if_true, emit_trace]; rw [h]⟩

theorem constructor_output (cfg : ModuleConfig) (extNotifyOut variantPinBuzzer : Option Nat)
    (ringtoneSize : Nat) (loaded : Option (List Nat)) (now : Nat) (s : State)
    (hen : cfg.enabled = true) :
    (ExternalNotificationModule cfg extNotifyOut variantPinBuzzer ringtoneSize loaded now
      s).output = signalPin cfg extNotifyOut := by
  unfold ExternalNotificationModule signalPin
  simp only [hen, if_true, setPeripheralOff_eq]
  cases loaded <;> split_ifs <;> rfl

theorem constructor_trace (cfg : ModuleConfig) (extNotifyOut variantPinBuzzer : Option Nat)
    (ringtoneSize : Nat) (loaded : Option (List Nat)) (now : Nat) (s : State)
    (hen : cfg.enabled = true) :
    (ExternalNotificationModule cfg extNotifyOut variantPinBuzzer ringtoneSize loaded now
      s).trace = s.trace ++ constructorCalls cfg (signalPin cfg extNotifyOut) := by
  unfold ExternalNotificationModule constructorCalls
  simp only [hen, if_true, setPeripheralOff_eq]
  have hp : (if cfg.output ≠ 0 then (cfg.output : Int)
      else (EXT_NOTIFICATION_MODULE_OUTPUT extNotifyOut : Int)) = signalPin cfg extNotifyOut := rfl
  simp only [hp]
  cases loaded <;> split_ifs <;> simp [emit]

theorem constructor_signal_off (cfg : ModuleConfig) (extNotifyOut variantPinBuzzer : Option Nat)
    (ringtoneSize : Nat) (loaded : Option (List Nat)) (now : Nat) (s : State)
    (hen : cfg.enabled = true) :
    (ExternalNotificationModule cfg extNotifyOut variantPinBuzzer ringtoneSize loaded now
      s).peripheralState.get .SIGNAL = false := by
  unfold ExternalNotificationModule
  simp only [hen, if_true, setPeripheralOff_eq]
  cases loaded <;> split_ifs <;> simp [emit, PerArray.get, PerArray.set]

/-- Every `pinMode` call of the constructor is for a pin `> 0`. -/
theorem constructorCalls_pinMode (cfg : ModuleConfig) (pin q : Int)
    (h : Effect.pinMode q ∈ constructorCalls cfg pin) : q > 0 := by
  have hcast : ∀ n : Nat, n ≠ 0 → (n : Int) > 0 :=
    fun n hn => Int.natCast_pos.mpr (Nat.pos_of_ne_zero hn)
  have hoff : ∀ p : Peripheral, Effect.pinMode q ∉ offWrites cfg pin p := by
    intro p hm
    have := offWrites_isWrite cfg pin p _ hm
    cases this
  unfold constructorCalls at h
  rcases List.mem_append.mp h with h | h
  · split at h
    · rename_i hp
      simp at h
      rw [h]; exact hp
    · simp at h
  · rcases List.mem_append.mp h with h | h
    · exact absurd h (hoff _)
    · rcases List.mem_append.mp h with h | h
      · split at h
        · rename_i hb
          split at h
          · rcases List.mem_cons.mp h with h | h
            · cases h; exact hcast _ hb
            · exact absurd h (hoff _)
          · simp at h
        · simp at h
      · split at h
        · rename_i hv
          rcases List.mem_cons.mp h with h | h
          · cases h; exact hcast _ hv
          · exact absurd h (hoff _)
        · simp at h

/-- A tick at or before the cutoff of an active episode is a Holding tick: it returns 25 and
keeps `isNagging` and the cutoff. -/
theorem runOnce_within_cutoff (cfg : ModuleConfig) (now : Nat) (playing : Bool) (s : State)
    (hen : cfg.enabled = true) (hnag : s.isNagging = true) (hle : now ≤ s.nagCycleCutoff) :
    isHoldingTick cfg s now playing = true ∧
      (runOnce cfg now playing s).1 = 25 ∧
      (runOnce cfg now playing s).2.isNagging = true ∧
      (runOnce cfg now playing s).2.nagCycleCutoff = s.nagCycleCutoff := by
  have hno : ¬ (now > s.nagCycleCutoff ∧ playing = false) := fun h => absurd h.1 (by omega)
  have hgt : ¬ now > s.nagCycleCutoff := by omega
  rw [runOnce_not_idle cfg now playing s hen hno]
  refine ⟨?_, rfl, ?_, ?_⟩
  · simp [isHoldingTick, hen, hnag, hgt]
  · simp [hnag]
  · simp [hnag]

/-- Ticks at or before the cutoff keep the episode, and keep every peripheral whose hold
duration ends at or after the cutoff as it is. -/
theorem ticks_within_cutoff (cfg : ModuleConfig) (nodeNum : Nat) (hen : cfg.enabled = true)
    (ticks : List (Nat × Bool)) :
    ∀ s : State, s.isNagging = true → (∀ x ∈ ticks, x.1 ≤ s.nagCycleCutoff) →
      (run cfg nodeNum s (tickSteps ticks)).isNagging = true ∧
      (run cfg nodeNum s (tickSteps ticks)).nagCycleCutoff = s.nagCycleCutoff ∧
      ∀ p : Peripheral,
        s.peripheralStateLastChanged.get p + holdDuration cfg < 4294967296 →
        s.nagCycleCutoff ≤ s.peripheralStateLastChanged.get p + holdDuration cfg →
        (run cfg nodeNum s (tickSteps ticks)).peripheralState.get p = s.peripheralState.get p ∧
        (run cfg nodeNum s (tickSteps ticks)).peripheralStateLastChanged.get p
          = s.peripheralStateLastChanged.get p := by
  induction ticks with
  | nil =>
    intro s hnag _
    exact ⟨hnag, rfl, fun p _ _ => ⟨rfl, rfl⟩⟩
  | cons tk rest ih =>
    intro s hnag hle
    have hrun : run cfg nodeNum s (tickSteps (tk :: rest)) =
        run cfg nodeNum (runOnce cfg tk.1 tk.2 s).2 (tickSteps rest) := by
      simp [run, tickSteps, applyStep]
    have htk : tk.1 ≤ s.nagCycleCutoff := hle tk (List.mem_cons_self _ _)
    obtain ⟨hh, _, h1, h2⟩ := runOnce_within_cutoff cfg tk.1 tk.2 s hen hnag htk
    obtain ⟨k1, k2, k3⟩ := ih (runOnce cfg tk.1 tk.2 s).2 h1
      (fun x hx => by rw [h2]; exact hle x (List.mem_cons_of_mem _ hx))
    rw [hrun]
    refine ⟨k1, k2.trans h2, ?_⟩
    intro p hlt hcut
    have hrule := runOnce_holding cfg tk.1 tk.2 s p hh
    have hnot : ¬ tk.1 > u32 (s.peripheralStateLastChanged.get p + holdDuration cfg) := by
      rw [u32, Nat.mod_eq_of_lt hlt]
      omega
    rw [if_neg hnot, if_neg hnot] at hrule
    simp only [getPeripheralState] at hrule
    obtain ⟨r1, r2⟩ := hrule
    have := k3 p (by rw [r2]; exact hlt) (by rw [r2, h2]; exact hcut)
    rw [r1, r2] at this
    exact this

theorem anyFlagMatches_of_selected (cfg : ModuleConfig) (mp : MeshPacket)
    (h : signalSelected cfg mp = true ∨ buzzerSelected cfg mp = true ∨
      vibraSelected cfg mp = true) : anyFlagMatches cfg mp = true := by
  revert h
  unfold signalSelected buzzerSelected vibraSelected anyFlagMatches
  cases cfg.alert_message <;> cases cfg.alert_message_buzzer <;>
    cases cfg.alert_message_vibra <;> cases containsBell mp.payload <;>
    cases cfg.alert_bell <;> cases cfg.alert_bell_buzzer <;>
    cases cfg.alert_bell_vibra <;> simp

theorem run_arm_cons (cfg : ModuleConfig) (nodeNum now : Nat) (mp : MeshPacket) (s : State)
    (steps : List Step) :
    run cfg nodeNum s (Step.arm now mp :: steps) =
      run cfg nodeNum (handleReceived cfg nodeNum now mp s).2 steps := by
  simp [run, applyStep]

theorem signalSelected_iff (cfg : ModuleConfig) (mp : MeshPacket) :
    signalSelected cfg mp = true ↔
      (cfg.alert_message = true ∨
        ((∃ i, i < mp.payload.size ∧ mp.payload.bytes.getD i 0 = 7) ∧ cfg.alert_bell = true)) := by
  rw [← containsBell_iff]
  simp [signalSelected]

theorem buzzerSelected_iff (cfg : ModuleConfig) (mp : MeshPacket) :
    buzzerSelected cfg mp = true ↔
      (cfg.alert_message_buzzer = true ∨
        ((∃ i, i < mp.payload.size ∧ mp.payload.bytes.getD i 0 = 7) ∧
          cfg.alert_bell_buzzer = true)) := by
  rw [← containsBell_iff]
  simp [buzzerSelected]

theorem vibraSelected_iff (cfg : ModuleConfig) (mp : MeshPacket) :
    vibraSelected cfg mp = true ↔
      (cfg.alert_message_vibra = true ∨
        ((∃ i, i < mp.payload.size ∧ mp.payload.bytes.getD i 0 = 7) ∧
          cfg.alert_bell_vibra = true)) := by
  rw [← containsBell_iff]
  simp [vibraSelected]

theorem anyFlagMatches_iff (cfg : ModuleConfig) (mp : MeshPacket) :
    anyFlagMatches cfg mp = true ↔
      (cfg.alert_message = true ∨ cfg.alert_message_buzzer = true ∨
        cfg.alert_message_vibra = true ∨
        ((∃ i, i < mp.payload.size ∧ mp.payload.bytes.getD i 0 = 7) ∧
          (cfg.alert_bell = true ∨ cfg.alert_bell_buzzer = true ∨
            cfg.alert_bell_vibra = true))) := by
  rw [← containsBell_iff]
  simp [anyFlagMatches, or_assoc]

/-- With one clock value for every read, `handleReceivedAt` is `handleReceived`. -/
theorem handleReceivedAt_const (cfg : ModuleConfig) (nodeNum now : Nat) (mp : MeshPacket)
    (s : State) :
    handleReceivedAt cfg nodeNum (ArmReads.const now) mp s = handleReceived cfg nodeNum now mp s :=
  rfl

/-- With one clock value for every read, `runOnceAt` is `runOnce`. -/
theorem runOnceAt_const (cfg : ModuleConfig) (now : Nat) (playing : Bool) (s : State) :
    runOnceAt cfg (TickReads.const now) playing s = runOnce cfg now playing s := by
  have h : ∀ (st : State) (p : Peripheral),
      togglePeripheralAt cfg (TickReads.const now) st p = togglePeripheral cfg now st p := by
    intro st p
    cases p <;> rfl
  unfold runOnceAt runOnce toggleAllAt toggleAll
  simp only [List.foldl_cons, List.foldl_nil, h]
  rfl

/-- The Idle branch of `runOnceAt`, field by field. -/
theorem runOnceAt_idle (cfg : ModuleConfig) (r : TickReads) (playing : Bool) (s : State)
    (hen : cfg.enabled = true) (hcut : r.idleTest > s.nagCycleCutoff) (hplay : playing = false) :
    runOnceAt cfg r playing s =
      (INT32_MAX,
        { s with nagCycleCutoff := UINT32_MAX, isNagging := false,
                 peripheralState := (s.peripheralState.set .SIGNAL false).set .VIBRA false,
                 peripheralStateLastChanged :=
                   (s.peripheralStateLastChanged.set .SIGNAL (r.idleStamp.get .SIGNAL)).set
                     .VIBRA (r.idleStamp.get .VIBRA),
                 trace := s.trace ++ (offWrites cfg s.output .SIGNAL ++
                   offWrites cfg s.output .VIBRA) }) := by
  simp [runOnceAt, hen, hcut, hplay, setPeripheralOff_eq]

/-- When the Idle test fails, `runOnceAt` returns 25 and runs lines 93-140. -/
theorem runOnceAt_not_idle (cfg : ModuleConfig) (r : TickReads) (playing : Bool) (s : State)
    (hen : cfg.enabled = true) (hno : ¬ (r.idleTest > s.nagCycleCutoff ∧ playing = false)) :
    runOnceAt cfg r playing s =
      (25, refreshMelody cfg r.refresh playing
        (if s.isNagging then toggleAllAt cfg r s else s)) := by
  have h : (decide (r.idleTest > s.nagCycleCutoff) && !playing) = false := by
    cases playing <;> simp_all
  simp only [runOnceAt, hen, h]
  simp

theorem togglePeripheralAt_eq (cfg : ModuleConfig) (r : TickReads) (s : State)
    (p : Peripheral) :
    togglePeripheralAt cfg r s p =
      if r.holdTest.get p > u32 (s.peripheralStateLastChanged.get p + holdDuration cfg) then
        { s with peripheralState := s.peripheralState.set p (!s.peripheralState.get p),
                 peripheralStateLastChanged :=
                   s.peripheralStateLastChanged.set p (r.holdStamp.get p),
                 trace := s.trace ++
                   (if s.peripheralState.get p then offWrites cfg s.output p
                    else onWrites cfg s.output p) }
      else s := by
  unfold togglePeripheralAt getPeripheralState
  split
  · cases h : s.peripheralState.get p <;> simp [setPeripheralOn_eq, setPeripheralOff_eq]
  · rfl

@[simp] theorem togglePeripheralAt_isNagging (cfg : ModuleConfig) (r : TickReads) (s : State)
    (p : Peripheral) : (togglePeripheralAt cfg r s p).isNagging = s.isNagging := by
  rw [togglePeripheralAt_eq]; split <;> rfl

@[simp] theorem togglePeripheralAt_cutoff (cfg : ModuleConfig) (r : TickReads) (s : State)
    (p : Peripheral) : (togglePeripheralAt cfg r s p).nagCycleCutoff = s.nagCycleCutoff := by
  rw [togglePeripheralAt_eq]; split <;> rfl

theorem togglePeripheralAt_state_same (cfg : ModuleConfig) (r : TickReads) (s : State)
    (p : Peripheral) :
    (togglePeripheralAt cfg r s p).peripheralState.get p =
      if r.holdTest.get p > u32 (s.peripheralStateLastChanged.get p + holdDuration cfg) then
        !s.peripheralState.get p
      else s.peripheralState.get p := by
  rw [togglePeripheralAt_eq]; split <;> simp

theorem togglePeripheralAt_last_same (cfg : ModuleConfig) (r : TickReads) (s : State)
    (p : Peripheral) :
    (togglePeripheralAt cfg r s p).peripheralStateLastChanged.get p =
      if r.holdTest.get p > u32 (s.peripheralStateLastChanged.get p + holdDuration cfg) then
        r.holdStamp.get p
      else s.peripheralStateLastChanged.get p := by
  rw [togglePeripheralAt_eq]; split <;> simp

theorem togglePeripheralAt_state_other (cfg : ModuleConfig) (r : TickReads) (s : State)
    {p q : Peripheral} (h : q ≠ p) :
    (togglePeripheralAt cfg r s p).peripheralState.get q = s.peripheralState.get q := by
  rw [togglePeripheralAt_eq]; split
  · exact PerArray.get_set_other _ _ h
  · rfl

theorem togglePeripheralAt_last_other (cfg : ModuleConfig) (r : TickReads) (s : State)
    {p q : Peripheral} (h : q ≠ p) :
    (togglePeripheralAt cfg r s p).peripheralStateLastChanged.get q =
      s.peripheralStateLastChanged.get q := by
  rw [togglePeripheralAt_eq]; split
  · exact PerArray.get_set_other _ _ h
  · rfl

@[simp] theorem toggleAllAt_isNagging (cfg : ModuleConfig) (r : TickReads) (s : State) :
    (toggleAllAt cfg r s).isNagging = s.isNagging := by
  simp [toggleAllAt]

@[simp] theorem toggleAllAt_cutoff (cfg : ModuleConfig) (r : TickReads) (s : State) :
    (toggleAllAt cfg r s).nagCycleCutoff = s.nagCycleCutoff := by
  simp [toggleAllAt]

/-- The Holding rule with separate clock reads: the test of line 96 uses `holdTest p`. -/
theorem toggleAllAt_state (cfg : ModuleConfig) (r : TickReads) (s : State) (p : Peripheral) :
    (toggleAllAt cfg r s).peripheralState.get p =
      if r.holdTest.get p > u32 (s.peripheralStateLastChanged.get p + holdDuration cfg) then
        !s.peripheralState.get p
      else s.peripheralState.get p := by
  cases p <;>
    simp [toggleAllAt, togglePeripheralAt_state_same, togglePeripheralAt_state_other,
      togglePeripheralAt_last_other]

theorem toggleAllAt_last (cfg : ModuleConfig) (r : TickReads) (s : State) (p : Peripheral) :
    (toggleAllAt cfg r s).peripheralStateLastChanged.get p =
      if r.holdTest.get p > u32 (s.peripheralStateLastChanged.get p + holdDuration cfg) then
        r.holdStamp.get p
      else s.peripheralStateLastChanged.get p := by
  cases p <;>
    simp [toggleAllAt, togglePeripheralAt_last_same, togglePeripheralAt_last_other]

/-- Ticks whose Idle test reads a clock value at or before the cutoff keep the episode, and
keep a peripheral as it is when the test of line 96 reads no more than its timestamp plus
the hold duration. -/
theorem ticksAt_keep (cfg : ModuleConfig) (hen : cfg.enabled = true)
    (ticks : List (TickReads × Bool)) :
    ∀ s : State, s.isNagging = true → (∀ x ∈ ticks, x.1.idleTest ≤ s.nagCycleCutoff) →
      (runTicksAt cfg s ticks).isNagging = true ∧
      (runTicksAt cfg s ticks).nagCycleCutoff = s.nagCycleCutoff ∧
      ∀ p : Peripheral,
        s.peripheralStateLastChanged.get p + holdDuration cfg < 4294967296 →
        (∀ x ∈ ticks,
          x.1.holdTest.get p ≤ s.peripheralStateLastChanged.get p + holdDuration cfg) →
        (runTicksAt cfg s ticks).peripheralState.get p = s.peripheralState.get p ∧
        (runTicksAt cfg s ticks).peripheralStateLastChanged.get p
          = s.peripheralStateLastChanged.get p := by
  induction ticks with
  | nil =>
    intro s hnag _
    exact ⟨hnag, rfl, fun p _ _ => ⟨rfl, rfl⟩⟩
  | cons tk rest ih =>
    intro s hnag hle
    have hrun : runTicksAt cfg s (tk :: rest) =
        runTicksAt cfg (runOnceAt cfg tk.1 tk.2 s).2 rest := rfl
    have htk : tk.1.idleTest ≤ s.nagCycleCutoff := hle tk (List.mem_cons_self _ _)
    have hno : ¬ (tk.1.idleTest > s.nagCycleCutoff ∧ tk.2 = false) :=
      fun h => absurd h.1 (by omega)
    have hstep := runOnceAt_not_idle cfg tk.1 tk.2 s hen hno
    rw [if_pos hnag] at hstep
    have h1 : (runOnceAt cfg tk.1 tk.2 s).2.isNagging = true := by
      rw [hstep]; simp [hnag]
    have h2 : (runOnceAt cfg tk.1 tk.2 s).2.nagCycleCutoff = s.nagCycleCutoff := by
      rw [hstep]; simp
    obtain ⟨k1, k2, k3⟩ := ih (runOnceAt cfg tk.1 tk.2 s).2 h1
      (fun x hx => by rw [h2]; exact hle x (List.mem_cons_of_mem _ hx))
    rw [hrun]
    refine ⟨k1, k2.trans h2, ?_⟩
    intro p hlt htest
    have hnot : ¬ tk.1.holdTest.get p >
        u32 (s.peripheralStateLastChanged.get p + holdDuration cfg) := by
      rw [u32, Nat.mod_eq_of_lt hlt]
      have := htest tk (List.mem_cons_self _ _)
      omega
    have r1 : (runOnceAt cfg tk.1 tk.2 s).2.peripheralState.get p = s.peripheralState.get p := by
      rw [hstep]
      simp only [refreshMelody_peripheralState, toggleAllAt_state, if_neg hnot]
    have r2 : (runOnceAt cfg tk.1 tk.2 s).2.peripheralStateLastChanged.get p =
        s.peripheralStateLastChanged.get p := by
      rw [hstep]
      simp only [refreshMelody_lastChanged, toggleAllAt_last, if_neg hnot]
    have := k3 p (by rw [r2]; exact hlt)
      (fun x hx => by rw [r2]; exact htest x (List.mem_cons_of_mem _ hx))
    rw [r1, r2] at this
    exact this

/-- The state after `handleReceivedAt` for a packet from another node, feature enabled. -/
theorem handleReceivedAt_eq (cfg : ModuleConfig) (nodeNum : Nat) (r : ArmReads)
    (mp : MeshPacket) (s : State) (hen : cfg.enabled = true) (hfrom : mp.sender ≠ nodeNum) :
    (handleReceivedAt cfg nodeNum r mp s).2 =
      emit (.setIntervalFromNow 0)
        (if containsBell mp.payload then
          (if cfg.alert_bell_vibra then armVibraAt cfg (r.stamp 5) (r.cut 5) else id)
            ((if cfg.alert_bell_buzzer then armBuzzerAt cfg (r.stamp 4) (r.cut 4) else id)
              ((if cfg.alert_bell then armSignalAt cfg (r.stamp 3) (r.cut 3) else id)
                ((if cfg.alert_message_vibra then armVibraAt cfg (r.stamp 2) (r.cut 2) else id)
                  ((if cfg.alert_message_buzzer then armBuzzerAt cfg (r.stamp 1) (r.cut 1)
                    else id)
                    ((if cfg.alert_message then armSignalAt cfg (r.stamp 0) (r.cut 0) else id)
                      s)))))
        else
          (if cfg.alert_message_vibra then armVibraAt cfg (r.stamp 2) (r.cut 2) else id)
            ((if cfg.alert_message_buzzer then armBuzzerAt cfg (r.stamp 1) (r.cut 1) else id)
              ((if cfg.alert_message then armSignalAt cfg (r.stamp 0) (r.cut 0) else id)
                s))) := by
  simp only [handleReceivedAt, hen, hfrom, if_true, ne_eq, not_false_eq_true]
  cases cfg.alert_message <;> cases cfg.alert_message_buzzer <;>
    cases cfg.alert_message_vibra <;> cases containsBell mp.payload <;>
    cases cfg.alert_bell <;> cases cfg.alert_bell_buzzer <;>
    cases cfg.alert_bell_vibra <;> rfl

theorem armSignalAt_eq (cfg : ModuleConfig) (stamp cut : Nat) (s : State) :
    armSignalAt cfg stamp cut s =
      { s with isNagging := true,
               peripheralState := s.peripheralState.set .SIGNAL true,
               peripheralStateLastChanged := s.peripheralStateLastChanged.set .SIGNAL stamp,
               trace := s.trace ++ onWrites cfg s.output .SIGNAL,
               nagCycleCutoff := armCutoff cfg cut } := by
  simp [armSignalAt, setNagCycleCutoff_eq, setPeripheralOn_eq]

theorem armVibraAt_eq (cfg : ModuleConfig) (stamp cut : Nat) (s : State) :
    armVibraAt cfg stamp cut s =
      { s with isNagging := true,
               peripheralState := s.peripheralState.set .VIBRA true,
               peripheralStateLastChanged := s.peripheralStateLastChanged.set .VIBRA stamp,
               trace := s.trace ++ onWrites cfg s.output .VIBRA,
               nagCycleCutoff := armCutoff cfg cut } := by
  simp [armVibraAt, setNagCycleCutoff_eq, setPeripheralOn_eq]

theorem armBuzzerAt_eq (cfg : ModuleConfig) (stamp cut : Nat) (s : State) :
    armBuzzerAt cfg stamp cut s =
      if cfg.use_pwm then
        { s with isNagging := true,
                 trace := s.trace ++ [.rtttlBegin s.buzzer_gpio s.ringtone],
                 nagCycleCutoff := armCutoff cfg cut }
      else
        { s with isNagging := true,
                 peripheralState := s.peripheralState.set .BUZZER true,
                 peripheralStateLastChanged := s.peripheralStateLastChanged.set .BUZZER stamp,
                 trace := s.trace ++ onWrites cfg s.output .BUZZER,
                 nagCycleCutoff := armCutoff cfg cut } := by
  cases h : cfg.use_pwm <;> simp [armBuzzerAt, setNagCycleCutoff_eq, setPeripheralOn_eq, h, emit]

/-- The state after an arming call that selects `p` in {Signal, Vibration}, with
`nag_timeout = 0` and every clock read of the call between `ta` and `tb`. -/
theorem handleReceivedAt_pulse (cfg : ModuleConfig) (nodeNum : Nat) (r : ArmReads)
    (mp : MeshPacket) (s : State) (p : Peripheral) (ta tb : Nat)
    (hen : cfg.enabled = true) (hfrom : mp.sender ≠ nodeNum) (hnag0 : cfg.nag_timeout = 0)
    (hr : ∀ k, ta ≤ r.stamp k ∧ r.stamp k ≤ tb ∧ ta ≤ r.cut k ∧ r.cut k ≤ tb)
    (hsum : tb + cfg.output_ms < 4294967296)
    (hsel : (p = Peripheral.SIGNAL ∧ signalSelected cfg mp = true) ∨
      (p = Peripheral.VIBRA ∧ vibraSelected cfg mp = true)) :
    pulseArmed cfg ta tb p (handleReceivedAt cfg nodeNum r mp s).2 := by
  have hcutv : ∀ k, armCutoff cfg (r.cut k) = r.cut k + cfg.output_ms := by
    intro k
    have := hr k
    simp only [armCutoff, hnag0, ne_eq, not_true_eq_false, if_false, u32]
    exact Nat.mod_eq_of_lt (by omega)
  -- every block keeps an armed episode armed
  have hsig : ∀ (k : Nat) (q : Peripheral) (st : State), pulseArmed cfg ta tb q st →
      pulseArmed cfg ta tb q (armSignalAt cfg (r.stamp k) (r.cut k) st) := by
    intro k q st hq
    have hk := hr k
    rw [armSignalAt_eq, pulseArmed, hcutv]
    unfold pulseArmed at hq
    clear hr hcutv
    cases q <;> simp_all [PerArray.get, PerArray.set]
  have hvib : ∀ (k : Nat) (q : Peripheral) (st : State), pulseArmed cfg ta tb q st →
      pulseArmed cfg ta tb q (armVibraAt cfg (r.stamp k) (r.cut k) st) := by
    intro k q st hq
    have hk := hr k
    rw [armVibraAt_eq, pulseArmed, hcutv]
    unfold pulseArmed at hq
    clear hr hcutv
    cases q <;> simp_all [PerArray.get, PerArray.set]
  have hbuz : ∀ (k : Nat) (q : Peripheral) (st : State), pulseArmed cfg ta tb q st →
      pulseArmed cfg ta tb q (armBuzzerAt cfg (r.stamp k) (r.cut k) st) := by
    intro k q st hq
    have hk := hr k
    have hc := hcutv k
    rw [armBuzzerAt_eq, pulseArmed]
    unfold pulseArmed at hq
    clear hr hcutv
    cases cfg.use_pwm <;> cases q <;> simp_all [PerArray.get, PerArray.set]
  -- the block of `p` arms the episode
  have hsig0 : ∀ (k : Nat) (st : State),
      pulseArmed cfg ta tb .SIGNAL (armSignalAt cfg (r.stamp k) (r.cut k) st) := by
    intro k st
    have := hr k
    rw [armSignalAt_eq, pulseArmed, hcutv]
    simp [PerArray.get, PerArray.set]
    omega
  have hvib0 : ∀ (k : Nat) (st : State),
      pulseArmed cfg ta tb .VIBRA (armVibraAt cfg (r.stamp k) (r.cut k) st) := by
    intro k st
    have := hr k
    rw [armVibraAt_eq, pulseArmed, hcutv]
    simp [PerArray.get, PerArray.set]
    omega
  have hopt : ∀ (b : Bool) (f : State → State) (q : Peripheral),
      (∀ st, pulseArmed cfg ta tb q st → pulseArmed cfg ta tb q (f st)) →
      ∀ st, pulseArmed cfg ta tb q st → pulseArmed cfg ta tb q ((if b then f else id) st) := by
    intro b f q hf st hq
    cases b
    · exact hq
    · exact hf st hq
  have hemit : ∀ (q : Peripheral) (st : State), pulseArmed cfg ta tb q st →
      pulseArmed cfg ta tb q (emit (.setIntervalFromNow 0) st) := fun _ _ h => h
  rw [handleReceivedAt_eq cfg nodeNum r mp s hen hfrom]
  rcases hsel with ⟨hp, hsel⟩ | ⟨hp, hsel⟩
  · subst hp
    apply hemit
    unfold signalSelected at hsel
    cases hm : cfg.alert_message
    · rw [hm] at hsel
      simp only [Bool.false_or, Bool.and_eq_true] at hsel
      rw [if_pos hsel.1, if_pos hsel.2]
      exact hopt _ _ _ (hvib 5 _) _ (hopt _ _ _ (hbuz 4 _) _ (hsig0 3 _))
    · have h012 : ∀ st, pulseArmed cfg ta tb .SIGNAL
          ((if cfg.alert_message_vibra then armVibraAt cfg (r.stamp 2) (r.cut 2) else id)
            ((if cfg.alert_message_buzzer then armBuzzerAt cfg (r.stamp 1) (r.cut 1) else id)
              (armSignalAt cfg (r.stamp 0) (r.cut 0) st))) :=
        fun st => hopt _ _ _ (hvib 2 _) _ (hopt _ _ _ (hbuz 1 _) _ (hsig0 0 st))
      simp only [if_true]
      cases containsBell mp.payload
      · exact h012 s
      · exact hopt _ _ _ (hvib 5 _) _ (hopt _ _ _ (hbuz 4 _) _
          (hopt _ _ _ (hsig 3 _) _ (h012 s)))
  · subst hp
    apply hemit
    unfold vibraSelected at hsel
    cases hm : cfg.alert_message_vibra
    · rw [hm] at hsel
      simp only [Bool.false_or, Bool.and_eq_true] at hsel
      rw [if_pos hsel.1, if_pos hsel.2]
      exact hvib0 5 _
    · simp only [if_true]
      cases containsBell mp.payload
      · exact hvib0 2 _
      · exact hopt _ _ _ (hvib 5 _) _ (hopt _ _ _ (hbuz 4 _) _
          (hopt _ _ _ (hsig 3 _) _ (hvib0 2 _)))

end Frame

/-! ## Event arming: the cutoff -/

/-- C1 (as stated, refuted): with the clock at `4294967295`, `nag_timeout = 1` and the
message-signal flag set, an arming call from another node stores the cutoff `999`, which is
not `now + T*1000 = 4294968295`. -/
theorem handleReceived_cutoff_wraps :
    (handleReceived { baseConfig with alert_message := true, nag_timeout := 1 } 1 4294967295
        plainPacket (quietState 4294967295)).2.nagCycleCutoff = 999 ∧
      (handleReceived { baseConfig with alert_message := true, nag_timeout := 1 } 1 4294967295
        plainPacket (quietState 4294967295)).2.nagCycleCutoff ≠ 4294967295 + 1 * 1000 := by
  decide

/-- C1 (as amended): after an arming call from another node with the feature enabled and at
least one flag matching, the cutoff is `(now + T*1000) mod 2^32` when `nag_timeout = T > 0`
and `(now + output_ms) mod 2^32` when `T = 0`, whichever flags fired; it is the plain sum
`now + T*1000`, respectively `now + output_ms`, whenever that sum is below `2^32`. -/
theorem handleReceived_cutoff_mod (cfg : ModuleConfig) (nodeNum now : Nat) (mp : MeshPacket)
    (s : State) (hen : cfg.enabled = true) (hfrom : mp.sender ≠ nodeNum)
    (hflag : anyFlagMatches cfg mp = true) :
    (handleReceived cfg nodeNum now mp s).2.nagCycleCutoff =
        (if cfg.nag_timeout > 0 then (now + cfg.nag_timeout * 1000) % 4294967296
         else (now + cfg.output_ms) % 4294967296) ∧
      (cfg.nag_timeout > 0 → now + cfg.nag_timeout * 1000 < 4294967296 →
        (handleReceived cfg nodeNum now mp s).2.nagCycleCutoff = now + cfg.nag_timeout * 1000) ∧
      (cfg.nag_timeout = 0 → now + cfg.output_ms < 4294967296 →
        (handleReceived cfg nodeNum now mp s).2.nagCycleCutoff = now + cfg.output_ms) := by
  have h := handleReceived_cutoff cfg nodeNum now mp s hen hfrom hflag
  rw [armCutoff_eq_mod] at h
  refine ⟨h, ?_, ?_⟩
  · intro hT hlt
    rw [h, if_pos hT, Nat.mod_eq_of_lt hlt]
  · intro hT hlt
    have hn : ¬ cfg.nag_timeout > 0 := by omega
    rw [h, if_neg hn, Nat.mod_eq_of_lt hlt]

/-- Witness for C1: a message-signal arming at `now = 5000` with `nag_timeout = 60`. -/
theorem handleReceived_cutoff_mod_witness :
    (handleReceived { baseConfig with alert_message := true, nag_timeout := 60 } 1 5000
        plainPacket (quietState 4294967295)).2.nagCycleCutoff = 65000 :=
  ((handleReceived_cutoff_mod { baseConfig with alert_message := true, nag_timeout := 60 } 1 5000
      plainPacket (quietState 4294967295) (by decide) (by decide) (by decide)).2.1
    (by decide) (by decide))

/-! ## Tick handler past the cutoff -/

/-- C2 (as stated, refuted): a message arms Signal and the melody at time 100 with cutoff 1100;
at the tick at 1125 with the melody still playing, Vibration and Buzzer are switched on (not
forced off, not left untouched) and a high level is written to the buzzer pin 10. -/
theorem runOnce_playing_past_cutoff_toggles :
    1125 > (handleReceived
        { baseConfig with alert_message := true, alert_message_buzzer := true, use_pwm := true,
                          output_buzzer := 10 } 1 100 plainPacket
        (quietState 4294967295)).2.nagCycleCutoff ∧
      getPeripheralState (handleReceived
        { baseConfig with alert_message := true, alert_message_buzzer := true, use_pwm := true,
                          output_buzzer := 10 } 1 100 plainPacket
        (quietState 4294967295)).2 .BUZZER = false ∧
      getPeripheralState (runOnce
        { baseConfig with alert_message := true, alert_message_buzzer := true, use_pwm := true,
                          output_buzzer := 10 } 1125 true
        (handleReceived
          { baseConfig with alert_message := true, alert_message_buzzer := true, use_pwm := true,
                            output_buzzer := 10 } 1 100 plainPacket
          (quietState 4294967295)).2).2 .VIBRA = true ∧
      getPeripheralState (runOnce
        { baseConfig with alert_message := true, alert_message_buzzer := true, use_pwm := true,
                          output_buzzer := 10 } 1125 true
        (handleReceived
          { baseConfig with alert_message := true, alert_message_buzzer := true, use_pwm := true,
                            output_buzzer := 10 } 1 100 plainPacket
          (quietState 4294967295)).2).2 .BUZZER = true ∧
      Effect.digitalWrite 10 true ∈ (runOnce
        { baseConfig with alert_message := true, alert_message_buzzer := true, use_pwm := true,
                          output_buzzer := 10 } 1125 true
        (handleReceived
          { baseConfig with alert_message := true, alert_message_buzzer := true, use_pwm := true,
                            output_buzzer := 10 } 1 100 plainPacket
          (quietState 4294967295)).2).2.trace := by
  decide

/-- C2 (as amended): in a tick with the feature enabled, `now > cutoff` and the melody
playing, nothing is forced off: the tick returns 25 and leaves `isNagging` and the cutoff
unchanged; when `isNagging` is false no peripheral's state or timestamp changes and the only
call issued is the melody step in tone mode (no physical write); when `isNagging` is true each of
Signal, Buzzer and Vibration is inverted, with timestamp `now`, exactly when
`now > (lastChangedAt + hold) mod 2^32`, and is otherwise unchanged. -/
theorem runOnce_playing_past_cutoff (cfg : ModuleConfig) (now : Nat) (s : State)
    (hen : cfg.enabled = true) (_hcut : now > s.nagCycleCutoff) :
    (runOnce cfg now true s).1 = 25 ∧
      (runOnce cfg now true s).2.isNagging = s.isNagging ∧
      (runOnce cfg now true s).2.nagCycleCutoff = s.nagCycleCutoff ∧
      (s.isNagging = false →
        (runOnce cfg now true s).2.peripheralState = s.peripheralState ∧
        (runOnce cfg now true s).2.peripheralStateLastChanged = s.peripheralStateLastChanged ∧
        (runOnce cfg now true s).2.trace =
          s.trace ++ (if cfg.use_pwm then [Effect.rtttlPlay] else [])) ∧
      (s.isNagging = true → ∀ p : Peripheral,
        getPeripheralState (runOnce cfg now true s).2 p =
          (if now > u32 (s.peripheralStateLastChanged.get p + holdDuration cfg) then
            !getPeripheralState s p else getPeripheralState s p) ∧
        (runOnce cfg now true s).2.peripheralStateLastChanged.get p =
          (if now > u32 (s.peripheralStateLastChanged.get p + holdDuration cfg) then now
           else s.peripheralStateLastChanged.get p)) := by
  have hno : ¬ (now > s.nagCycleCutoff ∧ true = false) := by simp
  rw [runOnce_not_idle cfg now true s hen hno]
  refine ⟨rfl, ?_, ?_, ?_, ?_⟩
  · cases h : s.isNagging <;> simp [h]
  · cases h : s.isNagging <;> simp [h]
  · intro h
    simp only [h, Bool.false_eq_true, if_false, refreshMelody_peripheralState,
      refreshMelody_lastChanged, true_and]
    unfold refreshMelody
    cases cfg.use_pwm <;> simp
  · intro h p
    simp [h, getPeripheralState, toggleAll_state, toggleAll_last]

/-- Witness for C2: Signal on since 1000 in an episode with cutoff 1100, tick at 1200. -/
theorem runOnce_playing_past_cutoff_witness :
    (runOnce baseConfig 1200 true
        (episodeState 1100 1000)).1 = 25 :=
  (runOnce_playing_past_cutoff baseConfig 1200 (episodeState 1100 1000) (by decide)
    (by decide)).1

/-- C3: a tick with the feature enabled, `now > cutoff` and the melody not playing turns
Signal and Vibration off with timestamp `now`, clears `isNagging`, sets the cutoff to
`UINT32_MAX`, returns `INT32_MAX`, issues only pin writes (no melody command) and leaves the
Buzzer's state and timestamp unchanged. -/
theorem runOnce_idle_transition (cfg : ModuleConfig) (now : Nat) (s : State)
    (hen : cfg.enabled = true) (hcut : now > s.nagCycleCutoff) :
    (runOnce cfg now false s).1 = INT32_MAX ∧
      getPeripheralState (runOnce cfg now false s).2 .SIGNAL = false ∧
      getPeripheralState (runOnce cfg now false s).2 .VIBRA = false ∧
      (runOnce cfg now false s).2.peripheralStateLastChanged.get .SIGNAL = now ∧
      (runOnce cfg now false s).2.peripheralStateLastChanged.get .VIBRA = now ∧
      (runOnce cfg now false s).2.isNagging = false ∧
      (runOnce cfg now false s).2.nagCycleCutoff = UINT32_MAX ∧
      (∃ ws : List Effect, (runOnce cfg now false s).2.trace = s.trace ++ ws ∧
        ∀ e ∈ ws, e.isMelody = false) ∧
      getPeripheralState (runOnce cfg now false s).2 .BUZZER = getPeripheralState s .BUZZER ∧
      (runOnce cfg now false s).2.peripheralStateLastChanged.get .BUZZER =
        s.peripheralStateLastChanged.get .BUZZER := by
  rw [runOnce_idle cfg now false s hen hcut rfl]
  refine ⟨rfl, rfl, rfl, rfl, rfl, rfl, rfl, ?_, rfl, rfl⟩
  refine ⟨_, rfl, ?_⟩
  intro e he
  simp only [offWrites, List.mem_append] at he
  rcases he with he | he <;> split at he <;> simp at he <;> subst he <;> rfl

/-- Witness for C3: an episode with Signal on and cutoff 1100, tick at 1200. -/
theorem runOnce_idle_transition_witness :
    (runOnce baseConfig 1200 false
        (episodeState 1100 1000)).1 = INT32_MAX :=
  (runOnce_idle_transition baseConfig 1200 (episodeState 1100 1000) (by decide) (by decide)).1

/-! ## Immediate stop -/

/-- C6 (as stated, refuted): at clock value 1 the cutoff set by `stopNow` is not below `now`,
and the following tick at 1 with the melody not playing returns 25 and leaves Signal on: it
does not take the Idle transition. -/
theorem stopNow_cutoff_not_elapsed_at_one :
    ¬ ((stopNow (episodeState 5000 0)).nagCycleCutoff < 1) ∧
      (runOnce baseConfig 1 false (stopNow (episodeState 5000 0))).1 = 25 ∧
      getPeripheralState (runOnce baseConfig 1 false (stopNow (episodeState 5000 0))).2 .SIGNAL
        = true := by
  decide

/-- C6 (as amended): `stopNow` issues exactly one melody stop followed by one scheduler
request with delay 0 and nothing else, clears `isNagging`, sets the cutoff to 1, and leaves
every peripheral's state and timestamp unchanged; the cutoff is elapsed for every clock value
`now > 1`, and a following tick at such a `now` with the feature enabled and the melody not
playing takes the Idle transition (returns `INT32_MAX`, cutoff `UINT32_MAX`). -/
theorem stopNow_effect (cfg : ModuleConfig) (now : Nat) (s : State)
    (hen : cfg.enabled = true) (hnow : 1 < now) :
    (stopNow s).trace = s.trace ++ [Effect.rtttlStop, Effect.setIntervalFromNow 0] ∧
      (stopNow s).isNagging = false ∧
      (stopNow s).nagCycleCutoff = 1 ∧
      (stopNow s).nagCycleCutoff < now ∧
      (stopNow s).peripheralState = s.peripheralState ∧
      (stopNow s).peripheralStateLastChanged = s.peripheralStateLastChanged ∧
      (runOnce cfg now false (stopNow s)).1 = INT32_MAX ∧
      (runOnce cfg now false (stopNow s)).2.nagCycleCutoff = UINT32_MAX := by
  have hcut : now > (stopNow s).nagCycleCutoff := hnow
  rw [runOnce_idle cfg now false (stopNow s) hen hcut rfl]
  refine ⟨?_, rfl, rfl, hnow, rfl, rfl, rfl, rfl⟩
  simp [stopNow, emit]

/-- Witness for C6: `stopNow` in an episode with cutoff 5000, then a tick at 200. -/
theorem stopNow_effect_witness :
    (stopNow (episodeState 5000 0)).nagCycleCutoff < 200 ∧
      (runOnce baseConfig 200 false (stopNow (episodeState 5000 0))).1 = INT32_MAX :=
  ⟨(stopNow_effect baseConfig 200 (episodeState 5000 0) (by decide) (by decide)).2.2.2.1,
   (stopNow_effect baseConfig 200 (episodeState 5000 0) (by decide)
     (by decide)).2.2.2.2.2.2.1⟩

/-- C5 (as stated, refuted): with a switched buzzer on pin 10 that is on, `stopNow` followed
by a tick at 5000 with the melody not playing leaves the Buzzer on, and no low level is
written to its pin; and at clock value 1 the tick after `stopNow` leaves Signal on as well. -/
theorem stopNow_then_tick_leaves_buzzer_on :
    getPeripheralState
        (runOnce { baseConfig with output_buzzer := 10 } 5000 false
          (stopNow { (episodeState 9000 4000) with
            peripheralState := { signal := true, buzzer := true, vibra := true } })).2 .BUZZER
      = true ∧
    Effect.digitalWrite 10 false ∉
        (runOnce { baseConfig with output_buzzer := 10 } 5000 false
          (stopNow { (episodeState 9000 4000) with
            peripheralState := { signal := true, buzzer := true, vibra := true } })).2.trace ∧
    getPeripheralState (runOnce baseConfig 1 false (stopNow (episodeState 9000 0))).2 .SIGNAL
      = true := by
  decide

/-- C5 (as amended): for every state and every clock value `now > 1`, `stopNow` followed by
one tick with the feature enabled and the melody engine reporting not playing issues one melody
stop and no other melody command, leaves `isNagging` false and leaves Signal and Vibration off, whatever the prior cutoff
was. -/
theorem stopNow_then_tick (cfg : ModuleConfig) (now : Nat) (s : State)
    (hen : cfg.enabled = true) (hnow : 1 < now) :
    (∃ ws : List Effect, (runOnce cfg now false (stopNow s)).2.trace =
        s.trace ++ Effect.rtttlStop :: ws ∧ ∀ e ∈ ws, e.isMelody = false) ∧
      (runOnce cfg now false (stopNow s)).2.isNagging = false ∧
      getPeripheralState (runOnce cfg now false (stopNow s)).2 .SIGNAL = false ∧
      getPeripheralState (runOnce cfg now false (stopNow s)).2 .VIBRA = false := by
  have hcut : now > (stopNow s).nagCycleCutoff := hnow
  rw [runOnce_idle cfg now false (stopNow s) hen hcut rfl]
  refine ⟨⟨Effect.setIntervalFromNow 0 ::
    (offWrites cfg s.output .SIGNAL ++ offWrites cfg s.output .VIBRA), ?_, ?_⟩, rfl, rfl, rfl⟩
  · simp [stopNow, emit]
  · intro e he
    simp only [offWrites, List.mem_cons, List.mem_append] at he
    rcases he with he | he | he
    · subst he; rfl
    · split at he <;> simp at he
      subst he; rfl
    · split at he <;> simp at he
      subst he; rfl

/-- Witness for C5: Signal on, cutoff 9000 still ahead, stop and tick at 5000. -/
theorem stopNow_then_tick_witness :
    getPeripheralState (runOnce baseConfig 5000 false (stopNow (episodeState 9000 4000))).2
      .SIGNAL = false :=
  (stopNow_then_tick baseConfig 5000 (episodeState 9000 4000) (by decide) (by decide)).2.2.1

/-! ## Peripheral primitives -/

/-- C9: for every peripheral, state and clock values `t1`, `t2`, `setPeripheralOn(p)` at `t1`
and again at `t2` leaves `getPeripheralState(p)` true after each call, with timestamp `t1`
after the first call and `t2` after the second. -/
theorem setPeripheralOn_twice (cfg : ModuleConfig) (p : Peripheral) (s : State) (t1 t2 : Nat) :
    getPeripheralState (setPeripheralOn cfg t1 p s) p = true ∧
      (setPeripheralOn cfg t1 p s).peripheralStateLastChanged.get p = t1 ∧
      getPeripheralState (setPeripheralOn cfg t2 p (setPeripheralOn cfg t1 p s)) p = true ∧
      (setPeripheralOn cfg t2 p (setPeripheralOn cfg t1 p s)).peripheralStateLastChanged.get p
        = t2 := by
  simp [getPeripheralState, setPeripheralOn_eq]

/-! ## Event arming: tone mode -/

/-- C10 (as stated, refuted): with the clock at `4294967295` and `output_ms = 500`, the
tone-mode buzzer arming stores the cutoff `499`, not `now + 500`. -/
theorem handleReceived_pwm_cutoff_wraps :
    (handleReceived
        { baseConfig with alert_message_buzzer := true, use_pwm := true, output_ms := 500 }
        1 4294967295 plainPacket (quietState 4294967295)).2.nagCycleCutoff = 499 ∧
      (handleReceived
        { baseConfig with alert_message_buzzer := true, use_pwm := true, output_ms := 500 }
        1 4294967295 plainPacket (quietState 4294967295)).2.nagCycleCutoff
        ≠ 4294967295 + 500 := by
  decide

/-- C10 (as amended): an inbound message from another node with the feature enabled,
`use_pwm` set, `alert_message_buzzer` the only trigger flag set and `nag_timeout = 0` makes
`handleReceived` issue exactly one melody begin (melody pin, current ringtone) followed by
the scheduler request and nothing else (no physical write), set `isNagging`, leave every
peripheral's state and timestamp unchanged, and set the cutoff to `(now + output_ms) mod 2^32`,
which is `now + output_ms` whenever that sum is below `2^32`. -/
theorem handleReceived_pwm_buzzer_only (cfg : ModuleConfig) (nodeNum now : Nat)
    (mp : MeshPacket) (s : State)
    (hen : cfg.enabled = true) (hfrom : mp.sender ≠ nodeNum) (hpwm : cfg.use_pwm = true)
    (hbuz : cfg.alert_message_buzzer = true) (h1 : cfg.alert_message = false)
    (h3 : cfg.alert_message_vibra = false) (h4 : cfg.alert_bell = false)
    (h5 : cfg.alert_bell_buzzer = false) (h6 : cfg.alert_bell_vibra = false)
    (hnag : cfg.nag_timeout = 0) :
    (handleReceived cfg nodeNum now mp s).2.trace =
        s.trace ++ [Effect.rtttlBegin s.buzzer_gpio s.ringtone, Effect.setIntervalFromNow 0] ∧
      (handleReceived cfg nodeNum now mp s).2.nagCycleCutoff
        = (now + cfg.output_ms) % 4294967296 ∧
      (now + cfg.output_ms < 4294967296 →
        (handleReceived cfg nodeNum now mp s).2.nagCycleCutoff = now + cfg.output_ms) ∧
      (handleReceived cfg nodeNum now mp s).2.isNagging = true ∧
      (handleReceived cfg nodeNum now mp s).2.peripheralState = s.peripheralState ∧
      (handleReceived cfg nodeNum now mp s).2.peripheralStateLastChanged
        = s.peripheralStateLastChanged := by
  have hs : (handleReceived cfg nodeNum now mp s).2 =
      emit (.setIntervalFromNow 0) (armBuzzer cfg now s) := by
    simp [handleReceived, hen, hfrom, hbuz, h1, h3, h4, h5, h6]
  have hc : armCutoff cfg now = (now + cfg.output_ms) % 4294967296 := by
    simp [armCutoff, hnag, u32]
  rw [hs, armBuzzer_eq_pwm cfg now s hpwm]
  refine ⟨by simp [emit], hc, ?_, rfl, rfl, rfl⟩
  intro hlt
  show armCutoff cfg now = now + cfg.output_ms
  rw [hc, Nat.mod_eq_of_lt hlt]

/-- Witness for C10: `output_ms = 500` at `now = 1000` gives the cutoff `1500`. -/
theorem handleReceived_pwm_buzzer_only_witness :
    (handleReceived
        { baseConfig with alert_message_buzzer := true, use_pwm := true, output_ms := 500 }
        1 1000 plainPacket (quietState 4294967295)).2.nagCycleCutoff = 1500 :=
  (handleReceived_pwm_buzzer_only
    { baseConfig with alert_message_buzzer := true, use_pwm := true, output_ms := 500 }
    1 1000 plainPacket (quietState 4294967295) (by decide) (by decide) rfl rfl rfl rfl rfl rfl
    rfl rfl).2.2.1 (by decide)

/-! ## Sequences of calls -/

/-- C4 (the code at the failing input): from the initial state, with a switched buzzer on
pin 10 selected by `alert_message_buzzer`, a message at 100 and the tick at 1200 that ends the
episode leave `isNagging` false; after one further tick at 1225 the Buzzer is still on and no
low level was ever written to its pin. -/
theorem idle_leaves_switched_buzzer_on :
    (run { baseConfig with alert_message_buzzer := true, output_buzzer := 10 } 1
        (quietState 4294967295) [.arm 100 plainPacket, .tick 1200 false]).isNagging = false ∧
      getPeripheralState
        (run { baseConfig with alert_message_buzzer := true, output_buzzer := 10 } 1
          (quietState 4294967295)
          [.arm 100 plainPacket, .tick 1200 false, .tick 1225 false]) .BUZZER = true ∧
      Effect.digitalWrite 10 false ∉
        (run { baseConfig with alert_message_buzzer := true, output_buzzer := 10 } 1
          (quietState 4294967295)
          [.arm 100 plainPacket, .tick 1200 false, .tick 1225 false]).trace := by
  decide

/-- C7: along every sequence of arming calls and ticks with no `stopNow`, a step that finds
`isNagging` true and leaves it false is a tick, with the feature enabled, that observed
`now > cutoff` and the melody not playing; so no arming call clears `isNagging`. -/
theorem isNagging_cleared_only_by_idle_tick (cfg : ModuleConfig) (nodeNum : Nat) (s0 : State)
    (pre : List Step) (st : Step) (hstop : ∀ x ∈ pre ++ [st], x ≠ Step.stop)
    (hbefore : (run cfg nodeNum s0 pre).isNagging = true)
    (hafter : (run cfg nodeNum s0 (pre ++ [st])).isNagging = false) :
    ∃ now : Nat, st = Step.tick now false ∧ cfg.enabled = true ∧
      now > (run cfg nodeNum s0 pre).nagCycleCutoff := by
  have hrun : run cfg nodeNum s0 (pre ++ [st]) = applyStep cfg nodeNum (run cfg nodeNum s0 pre) st := by
    simp [run, List.foldl_append]
  rw [hrun] at hafter
  cases st with
  | arm now mp =>
    have := handleReceived_keeps_nagging cfg nodeNum now mp _ hbefore
    simp only [applyStep] at hafter
    rw [this] at hafter
    exact absurd hafter (by decide)
  | tick now playing =>
    obtain ⟨h1, h2, h3⟩ := runOnce_clears_nagging cfg now playing _ hbefore hafter
    exact ⟨now, by rw [h3], h1, h2⟩
  | stop => exact absurd rfl (hstop Step.stop (by simp))

/-- Witness for C7: an episode with cutoff 1100; ticks at 1050 (Holding) and 1200 (Idle). -/
theorem isNagging_cleared_only_by_idle_tick_witness :
    ∃ now : Nat, Step.tick 1200 false = Step.tick now false ∧ baseConfig.enabled = true ∧
      now > (run baseConfig 1 (episodeState 1100 1000) [.tick 1050 false]).nagCycleCutoff :=
  isNagging_cleared_only_by_idle_tick baseConfig 1 (episodeState 1100 1000) [.tick 1050 false]
    (.tick 1200 false) (by decide) (by decide) (by decide)

/-! ## Toggling cadence -/

/-- C8 (as stated, refuted): with `output_ms = 1000`, Signal switched on at time 0 and
Holding ticks at 0, 250, 500, 750 and 1000, no peripheral inverts during the 1000 ms window
from 0 to 1000. -/
theorem no_inversion_within_1000ms :
    baseConfig.output_ms = 1000 ∧
      allHolding baseConfig (episodeState 100000 0)
        [(0, false), (250, false), (500, false), (750, false), (1000, false)] = true ∧
      inversionTimes baseConfig .SIGNAL (episodeState 100000 0)
        [(0, false), (250, false), (500, false), (750, false), (1000, false)] = [] ∧
      inversionTimes baseConfig .BUZZER (episodeState 100000 0)
        [(0, false), (250, false), (500, false), (750, false), (1000, false)] = [] ∧
      inversionTimes baseConfig .VIBRA (episodeState 100000 0)
        [(0, false), (250, false), (500, false), (750, false), (1000, false)] = [] := by
  decide

/-- C8 (as amended): in every run of consecutive Holding ticks with `output_ms = 1000` and
clock values below `2^32 - 1000`, any two inversions of the same peripheral are more than
1000 ms apart (at most one inversion in every 1000 ms window); and a tick inverts a peripheral
whose timestamp is below `2^32 - 1000` exactly when the tick comes strictly more than 1000 ms
after that timestamp. -/
theorem holding_cadence (cfg : ModuleConfig) (p : Peripheral) (s : State)
    (ticks : List (Nat × Bool)) (hms : cfg.output_ms = 1000)
    (hall : allHolding cfg s ticks = true)
    (hbound : ∀ t ∈ ticks, t.1 + 1000 < 4294967296) :
    List.Pairwise (fun a b => a + 1000 < b) (inversionTimes cfg p s ticks) ∧
      (∀ (now : Nat) (playing : Bool) (rest : List (Nat × Bool)),
        ticks = (now, playing) :: rest →
        s.peripheralStateLastChanged.get p + 1000 < 4294967296 →
        (getPeripheralState (runOnce cfg now playing s).2 p = !getPeripheralState s p ↔
          s.peripheralStateLastChanged.get p + 1000 < now)) := by
  refine ⟨inversionTimes_pairwise cfg p hms ticks s hall hbound, ?_⟩
  intro now playing rest hticks hlast
  subst hticks
  simp only [allHolding, Bool.and_eq_true] at hall
  have hrule := (runOnce_holding cfg now playing s p hall.1).1
  have hhold : holdDuration cfg = 1000 := by simp [holdDuration, hms]
  rw [hhold, u32, Nat.mod_eq_of_lt hlast] at hrule
  rw [hrule]
  by_cases hc : now > s.peripheralStateLastChanged.get p + 1000
  · simp [hc]
  · simp only [if_neg hc]
    constructor
    · intro h
      cases hg : getPeripheralState s p <;> simp [hg] at h
    · intro h
      exact absurd h hc

/-- Witness for C8: Signal on since 0, Holding ticks at 500, 1001, 1500 and 2002: the
inversions at 1001 and 2002 are more than 1000 ms apart. -/
theorem holding_cadence_witness :
    List.Pairwise (fun a b => a + 1000 < b)
      (inversionTimes baseConfig .SIGNAL (episodeState 100000 0)
        [(500, false), (1001, false), (1500, false), (2002, false)]) :=
  (holding_cadence baseConfig .SIGNAL (episodeState 100000 0)
    [(500, false), (1001, false), (1500, false), (2002, false)] rfl (by decide)
    (by decide)).1

/-! ## No-op cases -/

/-- C11: when the feature is disabled or the packet's sender is the local node,
`handleReceived` returns `CONTINUE` and leaves the whole state as it was: `isNagging`, the
cutoff, every peripheral's state and timestamp, and the call record (no melody command, no
physical write, no scheduler request). -/
theorem handleReceived_noop (cfg : ModuleConfig) (nodeNum now : Nat) (mp : MeshPacket)
    (s : State) (h : cfg.enabled = false ∨ mp.sender = nodeNum) :
    (handleReceived cfg nodeNum now mp s).1 = ProcessMessage.CONTINUE ∧
      (handleReceived cfg nodeNum now mp s).2 = s := by
  unfold handleReceived
  rcases h with h | h
  · simp [h]
  · cases cfg.enabled <;> simp [h]

/-- Witness for C11: a packet whose sender is the local node 7, in the middle of an episode. -/
theorem handleReceived_noop_witness :
    (handleReceived { baseConfig with alert_message := true } 7 300 plainPacket
        (episodeState 1100 100)).2 = episodeState 1100 100 :=
  (handleReceived_noop { baseConfig with alert_message := true } 7 300 plainPacket
    (episodeState 1100 100) (Or.inr rfl)).2

/-- C12: a tick with the feature disabled returns `INT32_MAX` and leaves the whole state as
it was: no physical write, no melody command, `isNagging`, the cutoff and all peripheral
bookkeeping unchanged. -/
theorem runOnce_disabled (cfg : ModuleConfig) (now : Nat) (playing : Bool) (s : State)
    (h : cfg.enabled = false) :
    (runOnce cfg now playing s).1 = INT32_MAX ∧ (runOnce cfg now playing s).2 = s := by
  rw [runOnce_off cfg now playing s h]
  exact ⟨rfl, rfl⟩

/-- Witness for C12: a tick past the cutoff of an episode, with the feature disabled. -/
theorem runOnce_disabled_witness :
    (runOnce { baseConfig with enabled := false } 5000 false (episodeState 1100 100)).1
        = INT32_MAX ∧
      (runOnce { baseConfig with enabled := false } 5000 false (episodeState 1100 100)).2
        = episodeState 1100 100 :=
  runOnce_disabled { baseConfig with enabled := false } 5000 false (episodeState 1100 100) rfl

/-! ## Tick handler: melody refresh and returned delay -/

/-- C13: in a tick that takes neither the disabled nor the Idle exit, the melody commands
issued are, with `use_pwm` set: exactly one step when the melody is playing; exactly one begin
(melody pin, current ringtone) when it is not playing, `isNagging` is true and `now < cutoff`;
none otherwise. With `use_pwm` clear no tick issues a melody command. -/
theorem runOnce_melody_commands (cfg : ModuleConfig) (now : Nat) (playing : Bool) (s : State) :
    (cfg.enabled = true → ¬ (now > s.nagCycleCutoff ∧ playing = false) →
      ∃ ws : List Effect, (runOnce cfg now playing s).2.trace = s.trace ++ ws ∧
        ws.filter Effect.isMelody =
          (if cfg.use_pwm then
            if playing then [Effect.rtttlPlay]
            else if s.isNagging && decide (now < s.nagCycleCutoff) then
              [Effect.rtttlBegin s.buzzer_gpio s.ringtone]
            else []
          else [])) ∧
      (cfg.use_pwm = false →
        ∃ ws : List Effect, (runOnce cfg now playing s).2.trace = s.trace ++ ws ∧
          ws.filter Effect.isMelody = []) := by
  have hmain : cfg.enabled = true → ¬ (now > s.nagCycleCutoff ∧ playing = false) →
      ∃ ws : List Effect, (runOnce cfg now playing s).2.trace = s.trace ++ ws ∧
        ws.filter Effect.isMelody = refreshCommands cfg now playing s := by
    intro hen hno
    rw [runOnce_not_idle cfg now playing s hen hno]
    cases hnag : s.isNagging
    · refine ⟨refreshCommands cfg now playing s, ?_, refreshCommands_filter cfg now playing s⟩
      simp [refreshMelody_trace]
    · refine ⟨(toggleWrites cfg now s .SIGNAL ++ (toggleWrites cfg now s .BUZZER ++
          toggleWrites cfg now s .VIBRA)) ++ refreshCommands cfg now playing s, ?_, ?_⟩
      · have hc : refreshCommands cfg now playing (toggleAll cfg now s) =
            refreshCommands cfg now playing s := by
          simp [refreshCommands]
        simp [refreshMelody_trace, toggleAll_trace, hc]
      · rw [List.filter_append, refreshCommands_filter, filter_isMelody_of_writes]
        · rfl
        · intro e he
          simp only [List.mem_append] at he
          rcases he with he | he | he
          · exact toggleWrites_isWrite cfg now s _ e he
          · exact toggleWrites_isWrite cfg now s _ e he
          · exact toggleWrites_isWrite cfg now s _ e he
  refine ⟨fun hen hno => ?_, fun hpwm => ?_⟩
  · obtain ⟨ws, h1, h2⟩ := hmain hen hno
    exact ⟨ws, h1, by rw [h2]; rfl⟩
  · cases hen : cfg.enabled
    · exact ⟨[], by simp [runOnce, hen], rfl⟩
    · by_cases hidle : now > s.nagCycleCutoff ∧ playing = false
      · rw [runOnce_idle cfg now playing s hen hidle.1 hidle.2]
        refine ⟨_, rfl, filter_isMelody_of_writes _ ?_⟩
        intro e he
        simp only [List.mem_append] at he
        rcases he with he | he
        · exact offWrites_isWrite cfg s.output _ e he
        · exact offWrites_isWrite cfg s.output _ e he
      · obtain ⟨ws, h1, h2⟩ := hmain hen hidle
        refine ⟨ws, h1, ?_⟩
        rw [h2]
        simp [refreshCommands, hpwm]

/-- Witness for C13: in tone mode, a tick inside the episode with the melody finished issues
one begin with the melody pin 11 and the ringtone. -/
theorem runOnce_melody_commands_witness :
    ∃ ws : List Effect,
      (runOnce { baseConfig with use_pwm := true } 500 false (episodeState 1100 100)).2.trace
        = (episodeState 1100 100).trace ++ ws ∧
      ws.filter Effect.isMelody = [Effect.rtttlBegin 11 [97, 58]] :=
  (runOnce_melody_commands { baseConfig with use_pwm := true } 500 false
    (episodeState 1100 100)).1 rfl (by decide)

/-- C14: a tick returns `INT32_MAX` exactly when the feature is disabled or the tick takes the
Idle transition (`now > cutoff` and melody not playing), and returns 25 in every other case;
it never returns anything else. -/
theorem runOnce_delay (cfg : ModuleConfig) (now : Nat) (playing : Bool) (s : State) :
    ((runOnce cfg now playing s).1 = 25 ∨ (runOnce cfg now playing s).1 = INT32_MAX) ∧
      ((runOnce cfg now playing s).1 = INT32_MAX ↔
        (cfg.enabled = false ∨ (now > s.nagCycleCutoff ∧ playing = false))) ∧
      ((runOnce cfg now playing s).1 = 25 ↔
        ¬ (cfg.enabled = false ∨ (now > s.nagCycleCutoff ∧ playing = false))) := by
  have h25 : (25 : Int) ≠ INT32_MAX := by decide
  cases hen : cfg.enabled
  · rw [runOnce_off cfg now playing s hen]
    simp [Ne.symm h25]
  · by_cases hidle : now > s.nagCycleCutoff ∧ playing = false
    · rw [runOnce_idle cfg now playing s hen hidle.1 hidle.2]
      simp [hidle, Ne.symm h25]
    · rw [runOnce_not_idle cfg now playing s hen hidle]
      simp only [hidle, or_false, Bool.true_eq_false, not_false_eq_true, iff_true, true_or,
        true_and, iff_false]
      exact ⟨h25, trivial⟩

/-! ## Peripheral primitives: pins and frame -/

/-- C15: with a configured signal pin (`output > 0`), `setPeripheralOn(SIGNAL)` writes the
level `active` and `setPeripheralOff(SIGNAL)` writes its complement, two different levels;
with a configured pin, Buzzer and Vibration are written high by on and low by off, whatever
`active` is. -/
theorem peripheral_polarity (cfg : ModuleConfig) (now : Nat) (s : State) :
    (s.output > 0 →
      (setPeripheralOn cfg now .SIGNAL s).trace
          = s.trace ++ [Effect.digitalWrite s.output cfg.active] ∧
        (setPeripheralOff cfg now .SIGNAL s).trace
          = s.trace ++ [Effect.digitalWrite s.output (!cfg.active)] ∧
        cfg.active ≠ !cfg.active) ∧
      (cfg.output_buzzer ≠ 0 →
        (setPeripheralOn cfg now .BUZZER s).trace
            = s.trace ++ [Effect.digitalWrite cfg.output_buzzer true] ∧
          (setPeripheralOff cfg now .BUZZER s).trace
            = s.trace ++ [Effect.digitalWrite cfg.output_buzzer false]) ∧
      (cfg.output_vibra ≠ 0 →
        (setPeripheralOn cfg now .VIBRA s).trace
            = s.trace ++ [Effect.digitalWrite cfg.output_vibra true] ∧
          (setPeripheralOff cfg now .VIBRA s).trace
            = s.trace ++ [Effect.digitalWrite cfg.output_vibra false]) := by
  refine ⟨fun h => ?_, fun h => ?_, fun h => ?_⟩
  · refine ⟨?_, ?_, ?_⟩
    · simp [setPeripheralOn_eq, onWrites, h]
    · simp [setPeripheralOff_eq, offWrites, h]
    · cases cfg.active <;> decide
  · constructor
    · simp [setPeripheralOn_eq, onWrites, h]
    · simp [setPeripheralOff_eq, offWrites, h]
  · constructor
    · simp [setPeripheralOn_eq, onWrites, h]
    · simp [setPeripheralOff_eq, offWrites, h]

/-- Witness for C15: an active-low board with signal pin 2: on writes low, off writes high. -/
theorem peripheral_polarity_witness :
    (setPeripheralOn { baseConfig with active := false } 50 .SIGNAL (quietState 0)).trace
        = (quietState 0).trace ++ [Effect.digitalWrite 2 false] ∧
      (setPeripheralOff { baseConfig with active := false } 50 .SIGNAL (quietState 0)).trace
        = (quietState 0).trace ++ [Effect.digitalWrite 2 true] ∧
      false ≠ !false :=
  (peripheral_polarity { baseConfig with active := false } 50 (quietState 0)).1 (by decide)

/-- C16: `setPeripheralOn(p)` and `setPeripheralOff(p)` set the state of `p` to true,
respectively false, and its timestamp to `now` whether or not the pin is configured; they
leave the other two peripherals' state and timestamp, `isNagging` and the cutoff unchanged;
they issue exactly one call, a write to the pin of `p`, when that pin is configured, and no
call when it is not. -/
theorem setPeripheral_frame (cfg : ModuleConfig) (now : Nat) (p : Peripheral) (s : State) :
    (getPeripheralState (setPeripheralOn cfg now p s) p = true ∧
      (setPeripheralOn cfg now p s).peripheralStateLastChanged.get p = now ∧
      (∀ q : Peripheral, q ≠ p →
        getPeripheralState (setPeripheralOn cfg now p s) q = getPeripheralState s q ∧
        (setPeripheralOn cfg now p s).peripheralStateLastChanged.get q
          = s.peripheralStateLastChanged.get q) ∧
      (setPeripheralOn cfg now p s).isNagging = s.isNagging ∧
      (setPeripheralOn cfg now p s).nagCycleCutoff = s.nagCycleCutoff ∧
      (pinConfigured cfg s p = true → ∃ level : Bool,
        (setPeripheralOn cfg now p s).trace
          = s.trace ++ [Effect.digitalWrite (peripheralPin cfg s p) level]) ∧
      (pinConfigured cfg s p = false → (setPeripheralOn cfg now p s).trace = s.trace)) ∧
    (getPeripheralState (setPeripheralOff cfg now p s) p = false ∧
      (setPeripheralOff cfg now p s).peripheralStateLastChanged.get p = now ∧
      (∀ q : Peripheral, q ≠ p →
        getPeripheralState (setPeripheralOff cfg now p s) q = getPeripheralState s q ∧
        (setPeripheralOff cfg now p s).peripheralStateLastChanged.get q
          = s.peripheralStateLastChanged.get q) ∧
      (setPeripheralOff cfg now p s).isNagging = s.isNagging ∧
      (setPeripheralOff cfg now p s).nagCycleCutoff = s.nagCycleCutoff ∧
      (pinConfigured cfg s p = true → ∃ level : Bool,
        (setPeripheralOff cfg now p s).trace
          = s.trace ++ [Effect.digitalWrite (peripheralPin cfg s p) level]) ∧
      (pinConfigured cfg s p = false → (setPeripheralOff cfg now p s).trace = s.trace)) := by
  rw [setPeripheralOn_eq, setPeripheralOff_eq]
  refine ⟨⟨?_, ?_, ?_, rfl, rfl, ?_, ?_⟩, ⟨?_, ?_, ?_, rfl, rfl, ?_, ?_⟩⟩
  · simp [getPeripheralState]
  · simp
  · intro q hq
    exact ⟨PerArray.get_set_other _ _ hq, PerArray.get_set_other _ _ hq⟩
  · intro h
    cases p <;> simp only [pinConfigured, decide_eq_true_eq] at h <;>
      simp [onWrites, peripheralPin, h]
  · intro h
    cases p <;> simp only [pinConfigured, decide_eq_false_iff_not] at h <;>
      simp [onWrites, h]
  · simp [getPeripheralState]
  · simp
  · intro q hq
    exact ⟨PerArray.get_set_other _ _ hq, PerArray.get_set_other _ _ hq⟩
  · intro h
    cases p <;> simp only [pinConfigured, decide_eq_true_eq] at h <;>
      simp [offWrites, peripheralPin, h]
  · intro h
    cases p <;> simp only [pinConfigured, decide_eq_false_iff_not] at h <;>
      simp [offWrites, h]

/-- Witness for C16: the buzzer pin is not configured in `baseConfig`: the state and the
timestamp are recorded and no call is issued. -/
theorem setPeripheral_frame_witness :
    (setPeripheralOn baseConfig 50 .BUZZER (quietState 0)).trace = (quietState 0).trace :=
  (setPeripheral_frame baseConfig 50 .BUZZER (quietState 0)).1.2.2.2.2.2.2 (by decide)

/-! ## Ringtone requests -/

/-- C17 (as stated, refuted): the empty request fits every buffer and differs from the
stored ringtone `a:`, yet `handleSetRingtone` does not persist and the stored ringtone is
still `a:`, not the request. -/
theorem handleSetRingtone_empty_request :
    ([] : List Nat).length < 231 ∧ ([] : List Nat) ≠ (quietState 0).ringtone ∧
      (handleSetRingtone 231 [] (quietState 0)).trace = (quietState 0).trace ∧
      (handleSetRingtone 231 [] (quietState 0)).ringtone ≠ [] := by
  decide

/-- C17 (as amended): for every stored ringtone and every non-empty request string that fits
the ringtone buffer, `handleSetRingtone` calls `saveProto` exactly when the request differs
from the stored ringtone, and afterwards the stored ringtone equals the request; an empty
request changes nothing and does not persist. -/
theorem handleSetRingtone_persists (ringtoneSize : Nat) (from_msg : List Nat) (s : State)
    (hr : isCString s.ringtone = true) (hm : isCString from_msg = true)
    (hfit : from_msg.length < ringtoneSize) :
    (from_msg ≠ [] →
      (handleSetRingtone ringtoneSize from_msg s).ringtone = from_msg ∧
      (from_msg ≠ s.ringtone →
        (handleSetRingtone ringtoneSize from_msg s).trace
          = s.trace ++ [Effect.saveProto from_msg]) ∧
      (from_msg = s.ringtone →
        (handleSetRingtone ringtoneSize from_msg s).trace = s.trace)) ∧
    (from_msg = [] → handleSetRingtone ringtoneSize from_msg s = s) := by
  constructor
  · intro hne
    have hh := headD_ne_zero_of_cstring from_msg hm hne
    have hcmp := strcmp_eq_zero_iff s.ringtone from_msg hr hm
    refine ⟨handleSetRingtone_ringtone ringtoneSize from_msg s hm hne hfit, ?_, ?_⟩
    · intro hdiff
      have hnz : strcmp s.ringtone from_msg ≠ 0 := fun h0 => hdiff (hcmp.mp h0).symm
      unfold handleSetRingtone
      simp only [hh, hnz, ne_eq, not_false_eq_true, if_true,
        strncpy_of_fits from_msg ringtoneSize hfit, emit_trace]
    · intro hsame
      have hz : strcmp s.ringtone from_msg = 0 := hcmp.mpr hsame.symm
      unfold handleSetRingtone
      simp only [hh, hz, ne_eq, not_false_eq_true, if_true, not_true_eq_false, if_false]
  · intro hnil
    subst hnil
    unfold handleSetRingtone
    simp only [List.headD_nil, ne_eq, not_true_eq_false, if_false]

/-- Witness for C17: the stored ringtone `a:` replaced by `b:` in a buffer of 231 bytes. -/
theorem handleSetRingtone_persists_witness :
    (handleSetRingtone 231 [98, 58] (quietState 0)).ringtone = [98, 58] ∧
      (handleSetRingtone 231 [98, 58] (quietState 0)).trace
        = (quietState 0).trace ++ [Effect.saveProto [98, 58]] :=
  ⟨((handleSetRingtone_persists 231 [98, 58] (quietState 0) (by decide) (by decide)
      (by decide)).1 (by decide)).1,
   ((handleSetRingtone_persists 231 [98, 58] (quietState 0) (by decide) (by decide)
      (by decide)).1 (by decide)).2.1 (by decide)⟩

/-- C18: for every non-empty string shorter than the ringtone and response buffers,
`handleSetRingtone` followed by `handleGetRingtone` on a request with `want_response` set
yields a response tagged `get_ringtone_response` whose string is the request verbatim; with
`want_response` clear `handleGetRingtone` leaves the response unchanged. -/
theorem ringtone_round_trip (ringtoneSize responseSize : Nat) (from_msg : List Nat)
    (req : MeshPacket) (s : State) (response : AdminMessage)
    (hm : isCString from_msg = true) (hne : from_msg ≠ [])
    (hfit : from_msg.length < ringtoneSize) (hresp : from_msg.length < responseSize) :
    (req.want_response = true →
      handleGetRingtone responseSize req (handleSetRingtone ringtoneSize from_msg s) response
        = { which_payload_variant := AdminTag.get_ringtone_response_tag,
            payload_variant := from_msg }) ∧
    (req.want_response = false →
      handleGetRingtone responseSize req (handleSetRingtone ringtoneSize from_msg s) response
        = response) := by
  constructor
  · intro hw
    simp [handleGetRingtone, hw, handleSetRingtone_ringtone ringtoneSize from_msg s hm hne hfit,
      strncpy_of_fits from_msg responseSize hresp]
  · intro hw
    simp [handleGetRingtone, hw]

/-- Witness for C18: set `b:` and read it back with buffers of 231 bytes. -/
theorem ringtone_round_trip_witness :
    handleGetRingtone 231 { plainPacket with want_response := true }
        (handleSetRingtone 231 [98, 58] (quietState 0)) emptyResponse
      = { which_payload_variant := AdminTag.get_ringtone_response_tag,
          payload_variant := [98, 58] } :=
  (ringtone_round_trip 231 231 [98, 58] { plainPacket with want_response := true }
    (quietState 0) emptyResponse (by decide) (by decide) (by decide) (by decide)).1 rfl

/-! ## Holding rule -/

/-- C19 (as stated, refuted): with `output_ms = 5000` and `nag_timeout = 1`, Signal is armed
at `4294966000` (cutoff `4294967000`); the tick 25 ms later is not an Idle tick and
`now > lastChangedAt + hold` is false (`4294966025 ≤ 4294971000`), yet Signal is inverted,
because the sum is reduced modulo `2^32` to `3704`. -/
theorem holding_rule_wraps :
    ¬ (4294966025 >
        (handleReceived { baseConfig with alert_message := true, output_ms := 5000,
                                          nag_timeout := 1 } 1 4294966000 plainPacket
          (quietState 4294967295)).2.peripheralStateLastChanged.get .SIGNAL + 5000) ∧
      ¬ (4294966025 >
        (handleReceived { baseConfig with alert_message := true, output_ms := 5000,
                                          nag_timeout := 1 } 1 4294966000 plainPacket
          (quietState 4294967295)).2.nagCycleCutoff) ∧
      getPeripheralState
        (handleReceived { baseConfig with alert_message := true, output_ms := 5000,
                                          nag_timeout := 1 } 1 4294966000 plainPacket
          (quietState 4294967295)).2 .SIGNAL = true ∧
      getPeripheralState
        (runOnce { baseConfig with alert_message := true, output_ms := 5000,
                                   nag_timeout := 1 } 4294966025 false
          (handleReceived { baseConfig with alert_message := true, output_ms := 5000,
                                            nag_timeout := 1 } 1 4294966000 plainPacket
            (quietState 4294967295)).2).2 .SIGNAL = false := by
  decide

/-- C19 (as amended): in a tick with the feature enabled that does not take the Idle
transition, with `hold = output_ms` if that is non-zero and 1000 otherwise: if `isNagging` is
true, each peripheral has its state inverted and its timestamp set to `now` exactly when
`now > (lastChangedAt + hold) mod 2^32` (the plain comparison `now > lastChangedAt + hold`
whenever that sum is below `2^32`) and is otherwise unchanged; if `isNagging` is false no
peripheral changes. -/
theorem holding_rule (cfg : ModuleConfig) (now : Nat) (playing : Bool) (s : State)
    (hen : cfg.enabled = true) (hno : ¬ (now > s.nagCycleCutoff ∧ playing = false)) :
    (s.isNagging = true → ∀ p : Peripheral,
      (now > (s.peripheralStateLastChanged.get p +
            (if cfg.output_ms ≠ 0 then cfg.output_ms else 1000)) % 4294967296 →
        getPeripheralState (runOnce cfg now playing s).2 p = !getPeripheralState s p ∧
        (runOnce cfg now playing s).2.peripheralStateLastChanged.get p = now) ∧
      (¬ now > (s.peripheralStateLastChanged.get p +
            (if cfg.output_ms ≠ 0 then cfg.output_ms else 1000)) % 4294967296 →
        getPeripheralState (runOnce cfg now playing s).2 p = getPeripheralState s p ∧
        (runOnce cfg now playing s).2.peripheralStateLastChanged.get p
          = s.peripheralStateLastChanged.get p) ∧
      (s.peripheralStateLastChanged.get p +
          (if cfg.output_ms ≠ 0 then cfg.output_ms else 1000) < 4294967296 →
        (getPeripheralState (runOnce cfg now playing s).2 p = !getPeripheralState s p ↔
          now > s.peripheralStateLastChanged.get p +
            (if cfg.output_ms ≠ 0 then cfg.output_ms else 1000)))) ∧
    (s.isNagging = false →
      (runOnce cfg now playing s).2.peripheralState = s.peripheralState ∧
      (runOnce cfg now playing s).2.peripheralStateLastChanged
        = s.peripheralStateLastChanged) := by
  constructor
  · intro hnag p
    have hhold : isHoldingTick cfg s now playing = true := by
      simp only [isHoldingTick, hen, hnag, Bool.and_self, Bool.true_and, Bool.not_eq_true',
        Bool.and_eq_false_imp, decide_eq_true_eq, Bool.not_eq_false']
      intro h1
      cases playing
      · exact absurd ⟨h1, rfl⟩ hno
      · rfl
    have hrule := runOnce_holding cfg now playing s p hhold
    have hd : holdDuration cfg = (if cfg.output_ms ≠ 0 then cfg.output_ms else 1000) := rfl
    rw [hd] at hrule
    unfold u32 at hrule
    refine ⟨fun hc => ?_, fun hc => ?_, fun hlt => ?_⟩
    · rw [hrule.1, hrule.2, if_pos hc, if_pos hc]
      exact ⟨rfl, rfl⟩
    · rw [hrule.1, hrule.2, if_neg hc, if_neg hc]
      exact ⟨rfl, rfl⟩
    · rw [hrule.1, Nat.mod_eq_of_lt hlt]
      by_cases hc : now > s.peripheralStateLastChanged.get p +
          (if cfg.output_ms ≠ 0 then cfg.output_ms else 1000)
      · simp [hc]
      · simp only [if_neg hc, hc, iff_false]
        cases getPeripheralState s p <;> decide
  · intro hnag
    rw [runOnce_not_idle cfg now playing s hen hno]
    simp [hnag]

/-- Witness for C19: Signal on since 100 with `output_ms = 1000`; the tick at 1101 inverts
it and stamps it 1101. -/
theorem holding_rule_witness :
    getPeripheralState (runOnce baseConfig 1101 false (episodeState 5000 100)).2 .SIGNAL
        = !getPeripheralState (episodeState 5000 100) .SIGNAL ∧
      (runOnce baseConfig 1101 false (episodeState 5000 100)).2.peripheralStateLastChanged.get
        .SIGNAL = 1101 :=
  ((holding_rule baseConfig 1101 false (episodeState 5000 100) rfl (by decide)).1 rfl
    .SIGNAL).1 (by decide)

/-! ## Peripherals not selected by a flag -/

/-- C20 (as stated, refuted): with `alert_message` the only trigger flag set, buzzer pin 10
and vibration pin 12, Buzzer and Vibration off since time 0, a message at 100 (cutoff 1100)
and one tick at 1100 switch Buzzer and Vibration on and write a high level to both pins. -/
theorem unselected_peripherals_toggle :
    getPeripheralState (quietState 4294967295) .BUZZER = false ∧
      getPeripheralState (quietState 4294967295) .VIBRA = false ∧
      getPeripheralState
        (run { baseConfig with alert_message := true, output_buzzer := 10, output_vibra := 12 }
          1 (quietState 4294967295) (Step.arm 100 plainPacket :: tickSteps [(1100, false)]))
        .BUZZER = true ∧
      getPeripheralState
        (run { baseConfig with alert_message := true, output_buzzer := 10, output_vibra := 12 }
          1 (quietState 4294967295) (Step.arm 100 plainPacket :: tickSteps [(1100, false)]))
        .VIBRA = true ∧
      Effect.digitalWrite 10 true ∈
        (run { baseConfig with alert_message := true, output_buzzer := 10, output_vibra := 12 }
          1 (quietState 4294967295)
          (Step.arm 100 plainPacket :: tickSteps [(1100, false)])).trace ∧
      Effect.digitalWrite 12 true ∈
        (run { baseConfig with alert_message := true, output_buzzer := 10, output_vibra := 12 }
          1 (quietState 4294967295)
          (Step.arm 100 plainPacket :: tickSteps [(1100, false)])).trace := by
  decide

/-- C20 (as amended): with `alert_message` the only trigger flag set, starting from a state
with Buzzer and Vibration off, after an arming call from another node followed by any
sequence of ticks none of which comes later than `(lastChangedAt + hold) mod 2^32` for the
Buzzer or for the Vibration, Buzzer and Vibration are still off and the only pin a high
level was written to is the signal pin. -/
theorem unselected_stay_off_within_hold (cfg : ModuleConfig) (nodeNum now : Nat)
    (mp : MeshPacket) (s : State) (ticks : List (Nat × Bool))
    (hen : cfg.enabled = true) (hfrom : mp.sender ≠ nodeNum)
    (h1 : cfg.alert_message = true) (h2 : cfg.alert_message_buzzer = false)
    (h3 : cfg.alert_message_vibra = false) (h4 : cfg.alert_bell = false)
    (h5 : cfg.alert_bell_buzzer = false) (h6 : cfg.alert_bell_vibra = false)
    (hB : getPeripheralState s .BUZZER = false) (hV : getPeripheralState s .VIBRA = false)
    (hticks : ∀ t ∈ ticks,
      ¬ t.1 > (s.peripheralStateLastChanged.get .BUZZER +
          (if cfg.output_ms ≠ 0 then cfg.output_ms else 1000)) % 4294967296 ∧
      ¬ t.1 > (s.peripheralStateLastChanged.get .VIBRA +
          (if cfg.output_ms ≠ 0 then cfg.output_ms else 1000)) % 4294967296) :
    getPeripheralState (run cfg nodeNum s (Step.arm now mp :: tickSteps ticks)) .BUZZER = false ∧
      getPeripheralState (run cfg nodeNum s (Step.arm now mp :: tickSteps ticks)) .VIBRA
        = false ∧
      ∃ ws : List Effect,
        (run cfg nodeNum s (Step.arm now mp :: tickSteps ticks)).trace = s.trace ++ ws ∧
        ∀ e ∈ ws, ∀ pin : Int, e = Effect.digitalWrite pin true → pin = s.output := by
  have harm : (handleReceived cfg nodeNum now mp s).2 =
      emit (.setIntervalFromNow 0) (armSignal cfg now s) := by
    simp [handleReceived, hen, hfrom, h1, h2, h3, h4, h5, h6]
  have hrun : run cfg nodeNum s (Step.arm now mp :: tickSteps ticks) =
      run cfg nodeNum (emit (.setIntervalFromNow 0) (armSignal cfg now s)) (tickSteps ticks) := by
    simp [run, applyStep, harm]
  have hne1 : Peripheral.BUZZER ≠ Peripheral.SIGNAL := by decide
  have hne2 : Peripheral.VIBRA ≠ Peripheral.SIGNAL := by decide
  have hs1 := armSignal_eq cfg now s
  obtain ⟨k1, k2, ws, k3, k4⟩ := ticks_keep_off cfg nodeNum
    (s.peripheralStateLastChanged.get .BUZZER) (s.peripheralStateLastChanged.get .VIBRA) ticks
    (emit (.setIntervalFromNow 0) (armSignal cfg now s))
    (by rw [hs1]; exact (PerArray.get_set_other _ _ hne1).trans hB)
    (by rw [hs1]; exact (PerArray.get_set_other _ _ hne2).trans hV)
    (fun _ => by
      rw [hs1]
      exact ⟨PerArray.get_set_other _ _ hne1, PerArray.get_set_other _ _ hne2⟩)
    hticks
  rw [hrun]
  refine ⟨k1, k2, onWrites cfg s.output .SIGNAL ++ [Effect.setIntervalFromNow 0] ++ ws, ?_, ?_⟩
  · rw [k3, hs1]
    simp [emit]
  · intro e he pin heq
    have ho : (emit (.setIntervalFromNow 0) (armSignal cfg now s)).output = s.output := by
      rw [hs1]; rfl
    rcases List.mem_append.mp he with he | he
    · rcases List.mem_append.mp he with he | he
      · exact (signal_writes_pin cfg s.output).1 e he pin true heq
      · subst heq
        simp at he
    · rw [← ho]
      exact k4 e he pin heq

/-- Witness for C20: buzzer pin 10 and vibration pin 12, a message at 100 and ticks at 125,
600 and 1000 (all within 1000 ms of the timestamps 0): Buzzer still off. -/
theorem unselected_stay_off_within_hold_witness :
    getPeripheralState
      (run { baseConfig with alert_message := true, output_buzzer := 10, output_vibra := 12 }
        1 (quietState 4294967295)
        (Step.arm 100 plainPacket :: tickSteps [(125, false), (600, false), (1000, false)]))
      .BUZZER = false :=
  (unselected_stay_off_within_hold
    { baseConfig with alert_message := true, output_buzzer := 10, output_vibra := 12 }
    1 100 plainPacket (quietState 4294967295) [(125, false), (600, false), (1000, false)]
    rfl (by decide) rfl rfl rfl rfl rfl rfl rfl rfl (by decide)).1

/-! ## Event arming: classification and effect -/

/-- C21: for a packet from another node with the feature enabled and the three message flags
clear: unless a bell flag is set and some byte below `payload.size` is `0x07`,
`handleReceived` changes nothing but the scheduler request (`isNagging`, the cutoff, every
peripheral and the melody untouched); when a bell flag is set and such a byte exists it arms:
`isNagging` is true afterwards (a change whenever it was false), the cutoff is the armed
value, Signal and Vibration selected by their bell flag are on at `now`, the Buzzer selected
by its bell flag is on at `now` (switched) or one melody begin is issued (tone mode); bytes at
or beyond `payload.size` have no influence. -/
theorem bell_classification (cfg : ModuleConfig) (nodeNum now : Nat) (mp : MeshPacket)
    (s : State) (hen : cfg.enabled = true) (hfrom : mp.sender ≠ nodeNum)
    (h1 : cfg.alert_message = false) (h2 : cfg.alert_message_buzzer = false)
    (h3 : cfg.alert_message_vibra = false) :
    (¬ ((cfg.alert_bell = true ∨ cfg.alert_bell_buzzer = true ∨ cfg.alert_bell_vibra = true) ∧
        ∃ i, i < mp.payload.size ∧ mp.payload.bytes.getD i 0 = 7) →
      (handleReceived cfg nodeNum now mp s).2 = emit (.setIntervalFromNow 0) s) ∧
    (((cfg.alert_bell = true ∨ cfg.alert_bell_buzzer = true ∨ cfg.alert_bell_vibra = true) ∧
        ∃ i, i < mp.payload.size ∧ mp.payload.bytes.getD i 0 = 7) →
      (handleReceived cfg nodeNum now mp s).2.isNagging = true ∧
      (s.isNagging = false → (handleReceived cfg nodeNum now mp s).2.isNagging ≠ s.isNagging) ∧
      (handleReceived cfg nodeNum now mp s).2.nagCycleCutoff =
        (if cfg.nag_timeout > 0 then (now + cfg.nag_timeout * 1000) % 4294967296
         else (now + cfg.output_ms) % 4294967296) ∧
      (cfg.alert_bell = true →
        getPeripheralState (handleReceived cfg nodeNum now mp s).2 .SIGNAL = true ∧
        (handleReceived cfg nodeNum now mp s).2.peripheralStateLastChanged.get .SIGNAL = now) ∧
      (cfg.alert_bell_vibra = true →
        getPeripheralState (handleReceived cfg nodeNum now mp s).2 .VIBRA = true ∧
        (handleReceived cfg nodeNum now mp s).2.peripheralStateLastChanged.get .VIBRA = now) ∧
      (cfg.alert_bell_buzzer = true → cfg.use_pwm = false →
        getPeripheralState (handleReceived cfg nodeNum now mp s).2 .BUZZER = true ∧
        (handleReceived cfg nodeNum now mp s).2.peripheralStateLastChanged.get .BUZZER = now) ∧
      (cfg.alert_bell_buzzer = true → cfg.use_pwm = true →
        ((handleReceived cfg nodeNum now mp s).2.trace.filter Effect.isMelody
          = s.trace.filter Effect.isMelody ++ [Effect.rtttlBegin s.buzzer_gpio s.ringtone]))) ∧
    (∀ bytes2 : List Nat,
      (∀ i, i < mp.payload.size → bytes2.getD i 0 = mp.payload.bytes.getD i 0) →
      handleReceived cfg nodeNum now
          { mp with payload := { size := mp.payload.size, bytes := bytes2 } } s
        = handleReceived cfg nodeNum now mp s) := by
  have hbell := containsBell_iff mp.payload
  refine ⟨fun hno => ?_, fun hyes => ?_, fun bytes2 hb => ?_⟩
  · rw [handleReceived_eq cfg nodeNum now mp s hen hfrom]
    simp only [h1, h2, h3, Bool.false_eq_true, if_false, id]
    cases hc : containsBell mp.payload
    · rfl
    · have hex := hbell.mp hc
      have hflags : ¬ (cfg.alert_bell = true ∨ cfg.alert_bell_buzzer = true ∨
          cfg.alert_bell_vibra = true) := fun hf => hno ⟨hf, hex⟩
      simp only [not_or, Bool.not_eq_true] at hflags
      simp [hflags.1, hflags.2.1, hflags.2.2]
  · obtain ⟨hflags, hex⟩ := hyes
    have hc : containsBell mp.payload = true := hbell.mpr hex
    have hany : anyFlagMatches cfg mp = true := by
      unfold anyFlagMatches
      rcases hflags with h | h | h <;> simp [hc, h]
    obtain ⟨hst, hlast, hnag⟩ := handleReceived_fields cfg nodeNum now mp s hen hfrom
    have hcut := handleReceived_cutoff cfg nodeNum now mp s hen hfrom hany
    rw [armCutoff_eq_mod] at hcut
    have hnag2 : (handleReceived cfg nodeNum now mp s).2.isNagging = true := by
      rw [hnag, hany, Bool.or_true]
    refine ⟨hnag2, ?_, hcut, ?_, ?_, ?_, ?_⟩
    · intro h0
      rw [hnag2, h0]
      decide
    · intro h
      simp [getPeripheralState, hst, hlast, PerArray.get, signalSelected, hc, h]
    · intro h
      simp [getPeripheralState, hst, hlast, PerArray.get, vibraSelected, hc, h]
    · intro h hpwm
      simp [getPeripheralState, hst, hlast, PerArray.get, buzzerSelected, hc, h, hpwm]
    · intro h hpwm
      rw [handleReceived_eq cfg nodeNum now mp s hen hfrom]
      simp only [h1, h2, h3, hc, h, Bool.false_eq_true, if_false, if_true, id, emit_trace]
      cases cfg.alert_bell <;> cases cfg.alert_bell_vibra <;>
        simp [armSignal_eq, armVibra_eq, armBuzzer_eq_pwm, hpwm, List.filter_append,
          filter_isMelody_of_writes _ (onWrites_isWrite cfg _ _), Effect.isMelody]
  · have hc := containsBell_congr mp.payload.size mp.payload.bytes bytes2 hb
    unfold handleReceived
    simp only [hc]

/-- Witness for C21: with `alert_bell` the only flag set, the packet with payload `a`, bell,
`b` arms Signal; `isNagging` is true afterwards. -/
theorem bell_classification_witness :
    (handleReceived { baseConfig with alert_bell := true } 1 100 bellPacket
      (quietState 4294967295)).2.isNagging = true :=
  ((bell_classification { baseConfig with alert_bell := true } 1 100 bellPacket
    (quietState 4294967295) rfl (by decide) rfl rfl rfl).2.1
    ⟨Or.inl rfl, 1, by decide, rfl⟩).1

/-- C22: after `handleReceived` at `now` for a packet from another node with the feature
enabled, where a bell is present when some byte below `payload.size` is `0x07`: Signal is on
with timestamp `now` when `alert_message` is set or a bell is present with `alert_bell` set,
likewise Vibration with its two flags, likewise the Buzzer with its two flags when `use_pwm`
is clear; a peripheral not so selected, and the Buzzer whenever `use_pwm` is set, keeps its
state and timestamp; `isNagging` is set to true when at least one flag matched and is
unchanged otherwise; and the call record ends with a scheduler request with delay 0 in every
case. -/
theorem handleReceived_effect (cfg : ModuleConfig) (nodeNum now : Nat) (mp : MeshPacket)
    (s : State) (hen : cfg.enabled = true) (hfrom : mp.sender ≠ nodeNum) :
    ((cfg.alert_message = true ∨
        ((∃ i, i < mp.payload.size ∧ mp.payload.bytes.getD i 0 = 7) ∧ cfg.alert_bell = true)) →
      getPeripheralState (handleReceived cfg nodeNum now mp s).2 .SIGNAL = true ∧
      (handleReceived cfg nodeNum now mp s).2.peripheralStateLastChanged.get .SIGNAL = now) ∧
    (¬ (cfg.alert_message = true ∨
        ((∃ i, i < mp.payload.size ∧ mp.payload.bytes.getD i 0 = 7) ∧ cfg.alert_bell = true)) →
      getPeripheralState (handleReceived cfg nodeNum now mp s).2 .SIGNAL
        = getPeripheralState s .SIGNAL ∧
      (handleReceived cfg nodeNum now mp s).2.peripheralStateLastChanged.get .SIGNAL
        = s.peripheralStateLastChanged.get .SIGNAL) ∧
    ((cfg.alert_message_vibra = true ∨
        ((∃ i, i < mp.payload.size ∧ mp.payload.bytes.getD i 0 = 7) ∧
          cfg.alert_bell_vibra = true)) →
      getPeripheralState (handleReceived cfg nodeNum now mp s).2 .VIBRA = true ∧
      (handleReceived cfg nodeNum now mp s).2.peripheralStateLastChanged.get .VIBRA = now) ∧
    (¬ (cfg.alert_message_vibra = true ∨
        ((∃ i, i < mp.payload.size ∧ mp.payload.bytes.getD i 0 = 7) ∧
          cfg.alert_bell_vibra = true)) →
      getPeripheralState (handleReceived cfg nodeNum now mp s).2 .VIBRA
        = getPeripheralState s .VIBRA ∧
      (handleReceived cfg nodeNum now mp s).2.peripheralStateLastChanged.get .VIBRA
        = s.peripheralStateLastChanged.get .VIBRA) ∧
    ((cfg.alert_message_buzzer = true ∨
        ((∃ i, i < mp.payload.size ∧ mp.payload.bytes.getD i 0 = 7) ∧
          cfg.alert_bell_buzzer = true)) → cfg.use_pwm = false →
      getPeripheralState (handleReceived cfg nodeNum now mp s).2 .BUZZER = true ∧
      (handleReceived cfg nodeNum now mp s).2.peripheralStateLastChanged.get .BUZZER = now) ∧
    (¬ (cfg.alert_message_buzzer = true ∨
        ((∃ i, i < mp.payload.size ∧ mp.payload.bytes.getD i 0 = 7) ∧
          cfg.alert_bell_buzzer = true)) ∨ cfg.use_pwm = true →
      getPeripheralState (handleReceived cfg nodeNum now mp s).2 .BUZZER
        = getPeripheralState s .BUZZER ∧
      (handleReceived cfg nodeNum now mp s).2.peripheralStateLastChanged.get .BUZZER
        = s.peripheralStateLastChanged.get .BUZZER) ∧
    ((cfg.alert_message = true ∨ cfg.alert_message_buzzer = true ∨
        cfg.alert_message_vibra = true ∨
        ((∃ i, i < mp.payload.size ∧ mp.payload.bytes.getD i 0 = 7) ∧
          (cfg.alert_bell = true ∨ cfg.alert_bell_buzzer = true ∨
            cfg.alert_bell_vibra = true))) →
      (handleReceived cfg nodeNum now mp s).2.isNagging = true) ∧
    (¬ (cfg.alert_message = true ∨ cfg.alert_message_buzzer = true ∨
        cfg.alert_message_vibra = true ∨
        ((∃ i, i < mp.payload.size ∧ mp.payload.bytes.getD i 0 = 7) ∧
          (cfg.alert_bell = true ∨ cfg.alert_bell_buzzer = true ∨
            cfg.alert_bell_vibra = true))) →
      (handleReceived cfg nodeNum now mp s).2.isNagging = s.isNagging) ∧
    (∃ ws : List Effect, (handleReceived cfg nodeNum now mp s).2.trace
      = s.trace ++ ws ++ [Effect.setIntervalFromNow 0]) := by
  obtain ⟨hst, hlast, hnag⟩ := handleReceived_fields cfg nodeNum now mp s hen hfrom
  refine ⟨?_, ?_, ?_, ?_, ?_, ?_, ?_, ?_, handleReceived_trace cfg nodeNum now mp s hen hfrom⟩
  · intro h
    have hs := (signalSelected_iff cfg mp).mpr h
    simp [getPeripheralState, hst, hlast, PerArray.get, hs]
  · intro h
    have hs : signalSelected cfg mp = false :=
      Bool.eq_false_iff.mpr (fun hc => h ((signalSelected_iff cfg mp).mp hc))
    simp [getPeripheralState, hst, hlast, PerArray.get, hs]
  · intro h
    have hs := (vibraSelected_iff cfg mp).mpr h
    simp [getPeripheralState, hst, hlast, PerArray.get, hs]
  · intro h
    have hs : vibraSelected cfg mp = false :=
      Bool.eq_false_iff.mpr (fun hc => h ((vibraSelected_iff cfg mp).mp hc))
    simp [getPeripheralState, hst, hlast, PerArray.get, hs]
  · intro h hpwm
    have hs := (buzzerSelected_iff cfg mp).mpr h
    simp [getPeripheralState, hst, hlast, PerArray.get, hs, hpwm]
  · intro h
    rcases h with h | h
    · have hs : buzzerSelected cfg mp = false :=
        Bool.eq_false_iff.mpr (fun hc => h ((buzzerSelected_iff cfg mp).mp hc))
      simp [getPeripheralState, hst, hlast, PerArray.get, hs]
    · simp [getPeripheralState, hst, hlast, PerArray.get, h]
  · intro h
    rw [hnag, (anyFlagMatches_iff cfg mp).mpr h, Bool.or_true]
  · intro h
    have hs : anyFlagMatches cfg mp = false :=
      Bool.eq_false_iff.mpr (fun hc => h ((anyFlagMatches_iff cfg mp).mp hc))
    rw [hnag, hs, Bool.or_false]

/-- Witness for C22: with `alert_bell` the only flag set, the packet with payload `a`, bell,
`b` at 100 leaves Signal on with timestamp 100. -/
theorem handleReceived_effect_witness :
    getPeripheralState (handleReceived { baseConfig with alert_bell := true } 1 100
        bellPacket (quietState 4294967295)).2 .SIGNAL = true ∧
      (handleReceived { baseConfig with alert_bell := true } 1 100 bellPacket
        (quietState 4294967295)).2.peripheralStateLastChanged.get .SIGNAL = 100 :=
  (handleReceived_effect { baseConfig with alert_bell := true } 1 100 bellPacket
    (quietState 4294967295) rfl (by decide)).1 (Or.inr ⟨⟨1, by decide, rfl⟩, rfl⟩)

/-! ## Admin requests -/

/-- C23 (the code at the failing input): for a get-ringtone request carried by a packet with
`want_response` clear, `handleAdminMessageForModule` returns `HANDLED_WITH_RESPONSE` although
no result was prepared: the response is returned as it was, its tag is not
`get_ringtone_response`. -/
theorem get_ringtone_without_response :
    handleAdminMessageForModule 231 231 plainPacket
        { which_payload_variant := AdminTag.get_ringtone_request_tag, payload_variant := [] }
        (quietState 0) emptyResponse
      = (AdminMessageHandleResult.HANDLED_WITH_RESPONSE, quietState 0, emptyResponse) ∧
    plainPacket.want_response = false ∧
    emptyResponse.which_payload_variant ≠ AdminTag.get_ringtone_response_tag := by
  decide

/-! ## Construction -/

/-- C24: after construction with the feature enabled the member `output` is the configured
`output` when that is non-zero and the board default `EXT_NOTIFICATION_MODULE_OUTPUT`
otherwise (2 on the EBYTE_ESP32-S3 variant, 0 when the variant defines no `EXT_NOTIFY_OUT`);
`pinMode` is called for that pin exactly when it is `> 0`; and Signal's bookkeeping state is
off. -/
theorem constructor_signal_pin (cfg : ModuleConfig) (extNotifyOut variantPinBuzzer : Option Nat)
    (ringtoneSize : Nat) (loaded : Option (List Nat)) (now : Nat) (s : State)
    (hen : cfg.enabled = true) :
    (cfg.output ≠ 0 →
      (ExternalNotificationModule cfg extNotifyOut variantPinBuzzer ringtoneSize loaded now
        s).output = cfg.output) ∧
    (cfg.output = 0 →
      (ExternalNotificationModule cfg extNotifyOut variantPinBuzzer ringtoneSize loaded now
        s).output = EXT_NOTIFICATION_MODULE_OUTPUT extNotifyOut) ∧
    EXT_NOTIFICATION_MODULE_OUTPUT EBYTE_ESP32_S3_EXT_NOTIFY_OUT = 2 ∧
    EXT_NOTIFICATION_MODULE_OUTPUT none = 0 ∧
    (∃ ws : List Effect,
      (ExternalNotificationModule cfg extNotifyOut variantPinBuzzer ringtoneSize loaded now
        s).trace = s.trace ++ ws ∧
      (Effect.pinMode (ExternalNotificationModule cfg extNotifyOut variantPinBuzzer ringtoneSize
          loaded now s).output ∈ ws ↔
        (ExternalNotificationModule cfg extNotifyOut variantPinBuzzer ringtoneSize loaded now
          s).output > 0)) ∧
    getPeripheralState
      (ExternalNotificationModule cfg extNotifyOut variantPinBuzzer ringtoneSize loaded now s)
      .SIGNAL = false := by
  have hout := constructor_output cfg extNotifyOut variantPinBuzzer ringtoneSize loaded now s hen
  refine ⟨fun h => ?_, fun h => ?_, rfl, rfl, ?_, ?_⟩
  · rw [hout, signalPin, if_pos h]
  · rw [hout, signalPin, if_neg (not_not.mpr h)]
  · refine ⟨constructorCalls cfg (signalPin cfg extNotifyOut),
      constructor_trace cfg extNotifyOut variantPinBuzzer ringtoneSize loaded now s hen, ?_⟩
    rw [hout]
    constructor
    · exact constructorCalls_pinMode cfg _ _
    · intro hp
      unfold constructorCalls
      rw [if_pos hp]
      exact List.mem_append_left _ (List.mem_singleton.mpr rfl)
  · exact constructor_signal_off cfg extNotifyOut variantPinBuzzer ringtoneSize loaded now s hen

/-- Witness for C24: nothing configured on the EBYTE_ESP32-S3 variant: the signal pin is the
board default 2. -/
theorem constructor_signal_pin_witness :
    (ExternalNotificationModule baseConfig EBYTE_ESP32_S3_EXT_NOTIFY_OUT
        EBYTE_ESP32_S3_PIN_BUZZER 231 none 5 (quietState 1)).output
      = EXT_NOTIFICATION_MODULE_OUTPUT EBYTE_ESP32_S3_EXT_NOTIFY_OUT :=
  (constructor_signal_pin baseConfig EBYTE_ESP32_S3_EXT_NOTIFY_OUT EBYTE_ESP32_S3_PIN_BUZZER 231
    none 5 (quietState 1) rfl).2.1 rfl

/-! ## Episodes -/

/-- C25: after an arming call at `now` in which at least one flag matches, with
`now + (nag_timeout*1000 or output_ms)` below `2^32`, the cutoff is that sum and every tick
with the feature enabled at a time `t ≤ cutoff`, following any ticks that were themselves at
or before the cutoff, returns 25 and leaves `isNagging` true and the cutoff unchanged
(whatever the melody status, also when `nag_timeout = 0` and `output_ms = 0`). -/
theorem armed_episode_survives (cfg : ModuleConfig) (nodeNum now : Nat) (mp : MeshPacket)
    (s : State) (pre : List (Nat × Bool)) (t : Nat) (playing : Bool)
    (hen : cfg.enabled = true) (hfrom : mp.sender ≠ nodeNum)
    (hflag : anyFlagMatches cfg mp = true)
    (hsum : now + (if cfg.nag_timeout > 0 then cfg.nag_timeout * 1000 else cfg.output_ms)
      < 4294967296)
    (hpre : ∀ x ∈ pre,
      x.1 ≤ now + (if cfg.nag_timeout > 0 then cfg.nag_timeout * 1000 else cfg.output_ms))
    (ht : t ≤ now + (if cfg.nag_timeout > 0 then cfg.nag_timeout * 1000 else cfg.output_ms)) :
    (handleReceived cfg nodeNum now mp s).2.nagCycleCutoff
        = now + (if cfg.nag_timeout > 0 then cfg.nag_timeout * 1000 else cfg.output_ms) ∧
      (runOnce cfg t playing
        (run cfg nodeNum s (Step.arm now mp :: tickSteps pre))).1 = 25 ∧
      (runOnce cfg t playing
        (run cfg nodeNum s (Step.arm now mp :: tickSteps pre))).2.isNagging = true ∧
      (runOnce cfg t playing
        (run cfg nodeNum s (Step.arm now mp :: tickSteps pre))).2.nagCycleCutoff
        = now + (if cfg.nag_timeout > 0 then cfg.nag_timeout * 1000 else cfg.output_ms) := by
  have hcut : (handleReceived cfg nodeNum now mp s).2.nagCycleCutoff
      = now + (if cfg.nag_timeout > 0 then cfg.nag_timeout * 1000 else cfg.output_ms) := by
    rw [handleReceived_cutoff cfg nodeNum now mp s hen hfrom hflag, armCutoff_eq_mod]
    split_ifs at hsum ⊢ <;> exact Nat.mod_eq_of_lt hsum
  have hnag : (handleReceived cfg nodeNum now mp s).2.isNagging = true := by
    rw [(handleReceived_fields cfg nodeNum now mp s hen hfrom).2.2, hflag, Bool.or_true]
  obtain ⟨k1, k2, _⟩ := ticks_within_cutoff cfg nodeNum hen pre
    (handleReceived cfg nodeNum now mp s).2 hnag (fun x hx => by rw [hcut]; exact hpre x hx)
  rw [run_arm_cons]
  obtain ⟨_, r1, r2, r3⟩ := runOnce_within_cutoff cfg t playing _ hen k1
    (by rw [k2, hcut]; exact ht)
  exact ⟨hcut, r1, r2, by rw [r3, k2, hcut]⟩

/-- Witness for C25: `nag_timeout = 0` and `output_ms = 0`: armed at 100, the cutoff is 100
and the tick at 100 returns 25. -/
theorem armed_episode_survives_witness :
    (runOnce { baseConfig with alert_message := true, output_ms := 0 } 100 false
      (run { baseConfig with alert_message := true, output_ms := 0 } 1 (quietState 4294967295)
        (Step.arm 100 plainPacket :: tickSteps [(100, false)]))).1 = 25 :=
  (armed_episode_survives { baseConfig with alert_message := true, output_ms := 0 } 1 100
    plainPacket (quietState 4294967295) [(100, false)] 100 false rfl (by decide) rfl
    (by decide) (by decide) (by decide)).2.1

/-- C26 (as stated, refuted): `output_ms = 1000`, `nag_timeout = 0`, `alert_message` set.
The arming call reads the clock as 100 for Signal's timestamp (line 160) and as 101 for the
cutoff (line 346), so the cutoff is 1101. The tick that reads 1101 inverts Signal (off),
returns 25 and leaves `isNagging` true: with `t0 = 101` Signal is not kept on at a tick with
`t ≤ t0 + d`, and with `t0 = 100` the first tick with `t > t0 + d` neither clears `isNagging`
nor returns `INT32_MAX`. -/
theorem single_pulse_skewed_reads :
    (handleReceivedAt { baseConfig with alert_message := true } 1 skewedReads plainPacket
        (quietState 4294967295)).2.peripheralStateLastChanged.get .SIGNAL = 100 ∧
      (handleReceivedAt { baseConfig with alert_message := true } 1 skewedReads plainPacket
        (quietState 4294967295)).2.nagCycleCutoff = 1101 ∧
      getPeripheralState
        (handleReceivedAt { baseConfig with alert_message := true } 1 skewedReads plainPacket
          (quietState 4294967295)).2 .SIGNAL = true ∧
      (runOnceAt { baseConfig with alert_message := true } (TickReads.const 1101) false
        (handleReceivedAt { baseConfig with alert_message := true } 1 skewedReads plainPacket
          (quietState 4294967295)).2).1 = 25 ∧
      getPeripheralState
        (runOnceAt { baseConfig with alert_message := true } (TickReads.const 1101) false
          (handleReceivedAt { baseConfig with alert_message := true } 1 skewedReads plainPacket
            (quietState 4294967295)).2).2 .SIGNAL = false ∧
      (runOnceAt { baseConfig with alert_message := true } (TickReads.const 1101) false
        (handleReceivedAt { baseConfig with alert_message := true } 1 skewedReads plainPacket
          (quietState 4294967295)).2).2.isNagging = true := by
  decide

/-- C26 (as amended): with the feature enabled, `nag_timeout = 0`, `output_ms = d > 0`, after
an arming call that selects `p` in {Signal, Vibration} (by its message flag, or by its bell
flag when some byte below `payload.size` is `0x07`) and whose clock reads all lie between
`ta` and `tb`, with `tb + d` below `2^32`: `p` is on after every sequence of ticks whose Idle
test and whose line 96 test for `p` read clock values `≤ ta + d`; and after ticks whose Idle
test read `≤ ta + d`, the first tick whose Idle test reads a value `> tb + d` with the melody
not playing turns `p` off, clears `isNagging` and returns `INT32_MAX`. When the arming call
reads one clock value `t0` throughout (`ta = tb = t0`) this is the single pulse up to
`t0 + d`. -/
theorem single_pulse (cfg : ModuleConfig) (nodeNum : Nat) (r : ArmReads) (mp : MeshPacket)
    (s : State) (p : Peripheral) (ta tb : Nat)
    (hen : cfg.enabled = true) (hfrom : mp.sender ≠ nodeNum)
    (hnag0 : cfg.nag_timeout = 0) (hd : cfg.output_ms > 0)
    (hr : ∀ k, ta ≤ r.stamp k ∧ r.stamp k ≤ tb ∧ ta ≤ r.cut k ∧ r.cut k ≤ tb)
    (hsum : tb + cfg.output_ms < 4294967296)
    (hsel : (p = Peripheral.SIGNAL ∧
        (cfg.alert_message = true ∨
          ((∃ i, i < mp.payload.size ∧ mp.payload.bytes.getD i 0 = 7) ∧
            cfg.alert_bell = true))) ∨
      (p = Peripheral.VIBRA ∧
        (cfg.alert_message_vibra = true ∨
          ((∃ i, i < mp.payload.size ∧ mp.payload.bytes.getD i 0 = 7) ∧
            cfg.alert_bell_vibra = true)))) :
    (∀ pre : List (TickReads × Bool),
      (∀ x ∈ pre, x.1.idleTest ≤ ta + cfg.output_ms ∧
        x.1.holdTest.get p ≤ ta + cfg.output_ms) →
      getPeripheralState
        (runTicksAt cfg (handleReceivedAt cfg nodeNum r mp s).2 pre) p = true) ∧
    (∀ (pre : List (TickReads × Bool)) (x : TickReads),
      (∀ y ∈ pre, y.1.idleTest ≤ ta + cfg.output_ms) →
      x.idleTest > tb + cfg.output_ms →
      (runOnceAt cfg x false
        (runTicksAt cfg (handleReceivedAt cfg nodeNum r mp s).2 pre)).1 = INT32_MAX ∧
      getPeripheralState
        (runOnceAt cfg x false
          (runTicksAt cfg (handleReceivedAt cfg nodeNum r mp s).2 pre)).2 p = false ∧
      (runOnceAt cfg x false
        (runTicksAt cfg (handleReceivedAt cfg nodeNum r mp s).2 pre)).2.isNagging = false) := by
  have hsel2 : (p = Peripheral.SIGNAL ∧ signalSelected cfg mp = true) ∨
      (p = Peripheral.VIBRA ∧ vibraSelected cfg mp = true) := by
    rcases hsel with ⟨hp, h⟩ | ⟨hp, h⟩
    · exact Or.inl ⟨hp, (signalSelected_iff cfg mp).mpr h⟩
    · exact Or.inr ⟨hp, (vibraSelected_iff cfg mp).mpr h⟩
  obtain ⟨a1, a2, a3, a4, a5, a6⟩ :=
    handleReceivedAt_pulse cfg nodeNum r mp s p ta tb hen hfrom hnag0 hr hsum hsel2
  have hd0 : cfg.output_ms ≠ 0 := by omega
  have hhold : holdDuration cfg = cfg.output_ms := by simp [holdDuration, hd0]
  constructor
  · intro pre hpre
    obtain ⟨_, _, k3⟩ := ticksAt_keep cfg hen pre (handleReceivedAt cfg nodeNum r mp s).2 a1
      (fun x hx => Nat.le_trans (hpre x hx).1 a5)
    have := (k3 p (by rw [hhold]; omega)
      (fun x hx => by rw [hhold]; have := (hpre x hx).2; omega)).1
    rw [getPeripheralState, this, a2]
  · intro pre x hpre hx
    obtain ⟨_, k2, _⟩ := ticksAt_keep cfg hen pre (handleReceivedAt cfg nodeNum r mp s).2 a1
      (fun y hy => Nat.le_trans (hpre y hy) a5)
    have hgt : x.idleTest >
        (runTicksAt cfg (handleReceivedAt cfg nodeNum r mp s).2 pre).nagCycleCutoff := by
      rw [k2]; omega
    rw [runOnceAt_idle cfg x false _ hen hgt rfl]
    refine ⟨rfl, ?_, rfl⟩
    rcases hsel with ⟨hp, _⟩ | ⟨hp, _⟩ <;> subst hp <;>
      simp [getPeripheralState, PerArray.get, PerArray.set]

/-- Witness for C26: `alert_bell` with a bell packet, clock reads 100 and 101 in the arming
call (`ta = 100`, `tb = 101`), `output_ms = 1000`: Signal is on after the ticks at 125 and
1100 and is switched off by the tick at 1102. -/
theorem single_pulse_witness :
    getPeripheralState
        (runTicksAt { baseConfig with alert_bell := true }
          (handleReceivedAt { baseConfig with alert_bell := true } 1 skewedReads bellPacket
            (quietState 4294967295)).2
          [(TickReads.const 125, false), (TickReads.const 1100, false)]) .SIGNAL = true ∧
    getPeripheralState
        (runOnceAt { baseConfig with alert_bell := true } (TickReads.const 1102) false
          (runTicksAt { baseConfig with alert_bell := true }
            (handleReceivedAt { baseConfig with alert_bell := true } 1 skewedReads bellPacket
              (quietState 4294967295)).2
            [(TickReads.const 125, false), (TickReads.const 1100, false)])).2 .SIGNAL
      = false :=
  ⟨(single_pulse { baseConfig with alert_bell := true } 1 skewedReads bellPacket
      (quietState 4294967295) .SIGNAL 100 101 rfl (by decide) rfl (by decide)
      (fun _ => ⟨(by decide : (100 : Nat) ≤ 100), (by decide : (100 : Nat) ≤ 101),
        (by decide : (100 : Nat) ≤ 101), (by decide : (101 : Nat) ≤ 101)⟩) (by decide)
      (Or.inl ⟨rfl, Or.inr ⟨⟨1, by decide, rfl⟩, rfl⟩⟩)).1
      [(TickReads.const 125, false), (TickReads.const 1100, false)] (by decide),
   ((single_pulse { baseConfig with alert_bell := true } 1 skewedReads bellPacket
      (quietState 4294967295) .SIGNAL 100 101 rfl (by decide) rfl (by decide)
      (fun _ => ⟨(by decide : (100 : Nat) ≤ 100), (by decide : (100 : Nat) ≤ 101),
        (by decide : (100 : Nat) ≤ 101), (by decide : (101 : Nat) ≤ 101)⟩) (by decide)
      (Or.inl ⟨rfl, Or.inr ⟨⟨1, by decide, rfl⟩, rfl⟩⟩)).2
      [(TickReads.const 125, false), (TickReads.const 1100, false)] (TickReads.const 1102)
      (by decide) (by decide)).2.1⟩

/-! ## 32-bit time arithmetic -/

/-- C27: for 32-bit clock values, `output_ms` and timestamps: the cutoff stored by an arming
call is `(now + ((nag_timeout * 1000) mod 2^32)) mod 2^32` when `nag_timeout > 0` and
`(now + output_ms) mod 2^32` otherwise; it is `≥ now` exactly when the sum before the last
reduction is below `2^32`, and then equals it; the loop body of line 96 inverts `p` exactly
when `t > (lastChangedAt + hold) mod 2^32`, and this agrees with the integer comparison
`t > lastChangedAt + hold` at every clock value exactly when `lastChangedAt + hold` is below
`2^32`. -/
theorem uint32_time_arithmetic (cfg : ModuleConfig) (nodeNum now : Nat) (mp : MeshPacket)
    (s : State) (p : Peripheral)
    (hen : cfg.enabled = true) (hfrom : mp.sender ≠ nodeNum)
    (hflag : anyFlagMatches cfg mp = true)
    (hnow : now < 4294967296) (hms : cfg.output_ms < 4294967296)
    (hlast : s.peripheralStateLastChanged.get p < 4294967296) :
    (handleReceived cfg nodeNum now mp s).2.nagCycleCutoff =
        (if cfg.nag_timeout > 0 then (now + (cfg.nag_timeout * 1000) % 4294967296) % 4294967296
         else (now + cfg.output_ms) % 4294967296) ∧
    ((now + (if cfg.nag_timeout > 0 then (cfg.nag_timeout * 1000) % 4294967296
             else cfg.output_ms) < 4294967296) ↔
      (handleReceived cfg nodeNum now mp s).2.nagCycleCutoff ≥ now) ∧
    ((now + (if cfg.nag_timeout > 0 then (cfg.nag_timeout * 1000) % 4294967296
             else cfg.output_ms) < 4294967296) →
      (handleReceived cfg nodeNum now mp s).2.nagCycleCutoff =
        now + (if cfg.nag_timeout > 0 then (cfg.nag_timeout * 1000) % 4294967296
               else cfg.output_ms)) ∧
    (∀ t : Nat,
      (getPeripheralState (togglePeripheral cfg t s p) p ≠ getPeripheralState s p ↔
        t > (s.peripheralStateLastChanged.get p +
              (if cfg.output_ms ≠ 0 then cfg.output_ms else 1000)) % 4294967296)) ∧
    ((∀ t : Nat, t < 4294967296 →
        (getPeripheralState (togglePeripheral cfg t s p) p ≠ getPeripheralState s p ↔
          t > s.peripheralStateLastChanged.get p +
                (if cfg.output_ms ≠ 0 then cfg.output_ms else 1000))) ↔
      s.peripheralStateLastChanged.get p +
          (if cfg.output_ms ≠ 0 then cfg.output_ms else 1000) < 4294967296) := by
  have hcut : (handleReceived cfg nodeNum now mp s).2.nagCycleCutoff =
      (if cfg.nag_timeout > 0 then (now + (cfg.nag_timeout * 1000) % 4294967296) % 4294967296
       else (now + cfg.output_ms) % 4294967296) := by
    rw [handleReceived_cutoff cfg nodeNum now mp s hen hfrom hflag]
    unfold armCutoff u32
    by_cases h : cfg.nag_timeout = 0
    · have h2 : ¬ cfg.nag_timeout > 0 := by omega
      simp [h]
    · have h2 : cfg.nag_timeout > 0 := Nat.pos_of_ne_zero h
      simp [h, h2]
  have htog : ∀ t : Nat,
      (getPeripheralState (togglePeripheral cfg t s p) p ≠ getPeripheralState s p ↔
        t > (s.peripheralStateLastChanged.get p +
              (if cfg.output_ms ≠ 0 then cfg.output_ms else 1000)) % 4294967296) := by
    intro t
    have hd : holdDuration cfg = (if cfg.output_ms ≠ 0 then cfg.output_ms else 1000) := rfl
    simp only [getPeripheralState, togglePeripheral_state_same, u32, hd]
    by_cases hc : t > (s.peripheralStateLastChanged.get p +
        (if cfg.output_ms ≠ 0 then cfg.output_ms else 1000)) % 4294967296
    · simp only [if_pos hc, hc, iff_true]
      cases s.peripheralState.get p <;> decide
    · simp only [if_neg hc, hc, iff_false]
      exact fun h => h rfl
  refine ⟨hcut, ?_, ?_, htog, ?_⟩
  · rw [hcut]
    by_cases h : cfg.nag_timeout > 0
    · simp only [if_pos h]
      have := Nat.mod_lt (cfg.nag_timeout * 1000) (show 4294967296 > 0 by decide)
      omega
    · simp only [if_neg h]
      omega
  · intro hlt
    rw [hcut]
    by_cases h : cfg.nag_timeout > 0
    · simp only [if_pos h] at hlt ⊢
      exact Nat.mod_eq_of_lt hlt
    · simp only [if_neg h] at hlt ⊢
      exact Nat.mod_eq_of_lt hlt
  · have hh : (if cfg.output_ms ≠ 0 then cfg.output_ms else 1000) < 4294967296 := by
      split_ifs <;> omega
    generalize (if cfg.output_ms ≠ 0 then cfg.output_ms else 1000) = hold at htog hh ⊢
    constructor
    · intro hall
      by_contra hge
      have h2 : 4294967295 > (s.peripheralStateLastChanged.get p + hold) % 4294967296 := by
        omega
      have h3 := (hall 4294967295 (by decide)).mp ((htog 4294967295).mpr h2)
      omega
    · intro hlt t _
      rw [htog t, Nat.mod_eq_of_lt hlt]

/-- Witness for C27: armed at `4294967295` with `output_ms = 500`, the stored cutoff is 499,
below `now`, and the sum `4294967795` is not below `2^32`. -/
theorem uint32_time_arithmetic_witness :
    (handleReceived { baseConfig with alert_message := true, output_ms := 500 } 1 4294967295
        plainPacket (quietState 4294967295)).2.nagCycleCutoff
      = (4294967295 + 500) % 4294967296 :=
  (uint32_time_arithmetic { baseConfig with alert_message := true, output_ms := 500 } 1
    4294967295 plainPacket (quietState 4294967295) .SIGNAL rfl (by decide) rfl (by decide)
    (by decide) (by decide)).1

end ExternalNotification
